import Mathlib

/-!
Shallow embedding of the mod-file validation and extraction pipeline of
`src/orig.js` (class `modFileChecker`).  The external collaborators
(file-access layer, XML parser, icon decoder, crop reader, log collector,
locale provider) are out of scope of the source and are modelled as oracle
fields of an `Env` record supplied to the pipeline; the logic of the class
itself is translated statement by statement.  Logging calls are omitted
(the log collector is append-only and never read by the pipeline).
-/

/-! ## String helpers (Node `path` and JS regex equivalents)

The JS string methods are modelled by structurally recursive functions on
the character list of a `String`, so that every definition evaluates by
kernel reduction on concrete inputs. -/

/-- Prefix test on character lists (`pat` is a prefix of `hay`). -/
def charListPrefix : List Char → List Char → Bool
  | [], _ => true
  | _ :: _, [] => false
  | a :: as, b :: bs => a == b && charListPrefix as bs

/-- Infix test on character lists (`pat` occurs inside `hay`). -/
def charListInfix (pat : List Char) : List Char → Bool
  | [] => charListPrefix pat []
  | c :: cs => charListPrefix pat (c :: cs) || charListInfix pat cs

/-- JS `String.prototype.startsWith`. -/
def strStartsWith (s pre : String) : Bool :=
  charListPrefix pre.data s.data

/-- JS `String.prototype.endsWith`. -/
def strEndsWith (s post : String) : Bool :=
  charListPrefix post.data.reverse s.data.reverse

/-- Substring test: `s` contains `pat` (a nonempty literal pattern), as used
for the JS regex literals `/unzip/`, `/\.deleteFolder/`, `/\.deleteFile/`. -/
def containsSubstr (s pat : String) : Bool :=
  charListInfix pat.data s.data

/-- JS `String.prototype.includes(' ')` specialized to one character. -/
def strContainsChar (s : String) (c : Char) : Bool :=
  s.data.contains c

/-- JS `String.prototype.toLowerCase` (ASCII, as the inputs here are). -/
def strToLower (s : String) : String :=
  String.mk (s.data.map Char.toLower)

/-- JS `String.prototype.toUpperCase` (ASCII). -/
def strToUpper (s : String) : String :=
  String.mk (s.data.map Char.toUpper)

/-- Index of the last `.` in a list of characters, if any. -/
def lastDotIdx (cs : List Char) : Option Nat :=
  ((cs.enum.filter (fun p => p.2 == '.')).map (fun p => p.1)).getLast?

/-- Split a path base name into (name, ext) following Node `path.parse`:
the extension starts at the last dot unless that dot is the first
character (hidden files keep the dot in the name and have empty ext). -/
def splitBaseExt (base : String) : String × String :=
  match lastDotIdx base.data with
  | none => (base, "")
  | some 0 => (base, "")
  | some i => (String.mk (base.data.take i), String.mk (base.data.drop i))

/-- Last `/`-separated segment of a path (POSIX base name; the source runs
on entry names and mod paths that use forward slashes). -/
def lastSegment (p : String) : String :=
  String.mk (p.data.foldl (fun acc c => if c = '/' then [] else acc ++ [c]) [])

/-- Node `path.parse(p).name`: base name without its extension. -/
def pathParseName (p : String) : String :=
  (splitBaseExt (lastSegment p)).1

/-- Node `path.extname(p)`: extension of the base name including the dot,
or the empty string. -/
def path_extname (p : String) : String :=
  (splitBaseExt (lastSegment p)).2

/-- JS `\w` character class (ASCII word character). -/
def isWordChar (c : Char) : Bool :=
  c.isAlpha || c.isDigit || c == '_'

/-- JS regex `/^\d/`: the string starts with an ASCII digit. -/
def startsWithDigit (s : String) : Bool :=
  match s.data with
  | [] => false
  | c :: _ => c.isDigit

/-- JS regex `/^[A-Z_a-z]\w+$/`: an initial letter or underscore followed by
at least one word character, covering the whole string. -/
def matchIdentPattern (s : String) : Bool :=
  match s.data with
  | [] => false
  | c :: rest => (c.isAlpha || c == '_') && !rest.isEmpty && rest.all isWordChar

/-- JS regex `/unzip/i` applied to a short name: case-insensitive substring. -/
def containsUnzipCI (s : String) : Bool :=
  containsSubstr (strToLower s) "unzip"

/-- JS regex `/^([A-Za-z]\w+)(?: - .+$| \(.+$)/`.  The captured group is a
maximal word-character prefix (the separator begins with a space, which is
not a word character, so greedy matching with backtracking can only succeed
on the maximal prefix); the remainder must be " - " or " (" followed by at
least one character reaching the end of the string (`.` does not match a
newline and `$` in JS without the `m` flag only matches at the very end). -/
def copyNameMatch (s : String) : Option String :=
  let cs := s.data
  let p := cs.takeWhile isWordChar
  let rest := cs.dropWhile isWordChar
  if (p.headD ' ').isAlpha && p.length ≥ 2 then
    if charListPrefix [' ', '-', ' '] rest && (rest.drop 3).length ≥ 1
        && !(rest.drop 3).contains '\n' then
      some (String.mk p)
    else if charListPrefix [' ', '('] rest && (rest.drop 2).length ≥ 1
        && !(rest.drop 2).contains '\n' then
      some (String.mk p)
    else none
  else none

/-! ## Data model -/

/-- One archive entry as reported by the file-access collaborator: the entry
name from `modHandle.list` together with the `fileInfo` fields the walk
reads (`isFolder`, `size`). -/
structure Entry where
  name : String
  isFolder : Bool
  size : Nat
deriving DecidableEq

/-- The `#flag_broken` map of `modFileChecker`, declaration order preserved. -/
structure FlagBroken where
  FILE_ERROR_GARBAGE_FILE : Bool := false
  FILE_ERROR_LIKELY_COPY : Bool := false
  FILE_ERROR_LIKELY_ZIP_PACK : Bool := false
  FILE_ERROR_NAME_INVALID : Bool := false
  FILE_ERROR_NAME_STARTS_DIGIT : Bool := false
  FILE_ERROR_UNREADABLE_ZIP : Bool := false
  FILE_ERROR_UNSUPPORTED_ARCHIVE : Bool := false
  MOD_ERROR_NO_MOD_VERSION : Bool := false
  NOT_MOD_MODDESC_MISSING : Bool := false
  NOT_MOD_MODDESC_PARSE_ERROR : Bool := false
  NOT_MOD_MODDESC_VERSION_OLD_OR_MISSING : Bool := false
deriving DecidableEq

/-- The `#flag_info` map.  `PERF_L10N_NOT_SET` is not declared in this map
in the source; `#doStep_l10n` nevertheless assigns
`this.#flag_info.PERF_L10N_NOT_SET`, which in JS creates the key on the
info object.  The `Option Bool` field models that dynamically created key
(`none` = key absent, as at construction). -/
structure FlagInfo where
  INFO_NO_MULTIPLAYER_UNZIPPED : Bool := false
  FILE_IS_A_SAVEGAME : Bool := false
  MALICIOUS_CODE : Bool := false
  PERF_L10N_NOT_SET : Option Bool := none
deriving DecidableEq

/-- The `#flag_problem` map, declaration order preserved. -/
structure FlagProblem where
  INFO_MIGHT_BE_PIRACY : Bool := false
  MOD_ERROR_MODDESC_DAMAGED_RECOVERABLE : Bool := false
  MOD_ERROR_NO_MOD_ICON : Bool := false
  PERF_DDS_TOO_BIG : Bool := false
  PERF_GDM_TOO_BIG : Bool := false
  PERF_GRLE_TOO_MANY : Bool := false
  PERF_HAS_EXTRA : Bool := false
  PERF_I3D_TOO_BIG : Bool := false
  PERF_L10N_NOT_SET : Bool := false
  PERF_PDF_TOO_MANY : Bool := false
  PERF_PNG_TOO_MANY : Bool := false
  PERF_SHAPES_TOO_BIG : Bool := false
  PERF_SPACE_IN_FILE : Bool := false
  PERF_TXT_TOO_MANY : Bool := false
  PERF_XML_TOO_BIG : Bool := false
  PREF_PNG_TEXTURE : Bool := false
deriving DecidableEq

/-- The `#maxFilesType` quota table (remaining counts, decremented by
`#util_tick_count`; `Int` because JS decrement can go below zero). -/
structure MaxFilesType where
  grle : Int := 10
  pdf : Int := 1
  png : Int := 128
  txt : Int := 2
deriving DecidableEq

/-- A localized string value inside the parsed descriptor tree, as consumed
by `#modDesc_localString`: the key can be absent (or present with `null`,
which the `??` fallback treats identically), a plain string (indexing a
string by a locale tag yields `undefined`, hence the fallback), or a
locale-keyed table of non-null strings. -/
inductive L10nEntry where
  | absent : L10nEntry
  | scalar (s : String) : L10nEntry
  | table (m : List (String × String)) : L10nEntry
deriving DecidableEq

/-- The declared `iconfilename` node: `#doStep_parseModDesc` accepts either
a plain string or an array whose first element is a string; anything else
leaves the working name empty. -/
inductive IconDecl where
  | undeclared : IconDecl
  | scalar (s : String) : IconDecl
  | array (head : Option String) : IconDecl
deriving DecidableEq

/-- One `<action>` element: `$.NAME` and optional `$.CATEGORY`. -/
structure DeclAction where
  name : String
  category : Option String
deriving DecidableEq

/-- One `<binding>` element: `$.DEVICE` and `$.INPUT`. -/
structure DeclBind where
  device : String
  input : String
deriving DecidableEq

/-- One `<actionBinding>` element: `$.ACTION` plus its `binding` array (the
source checks `Array.isArray(action.binding)`, hence the `Option`). -/
structure DeclActionBinding where
  action : String
  binds : Option (List DeclBind)
deriving DecidableEq

/-- The successfully parsed `modDesc.xml` tree, restricted to the paths the
source reads.  Attribute values are delivered by the XML collaborator;
absent paths are `none`/`absent`/`undeclared`. -/
structure ModDescTree where
  descVersionAttr : Option String := none
  version : Option String := none
  author : Option String := none
  multiplayerSupported : Option Bool := none
  storeItemsLen : Option Nat := none
  mapConfigFileAttr : Option String := none
  dependencies : Option (List String) := none
  hasProductId : Bool := false
  iconDecl : IconDecl := .undeclared
  titleEntry : L10nEntry := .absent
  descriptionEntry : L10nEntry := .absent
  actionsDecl : Option (List DeclAction) := none
  bindingsDecl : Option (List DeclActionBinding) := none
deriving DecidableEq

/-- Result of `modHandle.readXML('modDesc.xml', ...)`: `parseError` is the
JS `false`, `missing` is the JS `null`. -/
inductive XMLRead where
  | parseError : XMLRead
  | missing : XMLRead
  | ok (t : ModDescTree) : XMLRead
deriving DecidableEq

/-- Outputs of the `cropDataReader` collaborator absorbed by the map/crop
stage (`weather`, `crops`, `isSouth`). -/
structure CropOut where
  weather : Option String := none
  crops : Option (List String) := none
  isSouth : Bool := false
deriving DecidableEq

/-- The `modDesc` public field of the checker.  JS `false`/`null`
placeholders of optional fields become `none`; `iconImageCache : Bool`
models whether the decoded icon image is present. -/
structure ModDesc where
  actions : List (String × String) := []
  author : String := "--"
  binds : List (String × List String) := []
  cropInfo : Option (List String) := none
  cropWeather : Option String := none
  depend : List String := []
  descVersion : Option String := none
  iconFileName : Option String := none
  iconImageCache : Bool := false
  mapConfigFile : Option String := none
  mapIsSouth : Bool := false
  multiPlayer : Bool := false
  scriptFiles : Nat := 0
  storeItems : Nat := 0
  version : String := "--"
deriving DecidableEq

/-- The `fileDetail` public field.  `fullPath` and `shortName` are `false`
placeholders in the source until the constructor fills them, hence
`Option String`. -/
structure FileDetail where
  copyName : Option String := none
  extraFiles : List String := []
  fileDate : Option String := none
  fileSize : Nat := 0
  fullPath : Option String := none
  i3dFiles : List String := []
  imageDDS : List String := []
  imageNonDDS : List String := []
  isFolder : Bool := false
  isSaveGame : Bool := false
  pngTexture : List String := []
  shortName : Option String := none
  spaceFiles : List String := []
  tooBigFiles : List String := []
deriving DecidableEq

/-- The `#l10n` record produced by `#doStep_l10n`. -/
structure L10nStrings where
  title : String
  description : String
deriving DecidableEq

/-- The mutable per-run state of one `modFileChecker` instance: the three
flag maps, quota table, descriptor, file detail, checksum, uuid, the stored
`modDescParsed` tree (the JS `false` initial value and the `null` read
result are both `none`: every later read treats them identically) and the
localization record. -/
structure ModState where
  maxFilesType : MaxFilesType := {}
  flag_broken : FlagBroken := {}
  flag_info : FlagInfo := {}
  flag_problem : FlagProblem := {}
  modDesc : ModDesc := {}
  modDescParsed : Option ModDescTree := none
  md5Sum : Option String := none
  uuid : Option String := none
  fileDetail : FileDetail := {}
  l10n : Option L10nStrings := none
deriving DecidableEq

/-- The `record` part of the `storable` getter (the `log` sibling belongs to
the external log collector and is omitted). -/
structure ModRecord where
  badgeArray : List String
  canNotUse : Bool
  currentCollection : Option String
  fileDetail : FileDetail
  issues : List String
  l10n : Option L10nStrings
  md5Sum : Option String
  modDesc : ModDesc
  uuid : Option String
deriving DecidableEq

/-- Environment of one pipeline run: the constructor arguments plus the
oracle behaviour of every external collaborator the run consults. -/
structure Env where
  fullPath : String
  isFolder : Bool
  fileSize : Nat
  fileDate : String
  md5Pre : Option String
  locale : String
  uuidHex : String
  couldOpen : Bool
  hasEntry : String → Bool
  entries : List Entry
  relativeFolder : String → String
  readText : String → Option String
  malwareFalse : String → Bool
  modDescXML : XMLRead
  cropOutcome : Option CropOut
  iconDecodeOk : Bool

/-! ## Flag raising (string-keyed, mirroring `#util_raiseFlag_*`) -/

/-- The if-chain of `this.#flag_broken[flag] = true`: every call site
passes one of the declared names, so the default arm (which in JS would
create a fresh key) is the identity. -/
def setBrokenFlag (flag : String) (m : FlagBroken) : FlagBroken :=
  if flag = "FILE_ERROR_GARBAGE_FILE" then { m with FILE_ERROR_GARBAGE_FILE := true }
  else if flag = "FILE_ERROR_LIKELY_COPY" then { m with FILE_ERROR_LIKELY_COPY := true }
  else if flag = "FILE_ERROR_LIKELY_ZIP_PACK" then { m with FILE_ERROR_LIKELY_ZIP_PACK := true }
  else if flag = "FILE_ERROR_NAME_INVALID" then { m with FILE_ERROR_NAME_INVALID := true }
  else if flag = "FILE_ERROR_NAME_STARTS_DIGIT" then { m with FILE_ERROR_NAME_STARTS_DIGIT := true }
  else if flag = "FILE_ERROR_UNREADABLE_ZIP" then { m with FILE_ERROR_UNREADABLE_ZIP := true }
  else if flag = "FILE_ERROR_UNSUPPORTED_ARCHIVE" then { m with FILE_ERROR_UNSUPPORTED_ARCHIVE := true }
  else if flag = "MOD_ERROR_NO_MOD_VERSION" then { m with MOD_ERROR_NO_MOD_VERSION := true }
  else if flag = "NOT_MOD_MODDESC_MISSING" then { m with NOT_MOD_MODDESC_MISSING := true }
  else if flag = "NOT_MOD_MODDESC_PARSE_ERROR" then { m with NOT_MOD_MODDESC_PARSE_ERROR := true }
  else if flag = "NOT_MOD_MODDESC_VERSION_OLD_OR_MISSING" then { m with NOT_MOD_MODDESC_VERSION_OLD_OR_MISSING := true }
  else m

/-- Mirrors `#util_raiseFlag_broken`. -/
def util_raiseFlag_broken (flag : String) (s : ModState) : ModState :=
  { s with flag_broken := setBrokenFlag flag s.flag_broken }

/-- The if-chain of `this.#flag_problem[flag] = true`; every call site
(including the `PERF_` dollar-template of `#util_size_check`) passes a
declared name, so the default arm is the identity. -/
def setProblemFlag (flag : String) (m : FlagProblem) : FlagProblem :=
  if flag = "INFO_MIGHT_BE_PIRACY" then { m with INFO_MIGHT_BE_PIRACY := true }
  else if flag = "MOD_ERROR_MODDESC_DAMAGED_RECOVERABLE" then { m with MOD_ERROR_MODDESC_DAMAGED_RECOVERABLE := true }
  else if flag = "MOD_ERROR_NO_MOD_ICON" then { m with MOD_ERROR_NO_MOD_ICON := true }
  else if flag = "PERF_DDS_TOO_BIG" then { m with PERF_DDS_TOO_BIG := true }
  else if flag = "PERF_GDM_TOO_BIG" then { m with PERF_GDM_TOO_BIG := true }
  else if flag = "PERF_GRLE_TOO_MANY" then { m with PERF_GRLE_TOO_MANY := true }
  else if flag = "PERF_HAS_EXTRA" then { m with PERF_HAS_EXTRA := true }
  else if flag = "PERF_I3D_TOO_BIG" then { m with PERF_I3D_TOO_BIG := true }
  else if flag = "PERF_L10N_NOT_SET" then { m with PERF_L10N_NOT_SET := true }
  else if flag = "PERF_PDF_TOO_MANY" then { m with PERF_PDF_TOO_MANY := true }
  else if flag = "PERF_PNG_TOO_MANY" then { m with PERF_PNG_TOO_MANY := true }
  else if flag = "PERF_SHAPES_TOO_BIG" then { m with PERF_SHAPES_TOO_BIG := true }
  else if flag = "PERF_SPACE_IN_FILE" then { m with PERF_SPACE_IN_FILE := true }
  else if flag = "PERF_TXT_TOO_MANY" then { m with PERF_TXT_TOO_MANY := true }
  else if flag = "PERF_XML_TOO_BIG" then { m with PERF_XML_TOO_BIG := true }
  else if flag = "PREF_PNG_TEXTURE" then { m with PREF_PNG_TEXTURE := true }
  else m

/-- Mirrors `#util_raiseFlag_problem`. -/
def util_raiseFlag_problem (flag : String) (s : ModState) : ModState :=
  { s with flag_problem := setProblemFlag flag s.flag_problem }

/-- The if-chain of `this.#flag_info[flag] = true`; call sites pass
`FILE_IS_A_SAVEGAME` and `MALICIOUS_CODE` only (the `PERF_L10N_NOT_SET`
write of `#doStep_l10n` is a direct assignment, modelled in
`doStep_l10n`). -/
def setInfoFlag (flag : String) (m : FlagInfo) : FlagInfo :=
  if flag = "INFO_NO_MULTIPLAYER_UNZIPPED" then { m with INFO_NO_MULTIPLAYER_UNZIPPED := true }
  else if flag = "FILE_IS_A_SAVEGAME" then { m with FILE_IS_A_SAVEGAME := true }
  else if flag = "MALICIOUS_CODE" then { m with MALICIOUS_CODE := true }
  else m

/-- Mirrors `#util_raiseFlag_info`. -/
def util_raiseFlag_info (flag : String) (s : ModState) : ModState :=
  { s with flag_info := setInfoFlag flag s.flag_info }

/-! ## File classifier and quota tracker -/

/-- The `#fileSizeMap` policy table; an unknown type yields `none` and the
size check is skipped (in JS, `size > undefined` is false). -/
def fileSizeMap : String → Option Nat
  | "cache" => some 10485760
  | "dds" => some 12582912
  | "gdm" => some 18874368
  | "shapes" => some 268435456
  | "xml" => some 262144
  | _ => none

/-- Mirrors `#util_size_check(size, type, fileName, flagPart)`. -/
def util_size_check (size : Nat) (type_ : String) (fileName : String)
    (flagPart : String) (s : ModState) : ModState :=
  match fileSizeMap type_ with
  | some limit =>
    if size > limit then
      util_raiseFlag_problem ("PERF_" ++ flagPart ++ "_TOO_BIG")
        { s with fileDetail :=
            { s.fileDetail with tooBigFiles := s.fileDetail.tooBigFiles ++ [fileName] } }
    else s
  | none => s

/-- Mirrors `#util_tick_count(type)`; the default arm covers the dead
`'.grle'`/`'.pdf'`/`'.txt'` call sites, whose keys do not exist in the
quota table (in JS the decrement would create a NaN-valued fresh key,
which nothing ever reads). -/
def util_tick_count (type_ : String) (m : MaxFilesType) : MaxFilesType :=
  if type_ = "grle" then { m with grle := m.grle - 1 }
  else if type_ = "pdf" then { m with pdf := m.pdf - 1 }
  else if type_ = "png" then { m with png := m.png - 1 }
  else if type_ = "txt" then { m with txt := m.txt - 1 }
  else m

/-- The `knownGood` extension set of `#util_countUnknown`. -/
def knownGood : List String :=
  ["", "png", "dds", "i3d", "shapes", "lua", "gdm", "cache", "xml",
   "grle", "pdf", "txt", "gls", "anim", "ogg"]

/-- Mirrors `#util_countUnknown(shortSuffix, fileName)`: returns the
updated state and the boolean the source returns. -/
def util_countUnknown (shortSuffix fileName : String) (s : ModState) :
    ModState × Bool :=
  if !(knownGood.contains shortSuffix) then
    let s1 :=
      if shortSuffix = "l64" || shortSuffix = "dat" then
        util_raiseFlag_problem "INFO_MIGHT_BE_PIRACY" s
      else s
    let s2 := util_raiseFlag_problem "PERF_HAS_EXTRA" s1
    ({ s2 with fileDetail :=
        { s2.fileDetail with extraFiles := s2.fileDetail.extraFiles ++ [fileName] } },
     true)
  else (s, false)

/-- Mirrors `#util_checkLUA(fileName)`: the allow-list test on the short
name, the collaborator text read, and the two literal-pattern scans. -/
def util_checkLUA (env : Env) (fileName : String) (s : ModState) : ModState :=
  if env.malwareFalse (s.fileDetail.shortName.getD "") then s
  else
    match env.readText fileName with
    | none => s
    | some luaContents =>
      if containsSubstr luaContents ".deleteFolder" then
        util_raiseFlag_info "MALICIOUS_CODE" s
      else if containsSubstr luaContents ".deleteFile" then
        util_raiseFlag_info "MALICIOUS_CODE" s
      else s

/-- Mirrors `#util_countFile(suffix, fileName, size, fullFileName)`.  The
scrutinee `shortSuffix` is the extension with its leading dot stripped by
`substring(1)`; the three final `'.grle'`/`'.pdf'`/`'.txt'` arms are kept
verbatim from the source switch even though the stripped scrutinee can
never contain a dot. -/
def util_countFile (env : Env) (suffix fileName : String) (size : Nat)
    (fullFileName : String) (s : ModState) : ModState :=
  let shortSuffix := suffix.drop 1
  match util_countUnknown shortSuffix fileName s with
  | (s1, true) => s1
  | (s1, false) =>
    if shortSuffix = "png" then
      let s2 := { s1 with maxFilesType := util_tick_count "png" s1.maxFilesType }
      if !(strEndsWith fileName "_weight.png") then
        { s2 with fileDetail :=
            { s2.fileDetail with
              imageNonDDS := s2.fileDetail.imageNonDDS ++ [fileName],
              pngTexture := s2.fileDetail.pngTexture ++ [fileName] } }
      else s2
    else if shortSuffix = "dds" then
      util_size_check size "dds" fileName "DDS"
        { s1 with fileDetail :=
            { s1.fileDetail with imageDDS := s1.fileDetail.imageDDS ++ [fileName] } }
    else if shortSuffix = "i3d" then
      { s1 with fileDetail :=
          { s1.fileDetail with i3dFiles := s1.fileDetail.i3dFiles ++ [fileName] } }
    else if shortSuffix = "lua" then
      util_checkLUA env fullFileName
        { s1 with modDesc := { s1.modDesc with scriptFiles := s1.modDesc.scriptFiles + 1 } }
    else if shortSuffix = "cache" then
      util_size_check size shortSuffix fileName "I3D" s1
    else if shortSuffix = "gdm" || shortSuffix = "xml" || shortSuffix = "shapes" then
      util_size_check size shortSuffix fileName (strToUpper shortSuffix) s1
    else if shortSuffix = ".grle" || shortSuffix = ".pdf" || shortSuffix = ".txt" then
      { s1 with maxFilesType := util_tick_count shortSuffix s1.maxFilesType }
    else s1

/-- One iteration of the `#doStep_fileCounts` loop: the space check runs on
every listed entry, directories are skipped afterwards, files are
classified by `#util_countFile`. -/
def walkEntry (env : Env) (s : ModState) (e : Entry) : ModState :=
  let s1 :=
    if strContainsChar e.name ' ' then
      util_raiseFlag_problem "PERF_SPACE_IN_FILE"
        { s with fileDetail :=
            { s.fileDetail with spaceFiles := s.fileDetail.spaceFiles ++ [e.name] } }
    else s
  if e.isFolder then s1
  else
    util_countFile env (path_extname e.name) e.name e.size
      (if s1.fileDetail.isFolder then env.relativeFolder e.name else e.name) s1

/-- Mirrors `#doStep_fileCounts`: the walk over `modHandle.list`, then the
four post-walk quota assignments. -/
def doStep_fileCounts (env : Env) (s : ModState) : ModState :=
  let s1 := env.entries.foldl (walkEntry env) s
  { s1 with flag_problem :=
      { s1.flag_problem with
        PERF_GRLE_TOO_MANY := s1.maxFilesType.grle < 1,
        PERF_PNG_TOO_MANY := s1.maxFilesType.png < 1,
        PERF_PDF_TOO_MANY := s1.maxFilesType.pdf < 1,
        PERF_TXT_TOO_MANY := s1.maxFilesType.txt < 1 } }

/-! ## Name validator -/

/-- Mirrors the `#doStep_validFileName` getter: raises zero or more broken
flags, records a recovered copy name, and returns validity.  It reads
`fileDetail.fullPath`/`shortName`/`isFolder`, which the constructor filled. -/
def doStep_validFileName (s : ModState) : ModState × Bool :=
  let fullModPath := s.fileDetail.fullPath.getD ""
  let shortName := s.fileDetail.shortName.getD ""
  if !s.fileDetail.isFolder && !(strEndsWith fullModPath ".zip") then
    if strEndsWith fullModPath ".rar" || strEndsWith fullModPath ".7z" then
      (util_raiseFlag_broken "FILE_ERROR_UNSUPPORTED_ARCHIVE" s, false)
    else
      (util_raiseFlag_broken "FILE_ERROR_GARBAGE_FILE" s, false)
  else
    let s1 :=
      if containsUnzipCI shortName then
        util_raiseFlag_broken "FILE_ERROR_LIKELY_ZIP_PACK" s
      else s
    if startsWithDigit shortName then
      (util_raiseFlag_broken "FILE_ERROR_NAME_STARTS_DIGIT" s1, false)
    else if !(matchIdentPattern shortName) then
      match copyNameMatch shortName with
      | some base =>
        ({ util_raiseFlag_broken "FILE_ERROR_LIKELY_COPY" s1 with
            fileDetail :=
              { (util_raiseFlag_broken "FILE_ERROR_LIKELY_COPY" s1).fileDetail with
                copyName := some base } }, false)
      | none => (s1, false)
    else (s1, true)

/-! ## Descriptor extractor -/

/-- Mirrors `#modDesc_default(key, fallback)` over `Option`. -/
def modDesc_default {α : Type} (key : Option α) (fallback : α) : α :=
  key.getD fallback

/-- Mirrors `#modDesc_localString(key, fallback)` applied to the stored
parse result: an unparsed/absent tree (JS `false` or `null`), an absent
key, or a plain-string value all resolve to the fallback; a locale table
is probed at the requested locale, then `en`, then `de`. -/
def modDesc_localString (parsed : Option ModDescTree) (locale : String)
    (entry : ModDescTree → L10nEntry) (fallback : String) : String :=
  match parsed with
  | none => fallback
  | some t =>
    match entry t with
    | .absent => fallback
    | .scalar _ => fallback
    | .table m =>
      (((m.lookup locale).or (m.lookup "en")).or (m.lookup "de")).getD fallback

/-- The working icon filename of `#doStep_parseModDesc` lines 377-383: a
textual scalar, else a textual first array element, else the empty string. -/
def iconDeclString : IconDecl → String
  | .scalar s => s
  | .array (some s) => s
  | _ => ""

/-- Icon filename resolution of `#doStep_parseModDesc` lines 385-394: if
the working name does not end in `.dds`, its last four characters are
replaced by `.dds`; the result is accepted exactly when it occurs in the
collected DDS-image list.  Returns the accepted name (if any) and whether
`MOD_ERROR_NO_MOD_ICON` is raised by this step. -/
def iconResolve (imageDDS : List String) (decl : IconDecl) :
    Option String × Bool :=
  let icon0 := iconDeclString decl
  let icon1 :=
    if !(strEndsWith icon0 ".dds") then icon0.dropRight 4 ++ ".dds" else icon0
  if imageDDS.contains icon1 then (some icon1, false) else (none, true)

/-- JS object-insert: `obj[k] = v` keeps the position of an existing key and
appends a new one. -/
def objInsert (l : List (String × String)) (k v : String) :
    List (String × String) :=
  if l.any (fun p => p.1 == k) then
    l.map (fun p => if p.1 == k then (k, v) else p)
  else l ++ [(k, v)]

/-- JS `binds[name] ??= []; binds[name].push(input)`. -/
def bindsPush (l : List (String × List String)) (k v : String) :
    List (String × List String) :=
  if l.any (fun p => p.1 == k) then
    l.map (fun p => if p.1 == k then (p.1, p.2 ++ [v]) else p)
  else l ++ [(k, [v])]

/-- JS `action.$.CATEGORY || 'ALL'`: an absent or empty (falsy) category
becomes `ALL`. -/
def actionCategory : Option String → String
  | some c => if c = "" then "ALL" else c
  | none => "ALL"

/-- Loop body of the `<action>` loop of `#doStep_parseActions`:
`this.modDesc.actions[action.$.NAME] = action.$.CATEGORY || 'ALL'`. -/
def parseActions_actionStep (st : ModState) (a : DeclAction) : ModState :=
  { st with modDesc :=
      { st.modDesc with actions :=
          (objInsert st.modDesc.actions a.name (actionCategory a.category)) } }

/-- Inner loop body of the binding loop: push the input for bindings on the
keyboard/mouse default device. -/
def parseActions_bindStep (ab : DeclActionBinding) (st : ModState)
    (b : DeclBind) : ModState :=
  if b.device = "KB_MOUSE_DEFAULT" then
    { st with modDesc :=
        { st.modDesc with binds :=
            (bindsPush st.modDesc.binds ab.action b.input) } }
  else st

/-- Outer loop body of the binding loop: iterate the `binding` array when
it is one. -/
def parseActions_bindingStep (st : ModState) (ab : DeclActionBinding) : ModState :=
  match ab.binds with
  | some bs => bs.foldl (parseActions_bindStep ab) st
  | none => st

/-- Mirrors `#doStep_parseActions` on a successfully parsed tree.  The
source wraps the body in try/catch that only logs; the modelled tree data
is well-formed, so the catch arm is unreachable here. -/
def doStep_parseActions (t : ModDescTree) (s : ModState) : ModState :=
  let s1 :=
    match t.actionsDecl with
    | some acts => acts.foldl parseActions_actionStep s
    | none => s
  match t.bindingsDecl with
  | some abs => abs.foldl parseActions_bindingStep s1
  | none => s1

/-- Mirrors `#doStep_parseModDesc`: stores the read result, handles the
parse-error and missing cases, fills the descriptor defaults, assigns the
version flags and the piracy flag, resolves the icon filename against the
DDS list and runs the actions extraction. -/
def doStep_parseModDesc (env : Env) (s : ModState) : ModState :=
  match env.modDescXML with
  | .parseError =>
    util_raiseFlag_broken "NOT_MOD_MODDESC_PARSE_ERROR"
      { s with modDescParsed := none }
  | .missing =>
    util_raiseFlag_broken "NOT_MOD_MODDESC_MISSING"
      { s with modDescParsed := none }
  | .ok t =>
    let s1 := { s with modDescParsed := some t }
    let descVersion := t.descVersionAttr
    let version := modDesc_default t.version "0.0.0.0"
    let s2 := { s1 with
      modDesc := { s1.modDesc with
        descVersion := descVersion,
        version := version,
        author := modDesc_default t.author "--",
        multiPlayer := modDesc_default t.multiplayerSupported false,
        storeItems := modDesc_default t.storeItemsLen 0,
        mapConfigFile := t.mapConfigFileAttr,
        depend := modDesc_default t.dependencies [] },
      flag_broken := { s1.flag_broken with
        NOT_MOD_MODDESC_VERSION_OLD_OR_MISSING := descVersion.isNone,
        MOD_ERROR_NO_MOD_VERSION := version = "0.0.0.0" },
      flag_problem := { s1.flag_problem with
        INFO_MIGHT_BE_PIRACY := t.hasProductId } }
    let s3 :=
      match (iconResolve s2.fileDetail.imageDDS t.iconDecl).1 with
      | some name =>
        { s2 with modDesc := { s2.modDesc with iconFileName := some name } }
      | none => util_raiseFlag_problem "MOD_ERROR_NO_MOD_ICON" s2
    doStep_parseActions t s3

/-! ## Map/crop stage and icon stage -/

/-- The map/crop block of `getInfo` lines 169-188: only runs when the
descriptor declared a map config file; the config-file existence test and
the whole read/parse/crop computation sit in a try/catch whose failure
leaves the state unchanged.  The `cropDataReader` collaborator's outputs
are the `cropOutcome` oracle (`none` = some step of the block threw). -/
def mapCropStage (env : Env) (s : ModState) : ModState :=
  match s.modDesc.mapConfigFile with
  | none => s
  | some cfg =>
    if !(env.hasEntry cfg) then s
    else
      match env.cropOutcome with
      | some c =>
        { s with modDesc := { s.modDesc with
            cropWeather := c.weather,
            cropInfo := c.crops,
            mapIsSouth := c.isSouth } }
      | none => s

/-- The icon block of `getInfo` lines 190-202: decode the accepted icon
file unless the no-icon flag is already raised, the name is not a string,
or the file does not exist; any failure (including a decode throw) raises
`MOD_ERROR_NO_MOD_ICON`. -/
def iconStage (env : Env) (s : ModState) : ModState :=
  match s.modDesc.iconFileName with
  | some name =>
    if s.flag_problem.MOD_ERROR_NO_MOD_ICON then
      util_raiseFlag_problem "MOD_ERROR_NO_MOD_ICON" s
    else if !(env.hasEntry name) then
      util_raiseFlag_problem "MOD_ERROR_NO_MOD_ICON" s
    else if env.iconDecodeOk then
      { s with modDesc := { s.modDesc with iconImageCache := true } }
    else
      util_raiseFlag_problem "MOD_ERROR_NO_MOD_ICON" s
  | none => util_raiseFlag_problem "MOD_ERROR_NO_MOD_ICON" s

/-! ## Localization resolver -/

/-- Mirrors `#doStep_l10n`.  The resolved flag is assigned to
`this.#flag_info.PERF_L10N_NOT_SET` in the source -- the info map, not the
problem map where the name is declared -- so the model writes the dynamic
info key. -/
def doStep_l10n (env : Env) (s : ModState) : ModState :=
  let title := modDesc_localString s.modDescParsed env.locale
    (fun t => t.titleEntry) "--"
  let desc := modDesc_localString s.modDescParsed env.locale
    (fun t => t.descriptionEntry) ""
  { s with
    flag_info := { s.flag_info with
      PERF_L10N_NOT_SET := some (title = "--" || desc = "") },
    l10n := some { title := title, description := desc } }

/-! ## Report assembler -/

/-- JS `Object.entries(this.#flag_broken)` in declaration order. -/
def brokenEntries (f : FlagBroken) : List (String × Bool) :=
  [("FILE_ERROR_GARBAGE_FILE", f.FILE_ERROR_GARBAGE_FILE),
   ("FILE_ERROR_LIKELY_COPY", f.FILE_ERROR_LIKELY_COPY),
   ("FILE_ERROR_LIKELY_ZIP_PACK", f.FILE_ERROR_LIKELY_ZIP_PACK),
   ("FILE_ERROR_NAME_INVALID", f.FILE_ERROR_NAME_INVALID),
   ("FILE_ERROR_NAME_STARTS_DIGIT", f.FILE_ERROR_NAME_STARTS_DIGIT),
   ("FILE_ERROR_UNREADABLE_ZIP", f.FILE_ERROR_UNREADABLE_ZIP),
   ("FILE_ERROR_UNSUPPORTED_ARCHIVE", f.FILE_ERROR_UNSUPPORTED_ARCHIVE),
   ("MOD_ERROR_NO_MOD_VERSION", f.MOD_ERROR_NO_MOD_VERSION),
   ("NOT_MOD_MODDESC_MISSING", f.NOT_MOD_MODDESC_MISSING),
   ("NOT_MOD_MODDESC_PARSE_ERROR", f.NOT_MOD_MODDESC_PARSE_ERROR),
   ("NOT_MOD_MODDESC_VERSION_OLD_OR_MISSING", f.NOT_MOD_MODDESC_VERSION_OLD_OR_MISSING)]

/-- Entries of the problem map in declaration order.  In the spread merge
`{...broken, ...problem, ...info}` the dynamically created info key
`PERF_L10N_NOT_SET` collides with the problem key of the same name: the
merged object keeps the problem position but takes the info value (the
later spread wins), which `l10nInfoValue` injects here. -/
def problemEntries (p : FlagProblem) (l10nInfoValue : Option Bool) :
    List (String × Bool) :=
  [("INFO_MIGHT_BE_PIRACY", p.INFO_MIGHT_BE_PIRACY),
   ("MOD_ERROR_MODDESC_DAMAGED_RECOVERABLE", p.MOD_ERROR_MODDESC_DAMAGED_RECOVERABLE),
   ("MOD_ERROR_NO_MOD_ICON", p.MOD_ERROR_NO_MOD_ICON),
   ("PERF_DDS_TOO_BIG", p.PERF_DDS_TOO_BIG),
   ("PERF_GDM_TOO_BIG", p.PERF_GDM_TOO_BIG),
   ("PERF_GRLE_TOO_MANY", p.PERF_GRLE_TOO_MANY),
   ("PERF_HAS_EXTRA", p.PERF_HAS_EXTRA),
   ("PERF_I3D_TOO_BIG", p.PERF_I3D_TOO_BIG),
   ("PERF_L10N_NOT_SET", l10nInfoValue.getD p.PERF_L10N_NOT_SET),
   ("PERF_PDF_TOO_MANY", p.PERF_PDF_TOO_MANY),
   ("PERF_PNG_TOO_MANY", p.PERF_PNG_TOO_MANY),
   ("PERF_SHAPES_TOO_BIG", p.PERF_SHAPES_TOO_BIG),
   ("PERF_SPACE_IN_FILE", p.PERF_SPACE_IN_FILE),
   ("PERF_TXT_TOO_MANY", p.PERF_TXT_TOO_MANY),
   ("PERF_XML_TOO_BIG", p.PERF_XML_TOO_BIG),
   ("PREF_PNG_TEXTURE", p.PREF_PNG_TEXTURE)]

/-- Entries of the info map whose keys are new to the spread merge. -/
def infoEntries (i : FlagInfo) : List (String × Bool) :=
  [("INFO_NO_MULTIPLAYER_UNZIPPED", i.INFO_NO_MULTIPLAYER_UNZIPPED),
   ("FILE_IS_A_SAVEGAME", i.FILE_IS_A_SAVEGAME),
   ("MALICIOUS_CODE", i.MALICIOUS_CODE)]

/-- The `issues` field of `storable`: names of the true entries of the
spread-merged flag object. -/
def storableIssues (s : ModState) : List String :=
  ((brokenEntries s.flag_broken
      ++ problemEntries s.flag_problem s.flag_info.PERF_L10N_NOT_SET
      ++ infoEntries s.flag_info).filter (fun p => p.2)).map (fun p => p.1)

/-- JS `Object.entries(this.#flag_broken).some((x) => x[1] === true)`. -/
def FlagBroken.any (f : FlagBroken) : Bool :=
  (brokenEntries f).any (fun p => p.2)

/-- JS `Object.entries(this.#flag_problem).some((x) => x[1] === true)`; the
problem map itself never receives dynamic keys. -/
def FlagProblem.any (p : FlagProblem) : Bool :=
  (problemEntries p none).any (fun x => x.2)

/-- Mirrors the `#doStep_canUse` getter (the value stored in the record's
`canNotUse` field). -/
def doStep_canUse (s : ModState) : Bool :=
  if s.fileDetail.isSaveGame then true else s.flag_broken.any

/-- Mirrors the `#doStep_badges` getter. -/
def doStep_badges (s : ModState) : List String :=
  let badges : List (String × Bool) :=
    [("broken", if s.fileDetail.isSaveGame then false else s.flag_broken.any),
     ("folder", s.fileDetail.isFolder),
     ("malware", s.flag_info.MALICIOUS_CODE),
     ("noMP", !s.modDesc.multiPlayer && s.fileDetail.isFolder),
     ("notmod", s.flag_broken.NOT_MOD_MODDESC_MISSING),
     ("pconly", decide (s.modDesc.scriptFiles > 0)),
     ("problem", if s.fileDetail.isSaveGame then false else s.flag_problem.any),
     ("savegame", s.fileDetail.isSaveGame)]
  (badges.filter (fun p => p.2)).map (fun p => p.1)

/-- Mirrors the `storable` getter's `record` object. -/
def storable (s : ModState) : ModRecord :=
  { badgeArray := doStep_badges s,
    canNotUse := doStep_canUse s,
    currentCollection := none,
    fileDetail := s.fileDetail,
    issues := storableIssues s,
    l10n := s.l10n,
    md5Sum := s.md5Sum,
    modDesc := s.modDesc,
    uuid := s.uuid }

/-! ## Pipeline driver -/

/-- The blank instance before the constructor body runs: every field at its
class-level initializer. -/
def mkInitialState : ModState := {}

/-- Mirrors the constructor: physical facts, pre-computed checksum, short
name, and the folder-implies-no-multiplayer info flag assignment. -/
def constructorStep (env : Env) (s : ModState) : ModState :=
  { s with
    fileDetail := { s.fileDetail with
      fullPath := some env.fullPath,
      isFolder := env.isFolder,
      fileSize := env.fileSize,
      fileDate := some env.fileDate,
      shortName := some (pathParseName env.fullPath) },
    md5Sum := env.md5Pre,
    flag_info := { s.flag_info with
      INFO_NO_MULTIPLAYER_UNZIPPED := env.isFolder } }

/-- Lines 128-137 of `getInfo`: the uuid digest, the validity getter (with
its flag side effects) and the `FILE_ERROR_NAME_INVALID` raise for an
invalid name.  Returns the state and `isValidMod`. -/
def nameStep (env : Env) (s : ModState) : ModState × Bool :=
  let s0 := { s with uuid := some env.uuidHex }
  let (s1, isValidMod) := doStep_validFileName s0
  (if isValidMod then s1 else util_raiseFlag_broken "FILE_ERROR_NAME_INVALID" s1,
   isValidMod)

/-- Lines 139-164 of `getInfo`: the open attempt, the save-game marker, the
invalid-name short-circuit and the descriptor-existence gate.  Each `throw`
of the source jumps to the shared catch/finally, so the gate only mutates
state; whether the walk and the later stages run is `proceeds`. -/
def gateStep (env : Env) (isValidMod : Bool) (s : ModState) : ModState :=
  if !env.couldOpen then
    if !isValidMod then s
    else util_raiseFlag_broken "FILE_ERROR_UNREADABLE_ZIP" s
  else if env.hasEntry "careerSavegame.xml" then
    util_raiseFlag_info "FILE_IS_A_SAVEGAME"
      { s with
        fileDetail := { s.fileDetail with isSaveGame := true },
        modDesc := { s.modDesc with version := "--" } }
  else if !isValidMod then s
  else if !(env.hasEntry "modDesc.xml") then
    { util_raiseFlag_broken "NOT_MOD_MODDESC_MISSING" s with md5Sum := none }
  else s

/-- Whether the try body reaches line 166 (`#doStep_fileCounts`) instead of
throwing at one of the gate checks. -/
def proceeds (env : Env) : Bool :=
  env.couldOpen && !(env.hasEntry "careerSavegame.xml")
    && (nameStep env (constructorStep env mkInitialState)).2
    && env.hasEntry "modDesc.xml"

/-- State after the constructor. -/
def run_constructed (env : Env) : ModState :=
  constructorStep env mkInitialState

/-- State after the validity check (getInfo lines 128-137). -/
def run_afterName (env : Env) : ModState :=
  (nameStep env (run_constructed env)).1

/-- State after the open/save-game/valid/descriptor gate. -/
def run_afterGate (env : Env) : ModState :=
  gateStep env (nameStep env (run_constructed env)).2 (run_afterName env)

/-- State after `#doStep_fileCounts` (skipped when the gate threw). -/
def run_afterCounts (env : Env) : ModState :=
  if proceeds env then doStep_fileCounts env (run_afterGate env)
  else run_afterGate env

/-- State after `#doStep_parseModDesc`. -/
def run_afterDesc (env : Env) : ModState :=
  if proceeds env then doStep_parseModDesc env (run_afterCounts env)
  else run_afterCounts env

/-- State after the map/crop block. -/
def run_afterMap (env : Env) : ModState :=
  if proceeds env then mapCropStage env (run_afterDesc env)
  else run_afterDesc env

/-- State after the icon block. -/
def run_afterIcon (env : Env) : ModState :=
  if proceeds env then iconStage env (run_afterMap env)
  else run_afterMap env

/-- State after the `finally` block's unconditional `#doStep_l10n`. -/
def run_final (env : Env) : ModState :=
  doStep_l10n env (run_afterIcon env)

/-- The full `getInfo` call: run the pipeline and assemble the stored
record. -/
def getInfo (env : Env) : ModRecord :=
  storable (run_final env)

/-- The per-run state trace: the blank instance, the constructed instance
and the state after each stage of `getInfo` in source order. -/
def runTrace (env : Env) : List ModState :=
  [mkInitialState, run_constructed env, run_afterName env, run_afterGate env,
   run_afterCounts env, run_afterDesc env, run_afterMap env,
   run_afterIcon env, run_final env]

/-! ## Concrete environments used to evaluate the pipeline -/

/-- A well-formed descriptor tree: schema version and mod version present,
an icon declared as `icon.dds`, no product id, no localized title or
description. -/
def simpleTree : ModDescTree :=
  { descVersionAttr := some "60",
    version := some "1.0.0.0",
    author := some "someone",
    iconDecl := .scalar "icon.dds" }

/-- A fully healthy zip-mod environment: valid name, archive opens, has
`modDesc.xml` and `icon.dds` entries, descriptor parses to `simpleTree`. -/
def baseEnv : Env :=
  { fullPath := "goodMod.zip",
    isFolder := false,
    fileSize := 1000,
    fileDate := "2024-06-01",
    md5Pre := some "abc123",
    locale := "en",
    uuidHex := "0123456789abcdef",
    couldOpen := true,
    hasEntry := fun n => n == "modDesc.xml" || n == "icon.dds",
    entries := [{ name := "modDesc.xml", isFolder := false, size := 500 },
                { name := "icon.dds", isFolder := false, size := 100 }],
    relativeFolder := fun n => n,
    readText := fun _ => none,
    malwareFalse := fun _ => false,
    modDescXML := .ok simpleTree,
    cropOutcome := none,
    iconDecodeOk := true }

/-- A save-game environment: the archive opens and contains the
`careerSavegame.xml` marker. -/
def savegameEnv : Env :=
  { baseEnv with hasEntry := fun n => n == "careerSavegame.xml" }

/-- Environment whose archive additionally contains a `.dat` file (raising
the piracy signal during the walk) while the descriptor has no product id. -/
def datFileEnv : Env :=
  { baseEnv with entries := baseEnv.entries ++ [{ name := "stuff.dat", isFolder := false, size := 10 }] }

/-- Environment whose archive contains three `.txt` files. -/
def threeTxtEnv : Env :=
  { baseEnv with entries := baseEnv.entries
      ++ [{ name := "a.txt", isFolder := false, size := 10 },
          { name := "b.txt", isFolder := false, size := 10 },
          { name := "c.txt", isFolder := false, size := 10 }] }

/-- Environment with an invalid (digit-leading) file name whose archive
opens but has no `modDesc.xml`, with a pre-computed checksum. -/
def digitNameEnv : Env :=
  { baseEnv with fullPath := "1bad.zip", hasEntry := fun _ => false }

/-- Environment with a valid name, an opening archive and no
`modDesc.xml` entry. -/
def noDescEnv : Env :=
  { baseEnv with hasEntry := fun _ => false }

/-- Environment whose archive contains a directory entry with a space in
its name. -/
def spaceDirEnv : Env :=
  { baseEnv with entries := baseEnv.entries ++ [{ name := "my dir", isFolder := true, size := 0 }] }

/-- Environment whose archive contains a DDS file one byte over the
policy threshold. -/
def bigDdsEnv : Env :=
  { baseEnv with entries := baseEnv.entries ++ [{ name := "big.dds", isFolder := false, size := 12582913 }] }

/-! ## Generic helpers for the proofs -/

/-- Boolean implication is reflexive. -/
theorem bnot_or_self (b : Bool) : (!b || b) = true := by cases b <;> rfl

/-- Boolean implication is transitive. -/
theorem bimp_trans {a b c : Bool} (h1 : (!a || b) = true) (h2 : (!b || c) = true) :
    (!a || c) = true := by
  cases a <;> cases b <;> cases c <;> simp_all

/-- A projection preserved by every step of a fold is preserved by the fold. -/
theorem foldl_preserve {α β σ : Type} (f : σ → α → σ) (proj : σ → β)
    (h : ∀ s a, proj (f s a) = proj s) :
    ∀ (l : List α) (s : σ), proj (l.foldl f s) = proj s := by
  intro l
  induction l with
  | nil => intro s; rfl
  | cons a as ih => intro s; rw [List.foldl_cons, ih, h]

/-- The extension types with a size policy are all known-good, so an entry
rejected by `#util_countUnknown` never reaches a size check. -/
theorem fileSizeMap_none_of_unknown (suf : String)
    (h : knownGood.contains suf = false) : fileSizeMap suf = none := by
  unfold fileSizeMap
  split <;> simp_all [knownGood]

/-- The boolean returned by `#util_countUnknown`. -/
theorem countUnknown_snd (suf n : String) (s : ModState) :
    (util_countUnknown suf n s).2 = !(knownGood.contains suf) := by
  unfold util_countUnknown
  split_ifs <;> simp_all

/-! ## Projection lemmas: raising a flag touches only its own flag map -/

@[simp] theorem raiseP_flag_broken (f : String) (s : ModState) :
    (util_raiseFlag_problem f s).flag_broken = s.flag_broken := rfl

@[simp] theorem raiseP_flag_info (f : String) (s : ModState) :
    (util_raiseFlag_problem f s).flag_info = s.flag_info := rfl

@[simp] theorem raiseP_fileDetail (f : String) (s : ModState) :
    (util_raiseFlag_problem f s).fileDetail = s.fileDetail := rfl

@[simp] theorem raiseP_modDesc (f : String) (s : ModState) :
    (util_raiseFlag_problem f s).modDesc = s.modDesc := rfl

@[simp] theorem raiseP_maxFilesType (f : String) (s : ModState) :
    (util_raiseFlag_problem f s).maxFilesType = s.maxFilesType := rfl

@[simp] theorem raiseP_modDescParsed (f : String) (s : ModState) :
    (util_raiseFlag_problem f s).modDescParsed = s.modDescParsed := rfl

@[simp] theorem raiseP_md5Sum (f : String) (s : ModState) :
    (util_raiseFlag_problem f s).md5Sum = s.md5Sum := rfl

@[simp] theorem raiseP_uuid (f : String) (s : ModState) :
    (util_raiseFlag_problem f s).uuid = s.uuid := rfl

@[simp] theorem raiseP_l10n (f : String) (s : ModState) :
    (util_raiseFlag_problem f s).l10n = s.l10n := rfl

@[simp] theorem raiseP_flag_problem (f : String) (s : ModState) :
    (util_raiseFlag_problem f s).flag_problem = setProblemFlag f s.flag_problem := rfl

@[simp] theorem raiseB_flag_problem (f : String) (s : ModState) :
    (util_raiseFlag_broken f s).flag_problem = s.flag_problem := rfl

@[simp] theorem raiseB_flag_info (f : String) (s : ModState) :
    (util_raiseFlag_broken f s).flag_info = s.flag_info := rfl

@[simp] theorem raiseB_fileDetail (f : String) (s : ModState) :
    (util_raiseFlag_broken f s).fileDetail = s.fileDetail := rfl

@[simp] theorem raiseB_modDesc (f : String) (s : ModState) :
    (util_raiseFlag_broken f s).modDesc = s.modDesc := rfl

@[simp] theorem raiseB_maxFilesType (f : String) (s : ModState) :
    (util_raiseFlag_broken f s).maxFilesType = s.maxFilesType := rfl

@[simp] theorem raiseB_modDescParsed (f : String) (s : ModState) :
    (util_raiseFlag_broken f s).modDescParsed = s.modDescParsed := rfl

@[simp] theorem raiseB_md5Sum (f : String) (s : ModState) :
    (util_raiseFlag_broken f s).md5Sum = s.md5Sum := rfl

@[simp] theorem raiseB_uuid (f : String) (s : ModState) :
    (util_raiseFlag_broken f s).uuid = s.uuid := rfl

@[simp] theorem raiseB_l10n (f : String) (s : ModState) :
    (util_raiseFlag_broken f s).l10n = s.l10n := rfl

@[simp] theorem raiseB_flag_broken (f : String) (s : ModState) :
    (util_raiseFlag_broken f s).flag_broken = setBrokenFlag f s.flag_broken := rfl

@[simp] theorem raiseI_flag_broken (f : String) (s : ModState) :
    (util_raiseFlag_info f s).flag_broken = s.flag_broken := rfl

@[simp] theorem raiseI_flag_problem (f : String) (s : ModState) :
    (util_raiseFlag_info f s).flag_problem = s.flag_problem := rfl

@[simp] theorem raiseI_fileDetail (f : String) (s : ModState) :
    (util_raiseFlag_info f s).fileDetail = s.fileDetail := rfl

@[simp] theorem raiseI_modDesc (f : String) (s : ModState) :
    (util_raiseFlag_info f s).modDesc = s.modDesc := rfl

@[simp] theorem raiseI_maxFilesType (f : String) (s : ModState) :
    (util_raiseFlag_info f s).maxFilesType = s.maxFilesType := rfl

@[simp] theorem raiseI_modDescParsed (f : String) (s : ModState) :
    (util_raiseFlag_info f s).modDescParsed = s.modDescParsed := rfl

@[simp] theorem raiseI_md5Sum (f : String) (s : ModState) :
    (util_raiseFlag_info f s).md5Sum = s.md5Sum := rfl

@[simp] theorem raiseI_uuid (f : String) (s : ModState) :
    (util_raiseFlag_info f s).uuid = s.uuid := rfl

@[simp] theorem raiseI_l10n (f : String) (s : ModState) :
    (util_raiseFlag_info f s).l10n = s.l10n := rfl

@[simp] theorem raiseI_flag_info (f : String) (s : ModState) :
    (util_raiseFlag_info f s).flag_info = setInfoFlag f s.flag_info := rfl

/-- Setting an info flag never touches the dynamically created key. -/
@[simp] theorem setInfoFlag_dyn (f : String) (i : FlagInfo) :
    (setInfoFlag f i).PERF_L10N_NOT_SET = i.PERF_L10N_NOT_SET := by
  unfold setInfoFlag
  repeat' split
  all_goals rfl

/-- Setting a problem flag leaves every differently named field unchanged;
one lemma per field the later proofs track. -/
theorem setProblemFlag_DAMAGED (f : String) (p : FlagProblem)
    (h : f ≠ "MOD_ERROR_MODDESC_DAMAGED_RECOVERABLE") :
    (setProblemFlag f p).MOD_ERROR_MODDESC_DAMAGED_RECOVERABLE = p.MOD_ERROR_MODDESC_DAMAGED_RECOVERABLE := by
  simp only [setProblemFlag,
    apply_ite (fun q : FlagProblem => q.MOD_ERROR_MODDESC_DAMAGED_RECOVERABLE)]
  simp [h]

theorem setProblemFlag_PREFPNG (f : String) (p : FlagProblem)
    (h : f ≠ "PREF_PNG_TEXTURE") :
    (setProblemFlag f p).PREF_PNG_TEXTURE = p.PREF_PNG_TEXTURE := by
  simp only [setProblemFlag,
    apply_ite (fun q : FlagProblem => q.PREF_PNG_TEXTURE)]
  simp [h]

theorem setProblemFlag_GRLEMANY (f : String) (p : FlagProblem)
    (h : f ≠ "PERF_GRLE_TOO_MANY") :
    (setProblemFlag f p).PERF_GRLE_TOO_MANY = p.PERF_GRLE_TOO_MANY := by
  simp only [setProblemFlag,
    apply_ite (fun q : FlagProblem => q.PERF_GRLE_TOO_MANY)]
  simp [h]

theorem setProblemFlag_PNGMANY (f : String) (p : FlagProblem)
    (h : f ≠ "PERF_PNG_TOO_MANY") :
    (setProblemFlag f p).PERF_PNG_TOO_MANY = p.PERF_PNG_TOO_MANY := by
  simp only [setProblemFlag,
    apply_ite (fun q : FlagProblem => q.PERF_PNG_TOO_MANY)]
  simp [h]

theorem setProblemFlag_PDFMANY (f : String) (p : FlagProblem)
    (h : f ≠ "PERF_PDF_TOO_MANY") :
    (setProblemFlag f p).PERF_PDF_TOO_MANY = p.PERF_PDF_TOO_MANY := by
  simp only [setProblemFlag,
    apply_ite (fun q : FlagProblem => q.PERF_PDF_TOO_MANY)]
  simp [h]

theorem setProblemFlag_TXTMANY (f : String) (p : FlagProblem)
    (h : f ≠ "PERF_TXT_TOO_MANY") :
    (setProblemFlag f p).PERF_TXT_TOO_MANY = p.PERF_TXT_TOO_MANY := by
  simp only [setProblemFlag,
    apply_ite (fun q : FlagProblem => q.PERF_TXT_TOO_MANY)]
  simp [h]

theorem setProblemFlag_L10N (f : String) (p : FlagProblem)
    (h : f ≠ "PERF_L10N_NOT_SET") :
    (setProblemFlag f p).PERF_L10N_NOT_SET = p.PERF_L10N_NOT_SET := by
  simp only [setProblemFlag,
    apply_ite (fun q : FlagProblem => q.PERF_L10N_NOT_SET)]
  simp [h]

theorem setProblemFlag_NOICON (f : String) (p : FlagProblem)
    (h : f ≠ "MOD_ERROR_NO_MOD_ICON") :
    (setProblemFlag f p).MOD_ERROR_NO_MOD_ICON = p.MOD_ERROR_NO_MOD_ICON := by
  simp only [setProblemFlag,
    apply_ite (fun q : FlagProblem => q.MOD_ERROR_NO_MOD_ICON)]
  simp [h]

theorem setProblemFlag_I3D (f : String) (p : FlagProblem)
    (h : f ≠ "PERF_I3D_TOO_BIG") :
    (setProblemFlag f p).PERF_I3D_TOO_BIG = p.PERF_I3D_TOO_BIG := by
  simp only [setProblemFlag,
    apply_ite (fun q : FlagProblem => q.PERF_I3D_TOO_BIG)]
  simp [h]

/-- Counterpart for the broken map, for the two version flags that
`#doStep_parseModDesc` assigns. -/
theorem setBrokenFlag_NOVERSION (f : String) (b : FlagBroken)
    (h : f ≠ "MOD_ERROR_NO_MOD_VERSION") :
    (setBrokenFlag f b).MOD_ERROR_NO_MOD_VERSION = b.MOD_ERROR_NO_MOD_VERSION := by
  simp only [setBrokenFlag,
    apply_ite (fun q : FlagBroken => q.MOD_ERROR_NO_MOD_VERSION)]
  simp [h]

theorem setBrokenFlag_OLDVERSION (f : String) (b : FlagBroken)
    (h : f ≠ "NOT_MOD_MODDESC_VERSION_OLD_OR_MISSING") :
    (setBrokenFlag f b).NOT_MOD_MODDESC_VERSION_OLD_OR_MISSING
      = b.NOT_MOD_MODDESC_VERSION_OLD_OR_MISSING := by
  simp only [setBrokenFlag,
    apply_ite (fun q : FlagBroken => q.NOT_MOD_MODDESC_VERSION_OLD_OR_MISSING)]
  simp [h]

/-- A name produced by the `PERF_${flagPart}_TOO_BIG` template ends in `G`,
so it can never equal a flag name whose last character differs. -/
theorem size_template_ne (fp F : String) (h : F.data.getLast? ≠ some 'G') :
    ("PERF_" ++ fp ++ "_TOO_BIG") ≠ F := by
  intro he
  apply h
  rw [← he]
  show (("PERF_" ++ fp ++ "_TOO_BIG").data).getLast? = some 'G'
  have hd : ("PERF_" ++ fp ++ "_TOO_BIG").data
      = ("PERF_" ++ fp).data ++ "_TOO_BIG".data := by
    simp [String.data_append]
  rw [hd, List.getLast?_append_of_ne_nil]
  · rfl
  · simp

/-- Whether `#util_size_check` fires: the type has a policy entry and the
size strictly exceeds it. -/
def overLimit (t : String) (size : Nat) : Bool :=
  match fileSizeMap t with
  | some limit => decide (size > limit)
  | none => false

@[simp] theorem size_check_flag_broken (size : Nat) (t n fp : String) (s : ModState) :
    (util_size_check size t n fp s).flag_broken = s.flag_broken := by
  unfold util_size_check; split <;> try rfl
  split_ifs <;> rfl

@[simp] theorem size_check_flag_info (size : Nat) (t n fp : String) (s : ModState) :
    (util_size_check size t n fp s).flag_info = s.flag_info := by
  unfold util_size_check; split <;> try rfl
  split_ifs <;> rfl

@[simp] theorem size_check_modDesc (size : Nat) (t n fp : String) (s : ModState) :
    (util_size_check size t n fp s).modDesc = s.modDesc := by
  unfold util_size_check; split <;> try rfl
  split_ifs <;> rfl

@[simp] theorem size_check_maxFilesType (size : Nat) (t n fp : String) (s : ModState) :
    (util_size_check size t n fp s).maxFilesType = s.maxFilesType := by
  unfold util_size_check; split <;> try rfl
  split_ifs <;> rfl

@[simp] theorem size_check_modDescParsed (size : Nat) (t n fp : String) (s : ModState) :
    (util_size_check size t n fp s).modDescParsed = s.modDescParsed := by
  unfold util_size_check; split <;> try rfl
  split_ifs <;> rfl

@[simp] theorem size_check_md5Sum (size : Nat) (t n fp : String) (s : ModState) :
    (util_size_check size t n fp s).md5Sum = s.md5Sum := by
  unfold util_size_check; split <;> try rfl
  split_ifs <;> rfl

@[simp] theorem size_check_uuid (size : Nat) (t n fp : String) (s : ModState) :
    (util_size_check size t n fp s).uuid = s.uuid := by
  unfold util_size_check; split <;> try rfl
  split_ifs <;> rfl

@[simp] theorem size_check_l10n (size : Nat) (t n fp : String) (s : ModState) :
    (util_size_check size t n fp s).l10n = s.l10n := by
  unfold util_size_check; split <;> try rfl
  split_ifs <;> rfl

@[simp] theorem size_check_isSaveGame (size : Nat) (t n fp : String) (s : ModState) :
    (util_size_check size t n fp s).fileDetail.isSaveGame
      = s.fileDetail.isSaveGame := by
  unfold util_size_check; split <;> try rfl
  split_ifs <;> rfl

/-- The size check appends to `tooBigFiles` exactly when the policy is
exceeded. -/
theorem size_check_tooBig (size : Nat) (t n fp : String) (s : ModState) :
    (util_size_check size t n fp s).fileDetail.tooBigFiles
      = s.fileDetail.tooBigFiles ++ (if overLimit t size then [n] else []) := by
  unfold util_size_check overLimit
  split <;> simp_all
  split_ifs <;> simp_all

/-- The size check can only raise `PERF_*_TOO_BIG` names, so every other
problem field is untouched regardless of the template argument. -/
@[simp] theorem size_check_DAMAGED (size : Nat) (t n fp : String) (s : ModState) :
    (util_size_check size t n fp s).flag_problem.MOD_ERROR_MODDESC_DAMAGED_RECOVERABLE
      = s.flag_problem.MOD_ERROR_MODDESC_DAMAGED_RECOVERABLE := by
  unfold util_size_check
  split <;> try rfl
  split_ifs <;> try rfl
  rw [raiseP_flag_problem, setProblemFlag_DAMAGED _ _ (size_template_ne _ _ (by decide))]

@[simp] theorem size_check_PREFPNG (size : Nat) (t n fp : String) (s : ModState) :
    (util_size_check size t n fp s).flag_problem.PREF_PNG_TEXTURE
      = s.flag_problem.PREF_PNG_TEXTURE := by
  unfold util_size_check
  split <;> try rfl
  split_ifs <;> try rfl
  rw [raiseP_flag_problem, setProblemFlag_PREFPNG _ _ (size_template_ne _ _ (by decide))]

@[simp] theorem size_check_GRLEMANY (size : Nat) (t n fp : String) (s : ModState) :
    (util_size_check size t n fp s).flag_problem.PERF_GRLE_TOO_MANY
      = s.flag_problem.PERF_GRLE_TOO_MANY := by
  unfold util_size_check
  split <;> try rfl
  split_ifs <;> try rfl
  rw [raiseP_flag_problem, setProblemFlag_GRLEMANY _ _ (size_template_ne _ _ (by decide))]

@[simp] theorem size_check_PNGMANY (size : Nat) (t n fp : String) (s : ModState) :
    (util_size_check size t n fp s).flag_problem.PERF_PNG_TOO_MANY
      = s.flag_problem.PERF_PNG_TOO_MANY := by
  unfold util_size_check
  split <;> try rfl
  split_ifs <;> try rfl
  rw [raiseP_flag_problem, setProblemFlag_PNGMANY _ _ (size_template_ne _ _ (by decide))]

@[simp] theorem size_check_PDFMANY (size : Nat) (t n fp : String) (s : ModState) :
    (util_size_check size t n fp s).flag_problem.PERF_PDF_TOO_MANY
      = s.flag_problem.PERF_PDF_TOO_MANY := by
  unfold util_size_check
  split <;> try rfl
  split_ifs <;> try rfl
  rw [raiseP_flag_problem, setProblemFlag_PDFMANY _ _ (size_template_ne _ _ (by decide))]

@[simp] theorem size_check_TXTMANY (size : Nat) (t n fp : String) (s : ModState) :
    (util_size_check size t n fp s).flag_problem.PERF_TXT_TOO_MANY
      = s.flag_problem.PERF_TXT_TOO_MANY := by
  unfold util_size_check
  split <;> try rfl
  split_ifs <;> try rfl
  rw [raiseP_flag_problem, setProblemFlag_TXTMANY _ _ (size_template_ne _ _ (by decide))]

@[simp] theorem size_check_L10N (size : Nat) (t n fp : String) (s : ModState) :
    (util_size_check size t n fp s).flag_problem.PERF_L10N_NOT_SET
      = s.flag_problem.PERF_L10N_NOT_SET := by
  unfold util_size_check
  split <;> try rfl
  split_ifs <;> try rfl
  rw [raiseP_flag_problem, setProblemFlag_L10N _ _ (size_template_ne _ _ (by decide))]

@[simp] theorem size_check_NOICON (size : Nat) (t n fp : String) (s : ModState) :
    (util_size_check size t n fp s).flag_problem.MOD_ERROR_NO_MOD_ICON
      = s.flag_problem.MOD_ERROR_NO_MOD_ICON := by
  unfold util_size_check
  split <;> try rfl
  split_ifs <;> try rfl
  rw [raiseP_flag_problem, setProblemFlag_NOICON _ _ (size_template_ne _ _ (by decide))]

/-- Projections preserved by `#util_countUnknown` (it touches only the
problem map and `extraFiles`). -/
@[simp] theorem countUnknown_flag_broken (suf n : String) (s : ModState) :
    (util_countUnknown suf n s).1.flag_broken = s.flag_broken := by
  unfold util_countUnknown; split_ifs <;> rfl

@[simp] theorem countUnknown_flag_info (suf n : String) (s : ModState) :
    (util_countUnknown suf n s).1.flag_info = s.flag_info := by
  unfold util_countUnknown; split_ifs <;> rfl

@[simp] theorem countUnknown_modDesc (suf n : String) (s : ModState) :
    (util_countUnknown suf n s).1.modDesc = s.modDesc := by
  unfold util_countUnknown; split_ifs <;> rfl

@[simp] theorem countUnknown_maxFilesType (suf n : String) (s : ModState) :
    (util_countUnknown suf n s).1.maxFilesType = s.maxFilesType := by
  unfold util_countUnknown; split_ifs <;> rfl

@[simp] theorem countUnknown_modDescParsed (suf n : String) (s : ModState) :
    (util_countUnknown suf n s).1.modDescParsed = s.modDescParsed := by
  unfold util_countUnknown; split_ifs <;> rfl

@[simp] theorem countUnknown_md5Sum (suf n : String) (s : ModState) :
    (util_countUnknown suf n s).1.md5Sum = s.md5Sum := by
  unfold util_countUnknown; split_ifs <;> rfl

@[simp] theorem countUnknown_uuid (suf n : String) (s : ModState) :
    (util_countUnknown suf n s).1.uuid = s.uuid := by
  unfold util_countUnknown; split_ifs <;> rfl

@[simp] theorem countUnknown_l10n (suf n : String) (s : ModState) :
    (util_countUnknown suf n s).1.l10n = s.l10n := by
  unfold util_countUnknown; split_ifs <;> rfl

@[simp] theorem countUnknown_isSaveGame (suf n : String) (s : ModState) :
    (util_countUnknown suf n s).1.fileDetail.isSaveGame
      = s.fileDetail.isSaveGame := by
  unfold util_countUnknown; split_ifs <;> rfl

@[simp] theorem countUnknown_tooBig (suf n : String) (s : ModState) :
    (util_countUnknown suf n s).1.fileDetail.tooBigFiles
      = s.fileDetail.tooBigFiles := by
  unfold util_countUnknown; split_ifs <;> rfl

/-- The unknown-extension handler raises only `INFO_MIGHT_BE_PIRACY` and
`PERF_HAS_EXTRA`. -/
@[simp] theorem countUnknown_DAMAGED (suf n : String) (s : ModState) :
    (util_countUnknown suf n s).1.flag_problem.MOD_ERROR_MODDESC_DAMAGED_RECOVERABLE
      = s.flag_problem.MOD_ERROR_MODDESC_DAMAGED_RECOVERABLE := by
  unfold util_countUnknown
  split_ifs <;> simp [setProblemFlag]

@[simp] theorem countUnknown_PREFPNG (suf n : String) (s : ModState) :
    (util_countUnknown suf n s).1.flag_problem.PREF_PNG_TEXTURE
      = s.flag_problem.PREF_PNG_TEXTURE := by
  unfold util_countUnknown
  split_ifs <;> simp [setProblemFlag]

@[simp] theorem countUnknown_GRLEMANY (suf n : String) (s : ModState) :
    (util_countUnknown suf n s).1.flag_problem.PERF_GRLE_TOO_MANY
      = s.flag_problem.PERF_GRLE_TOO_MANY := by
  unfold util_countUnknown
  split_ifs <;> simp [setProblemFlag]

@[simp] theorem countUnknown_PNGMANY (suf n : String) (s : ModState) :
    (util_countUnknown suf n s).1.flag_problem.PERF_PNG_TOO_MANY
      = s.flag_problem.PERF_PNG_TOO_MANY := by
  unfold util_countUnknown
  split_ifs <;> simp [setProblemFlag]

@[simp] theorem countUnknown_PDFMANY (suf n : String) (s : ModState) :
    (util_countUnknown suf n s).1.flag_problem.PERF_PDF_TOO_MANY
      = s.flag_problem.PERF_PDF_TOO_MANY := by
  unfold util_countUnknown
  split_ifs <;> simp [setProblemFlag]

@[simp] theorem countUnknown_TXTMANY (suf n : String) (s : ModState) :
    (util_countUnknown suf n s).1.flag_problem.PERF_TXT_TOO_MANY
      = s.flag_problem.PERF_TXT_TOO_MANY := by
  unfold util_countUnknown
  split_ifs <;> simp [setProblemFlag]

@[simp] theorem countUnknown_L10N (suf n : String) (s : ModState) :
    (util_countUnknown suf n s).1.flag_problem.PERF_L10N_NOT_SET
      = s.flag_problem.PERF_L10N_NOT_SET := by
  unfold util_countUnknown
  split_ifs <;> simp [setProblemFlag]

@[simp] theorem countUnknown_NOICON (suf n : String) (s : ModState) :
    (util_countUnknown suf n s).1.flag_problem.MOD_ERROR_NO_MOD_ICON
      = s.flag_problem.MOD_ERROR_NO_MOD_ICON := by
  unfold util_countUnknown
  split_ifs <;> simp [setProblemFlag]

@[simp] theorem countUnknown_I3D (suf n : String) (s : ModState) :
    (util_countUnknown suf n s).1.flag_problem.PERF_I3D_TOO_BIG
      = s.flag_problem.PERF_I3D_TOO_BIG := by
  unfold util_countUnknown
  split_ifs <;> simp [setProblemFlag]

/-- Projections preserved by `#util_checkLUA` (it can only raise the
`MALICIOUS_CODE` info flag). -/
@[simp] theorem checkLUA_flag_broken (env : Env) (n : String) (s : ModState) :
    (util_checkLUA env n s).flag_broken = s.flag_broken := by
  unfold util_checkLUA
  split_ifs <;> try rfl
  split <;> try rfl
  split_ifs <;> rfl

@[simp] theorem checkLUA_flag_problem (env : Env) (n : String) (s : ModState) :
    (util_checkLUA env n s).flag_problem = s.flag_problem := by
  unfold util_checkLUA
  split_ifs <;> try rfl
  split <;> try rfl
  split_ifs <;> rfl

@[simp] theorem checkLUA_modDesc (env : Env) (n : String) (s : ModState) :
    (util_checkLUA env n s).modDesc = s.modDesc := by
  unfold util_checkLUA
  split_ifs <;> try rfl
  split <;> try rfl
  split_ifs <;> rfl

@[simp] theorem checkLUA_maxFilesType (env : Env) (n : String) (s : ModState) :
    (util_checkLUA env n s).maxFilesType = s.maxFilesType := by
  unfold util_checkLUA
  split_ifs <;> try rfl
  split <;> try rfl
  split_ifs <;> rfl

@[simp] theorem checkLUA_modDescParsed (env : Env) (n : String) (s : ModState) :
    (util_checkLUA env n s).modDescParsed = s.modDescParsed := by
  unfold util_checkLUA
  split_ifs <;> try rfl
  split <;> try rfl
  split_ifs <;> rfl

@[simp] theorem checkLUA_md5Sum (env : Env) (n : String) (s : ModState) :
    (util_checkLUA env n s).md5Sum = s.md5Sum := by
  unfold util_checkLUA
  split_ifs <;> try rfl
  split <;> try rfl
  split_ifs <;> rfl

@[simp] theorem checkLUA_uuid (env : Env) (n : String) (s : ModState) :
    (util_checkLUA env n s).uuid = s.uuid := by
  unfold util_checkLUA
  split_ifs <;> try rfl
  split <;> try rfl
  split_ifs <;> rfl

@[simp] theorem checkLUA_l10n (env : Env) (n : String) (s : ModState) :
    (util_checkLUA env n s).l10n = s.l10n := by
  unfold util_checkLUA
  split_ifs <;> try rfl
  split <;> try rfl
  split_ifs <;> rfl

@[simp] theorem checkLUA_fileDetail (env : Env) (n : String) (s : ModState) :
    (util_checkLUA env n s).fileDetail = s.fileDetail := by
  unfold util_checkLUA
  split_ifs <;> try rfl
  split <;> try rfl
  split_ifs <;> rfl

@[simp] theorem checkLUA_info_noMP (env : Env) (n : String) (s : ModState) :
    (util_checkLUA env n s).flag_info.INFO_NO_MULTIPLAYER_UNZIPPED
      = s.flag_info.INFO_NO_MULTIPLAYER_UNZIPPED := by
  unfold util_checkLUA
  split_ifs <;> try rfl
  split <;> try rfl
  split_ifs <;> simp [setInfoFlag]

@[simp] theorem checkLUA_info_savegame (env : Env) (n : String) (s : ModState) :
    (util_checkLUA env n s).flag_info.FILE_IS_A_SAVEGAME
      = s.flag_info.FILE_IS_A_SAVEGAME := by
  unfold util_checkLUA
  split_ifs <;> try rfl
  split <;> try rfl
  split_ifs <;> simp [setInfoFlag]

@[simp] theorem checkLUA_info_dyn (env : Env) (n : String) (s : ModState) :
    (util_checkLUA env n s).flag_info.PERF_L10N_NOT_SET
      = s.flag_info.PERF_L10N_NOT_SET := by
  unfold util_checkLUA
  split_ifs <;> try rfl
  split <;> try rfl
  split_ifs <;> simp [setInfoFlag]

/-! ## countFile-level lemmas -/

/-- Literal evaluations used when the size-check template is applied with
the concrete flag parts of the source switch. -/
theorem perfName_DDS : ("PERF_" ++ "DDS" ++ "_TOO_BIG") = "PERF_DDS_TOO_BIG" := rfl

theorem perfName_I3D : ("PERF_" ++ "I3D" ++ "_TOO_BIG") = "PERF_I3D_TOO_BIG" := rfl

theorem perfName_GDM : ("PERF_" ++ "GDM" ++ "_TOO_BIG") = "PERF_GDM_TOO_BIG" := rfl

theorem perfName_XML : ("PERF_" ++ "XML" ++ "_TOO_BIG") = "PERF_XML_TOO_BIG" := rfl

theorem perfName_SHAPES : ("PERF_" ++ "SHAPES" ++ "_TOO_BIG") = "PERF_SHAPES_TOO_BIG" := rfl

theorem upper_gdm : strToUpper "gdm" = "GDM" := by decide

theorem upper_xml : strToUpper "xml" = "XML" := by decide

theorem upper_shapes : strToUpper "shapes" = "SHAPES" := by decide

/-- The dead dotted switch arms name no size-checked type. -/
theorem overLimit_dotted (t : String) (size : Nat)
    (h : (t = ".grle" ∨ t = ".pdf") ∨ t = ".txt") : overLimit t size = false := by
  rcases h with (h | h) | h <;> subst h <;> rfl

/-- The five size-checked types are the only keys of the policy table. -/
theorem fileSizeMap_none_of_ne (t : String) (h1 : t ≠ "cache") (h2 : t ≠ "dds")
    (h3 : t ≠ "gdm") (h4 : t ≠ "shapes") (h5 : t ≠ "xml") :
    fileSizeMap t = none := by
  unfold fileSizeMap; split <;> simp_all

/-- Projections of `#util_countFile` that no branch mutates. -/
theorem countFile_flag_broken (env : Env) (suffix n : String) (size : Nat)
    (full : String) (s : ModState) :
    (util_countFile env suffix n size full s).flag_broken = s.flag_broken := by
  rcases hu : util_countUnknown (suffix.drop 1) n s with ⟨s1, b⟩
  have h1 : s1.flag_broken = s.flag_broken := by
    have h2 : s1 = (util_countUnknown (suffix.drop 1) n s).1 := by rw [hu]
    rw [h2]; simp
  unfold util_countFile
  dsimp only
  rw [hu]
  cases b
  · dsimp only
    repeat' split
    all_goals simp_all
  · dsimp only
    exact h1

theorem countFile_info_noMP (env : Env) (suffix n : String) (size : Nat)
    (full : String) (s : ModState) :
    (util_countFile env suffix n size full s).flag_info.INFO_NO_MULTIPLAYER_UNZIPPED = s.flag_info.INFO_NO_MULTIPLAYER_UNZIPPED := by
  rcases hu : util_countUnknown (suffix.drop 1) n s with ⟨s1, b⟩
  have h1 : s1.flag_info.INFO_NO_MULTIPLAYER_UNZIPPED = s.flag_info.INFO_NO_MULTIPLAYER_UNZIPPED := by
    have h2 : s1 = (util_countUnknown (suffix.drop 1) n s).1 := by rw [hu]
    rw [h2]; simp
  unfold util_countFile
  dsimp only
  rw [hu]
  cases b
  · dsimp only
    repeat' split
    all_goals simp_all
  · dsimp only
    exact h1

theorem countFile_info_savegame (env : Env) (suffix n : String) (size : Nat)
    (full : String) (s : ModState) :
    (util_countFile env suffix n size full s).flag_info.FILE_IS_A_SAVEGAME = s.flag_info.FILE_IS_A_SAVEGAME := by
  rcases hu : util_countUnknown (suffix.drop 1) n s with ⟨s1, b⟩
  have h1 : s1.flag_info.FILE_IS_A_SAVEGAME = s.flag_info.FILE_IS_A_SAVEGAME := by
    have h2 : s1 = (util_countUnknown (suffix.drop 1) n s).1 := by rw [hu]
    rw [h2]; simp
  unfold util_countFile
  dsimp only
  rw [hu]
  cases b
  · dsimp only
    repeat' split
    all_goals simp_all
  · dsimp only
    exact h1

theorem countFile_info_dyn (env : Env) (suffix n : String) (size : Nat)
    (full : String) (s : ModState) :
    (util_countFile env suffix n size full s).flag_info.PERF_L10N_NOT_SET = s.flag_info.PERF_L10N_NOT_SET := by
  rcases hu : util_countUnknown (suffix.drop 1) n s with ⟨s1, b⟩
  have h1 : s1.flag_info.PERF_L10N_NOT_SET = s.flag_info.PERF_L10N_NOT_SET := by
    have h2 : s1 = (util_countUnknown (suffix.drop 1) n s).1 := by rw [hu]
    rw [h2]; simp
  unfold util_countFile
  dsimp only
  rw [hu]
  cases b
  · dsimp only
    repeat' split
    all_goals simp_all
  · dsimp only
    exact h1

theorem countFile_isSaveGame (env : Env) (suffix n : String) (size : Nat)
    (full : String) (s : ModState) :
    (util_countFile env suffix n size full s).fileDetail.isSaveGame = s.fileDetail.isSaveGame := by
  rcases hu : util_countUnknown (suffix.drop 1) n s with ⟨s1, b⟩
  have h1 : s1.fileDetail.isSaveGame = s.fileDetail.isSaveGame := by
    have h2 : s1 = (util_countUnknown (suffix.drop 1) n s).1 := by rw [hu]
    rw [h2]; simp
  unfold util_countFile
  dsimp only
  rw [hu]
  cases b
  · dsimp only
    repeat' split
    all_goals simp_all
  · dsimp only
    exact h1

theorem countFile_PREFPNG (env : Env) (suffix n : String) (size : Nat)
    (full : String) (s : ModState) :
    (util_countFile env suffix n size full s).flag_problem.PREF_PNG_TEXTURE = s.flag_problem.PREF_PNG_TEXTURE := by
  rcases hu : util_countUnknown (suffix.drop 1) n s with ⟨s1, b⟩
  have h1 : s1.flag_problem.PREF_PNG_TEXTURE = s.flag_problem.PREF_PNG_TEXTURE := by
    have h2 : s1 = (util_countUnknown (suffix.drop 1) n s).1 := by rw [hu]
    rw [h2]; simp
  unfold util_countFile
  dsimp only
  rw [hu]
  cases b
  · dsimp only
    repeat' split
    all_goals simp_all
  · dsimp only
    exact h1

theorem countFile_GRLEMANY (env : Env) (suffix n : String) (size : Nat)
    (full : String) (s : ModState) :
    (util_countFile env suffix n size full s).flag_problem.PERF_GRLE_TOO_MANY = s.flag_problem.PERF_GRLE_TOO_MANY := by
  rcases hu : util_countUnknown (suffix.drop 1) n s with ⟨s1, b⟩
  have h1 : s1.flag_problem.PERF_GRLE_TOO_MANY = s.flag_problem.PERF_GRLE_TOO_MANY := by
    have h2 : s1 = (util_countUnknown (suffix.drop 1) n s).1 := by rw [hu]
    rw [h2]; simp
  unfold util_countFile
  dsimp only
  rw [hu]
  cases b
  · dsimp only
    repeat' split
    all_goals simp_all
  · dsimp only
    exact h1

theorem countFile_PNGMANY (env : Env) (suffix n : String) (size : Nat)
    (full : String) (s : ModState) :
    (util_countFile env suffix n size full s).flag_problem.PERF_PNG_TOO_MANY = s.flag_problem.PERF_PNG_TOO_MANY := by
  rcases hu : util_countUnknown (suffix.drop 1) n s with ⟨s1, b⟩
  have h1 : s1.flag_problem.PERF_PNG_TOO_MANY = s.flag_problem.PERF_PNG_TOO_MANY := by
    have h2 : s1 = (util_countUnknown (suffix.drop 1) n s).1 := by rw [hu]
    rw [h2]; simp
  unfold util_countFile
  dsimp only
  rw [hu]
  cases b
  · dsimp only
    repeat' split
    all_goals simp_all
  · dsimp only
    exact h1

theorem countFile_PDFMANY (env : Env) (suffix n : String) (size : Nat)
    (full : String) (s : ModState) :
    (util_countFile env suffix n size full s).flag_problem.PERF_PDF_TOO_MANY = s.flag_problem.PERF_PDF_TOO_MANY := by
  rcases hu : util_countUnknown (suffix.drop 1) n s with ⟨s1, b⟩
  have h1 : s1.flag_problem.PERF_PDF_TOO_MANY = s.flag_problem.PERF_PDF_TOO_MANY := by
    have h2 : s1 = (util_countUnknown (suffix.drop 1) n s).1 := by rw [hu]
    rw [h2]; simp
  unfold util_countFile
  dsimp only
  rw [hu]
  cases b
  · dsimp only
    repeat' split
    all_goals simp_all
  · dsimp only
    exact h1

theorem countFile_TXTMANY (env : Env) (suffix n : String) (size : Nat)
    (full : String) (s : ModState) :
    (util_countFile env suffix n size full s).flag_problem.PERF_TXT_TOO_MANY = s.flag_problem.PERF_TXT_TOO_MANY := by
  rcases hu : util_countUnknown (suffix.drop 1) n s with ⟨s1, b⟩
  have h1 : s1.flag_problem.PERF_TXT_TOO_MANY = s.flag_problem.PERF_TXT_TOO_MANY := by
    have h2 : s1 = (util_countUnknown (suffix.drop 1) n s).1 := by rw [hu]
    rw [h2]; simp
  unfold util_countFile
  dsimp only
  rw [hu]
  cases b
  · dsimp only
    repeat' split
    all_goals simp_all
  · dsimp only
    exact h1

theorem countFile_L10NP (env : Env) (suffix n : String) (size : Nat)
    (full : String) (s : ModState) :
    (util_countFile env suffix n size full s).flag_problem.PERF_L10N_NOT_SET = s.flag_problem.PERF_L10N_NOT_SET := by
  rcases hu : util_countUnknown (suffix.drop 1) n s with ⟨s1, b⟩
  have h1 : s1.flag_problem.PERF_L10N_NOT_SET = s.flag_problem.PERF_L10N_NOT_SET := by
    have h2 : s1 = (util_countUnknown (suffix.drop 1) n s).1 := by rw [hu]
    rw [h2]; simp
  unfold util_countFile
  dsimp only
  rw [hu]
  cases b
  · dsimp only
    repeat' split
    all_goals simp_all
  · dsimp only
    exact h1

/-- Small evaluations of the policy table on size-exempt known types. -/
theorem overLimit_png (size : Nat) : overLimit "png" size = false := rfl

theorem overLimit_i3d (size : Nat) : overLimit "i3d" size = false := rfl

theorem overLimit_lua (size : Nat) : overLimit "lua" size = false := rfl

/-- A type with no policy entry never trips the size check. -/
theorem overLimit_none (t : String) (size : Nat) (h : fileSizeMap t = none) :
    overLimit t size = false := by
  unfold overLimit
  rw [h]

/-- Specialization used in the switch's default arm. -/
theorem overLimit_of_ne (t : String) (size : Nat) (h1 : t ≠ "cache")
    (h2 : t ≠ "dds") (h3 : t ≠ "gdm") (h4 : t ≠ "shapes") (h5 : t ≠ "xml") :
    overLimit t size = false :=
  overLimit_none t size (fileSizeMap_none_of_ne t h1 h2 h3 h4 h5)

/-- The size check called with the `I3D` flag part (the `cache` arm)
raises exactly `PERF_I3D_TOO_BIG` when the limit is exceeded. -/
theorem size_check_I3D_hit (size : Nat) (t n : String) (s : ModState) :
    (util_size_check size t n "I3D" s).flag_problem.PERF_I3D_TOO_BIG
      = (s.flag_problem.PERF_I3D_TOO_BIG || overLimit t size) := by
  unfold util_size_check overLimit
  cases hf : fileSizeMap t with
  | none => dsimp only; simp
  | some limit =>
    dsimp only
    split_ifs with h
    · simp [perfName_I3D, setProblemFlag, h]
    · simp [h]

/-- The size check with any of the other concrete flag parts of the switch
leaves `PERF_I3D_TOO_BIG` unchanged. -/
theorem size_check_I3D_DDS (size : Nat) (t n : String) (s : ModState) :
    (util_size_check size t n "DDS" s).flag_problem.PERF_I3D_TOO_BIG
      = s.flag_problem.PERF_I3D_TOO_BIG := by
  unfold util_size_check
  cases hf : fileSizeMap t with
  | none => dsimp only
  | some limit =>
    dsimp only
    split_ifs <;> simp [perfName_DDS, setProblemFlag]

theorem size_check_I3D_GDM (size : Nat) (t n : String) (s : ModState) :
    (util_size_check size t n "GDM" s).flag_problem.PERF_I3D_TOO_BIG
      = s.flag_problem.PERF_I3D_TOO_BIG := by
  unfold util_size_check
  cases hf : fileSizeMap t with
  | none => dsimp only
  | some limit =>
    dsimp only
    split_ifs <;> simp [perfName_GDM, setProblemFlag]

theorem size_check_I3D_XML (size : Nat) (t n : String) (s : ModState) :
    (util_size_check size t n "XML" s).flag_problem.PERF_I3D_TOO_BIG
      = s.flag_problem.PERF_I3D_TOO_BIG := by
  unfold util_size_check
  cases hf : fileSizeMap t with
  | none => dsimp only
  | some limit =>
    dsimp only
    split_ifs <;> simp [perfName_XML, setProblemFlag]

theorem size_check_I3D_SHAPES (size : Nat) (t n : String) (s : ModState) :
    (util_size_check size t n "SHAPES" s).flag_problem.PERF_I3D_TOO_BIG
      = s.flag_problem.PERF_I3D_TOO_BIG := by
  unfold util_size_check
  cases hf : fileSizeMap t with
  | none => dsimp only
  | some limit =>
    dsimp only
    split_ifs <;> simp [perfName_SHAPES, setProblemFlag]

/-- Appending to `tooBigFiles` in `#util_countFile`: exactly the
size-checked extensions over their policy limit append the file name. -/
theorem countFile_tooBig (env : Env) (suffix n : String) (size : Nat)
    (full : String) (s : ModState) :
    (util_countFile env suffix n size full s).fileDetail.tooBigFiles
      = s.fileDetail.tooBigFiles
        ++ (if overLimit (suffix.drop 1) size then [n] else []) := by
  rcases hu : util_countUnknown (suffix.drop 1) n s with ⟨s1, b⟩
  have h1 : s1.fileDetail.tooBigFiles = s.fileDetail.tooBigFiles := by
    have h2 : s1 = (util_countUnknown (suffix.drop 1) n s).1 := by rw [hu]
    rw [h2]; simp
  unfold util_countFile
  dsimp only
  rw [hu]
  cases b
  · dsimp only
    repeat' split
    all_goals
      simp_all [size_check_tooBig, overLimit_png, overLimit_i3d,
        overLimit_lua, overLimit_dotted, overLimit_of_ne]
  · dsimp only
    have hc : knownGood.contains (suffix.drop 1) = false := by
      have h3 := countUnknown_snd (suffix.drop 1) n s
      rw [hu] at h3
      simpa using h3.symm
    rw [h1, overLimit_none _ _ (fileSizeMap_none_of_unknown _ hc)]
    simp

/-- The shared `gdm`/`xml`/`shapes` arm passes the upper-cased type as the
flag part; none of those names is the I3D one. -/
theorem size_check_I3D_gxs (size : Nat) (t n : String) (s : ModState)
    (h : (t = "gdm" ∨ t = "xml") ∨ t = "shapes") :
    (util_size_check size t n (strToUpper t) s).flag_problem.PERF_I3D_TOO_BIG
      = s.flag_problem.PERF_I3D_TOO_BIG := by
  rcases h with (h | h) | h <;> subst h
  · rw [upper_gdm]; exact size_check_I3D_GDM size "gdm" n s
  · rw [upper_xml]; exact size_check_I3D_XML size "xml" n s
  · rw [upper_shapes]; exact size_check_I3D_SHAPES size "shapes" n s

/-- The `PERF_I3D_TOO_BIG` flag in `#util_countFile` is raised exactly by
an oversized `cache` file (the deliberate I3D labelling of the source). -/
theorem countFile_I3D (env : Env) (suffix n : String) (size : Nat)
    (full : String) (s : ModState) :
    (util_countFile env suffix n size full s).flag_problem.PERF_I3D_TOO_BIG
      = (s.flag_problem.PERF_I3D_TOO_BIG
          || (decide (suffix.drop 1 = "cache") && overLimit "cache" size)) := by
  rcases hu : util_countUnknown (suffix.drop 1) n s with ⟨s1, b⟩
  have h1 : s1.flag_problem.PERF_I3D_TOO_BIG = s.flag_problem.PERF_I3D_TOO_BIG := by
    have h2 : s1 = (util_countUnknown (suffix.drop 1) n s).1 := by rw [hu]
    rw [h2]; simp
  unfold util_countFile
  dsimp only
  rw [hu]
  cases b
  · dsimp only
    repeat' split
    all_goals
      simp_all [size_check_I3D_hit, size_check_I3D_DDS, size_check_I3D_gxs]
  · dsimp only
    have hc : knownGood.contains (suffix.drop 1) = false := by
      have h3 := countUnknown_snd (suffix.drop 1) n s
      rw [hu] at h3
      simpa using h3.symm
    have hnc : ¬(suffix.drop 1 = "cache") := by
      intro h
      rw [h] at hc
      simp [knownGood] at hc
    simp [h1, hnc]

theorem countFile_DAMAGED (env : Env) (suffix n : String) (size : Nat)
    (full : String) (s : ModState) :
    (util_countFile env suffix n size full s).flag_problem.MOD_ERROR_MODDESC_DAMAGED_RECOVERABLE
      = s.flag_problem.MOD_ERROR_MODDESC_DAMAGED_RECOVERABLE := by
  rcases hu : util_countUnknown (suffix.drop 1) n s with ⟨s1, b⟩
  have h1 : s1.flag_problem.MOD_ERROR_MODDESC_DAMAGED_RECOVERABLE
      = s.flag_problem.MOD_ERROR_MODDESC_DAMAGED_RECOVERABLE := by
    have h2 : s1 = (util_countUnknown (suffix.drop 1) n s).1 := by rw [hu]
    rw [h2]; simp
  unfold util_countFile
  dsimp only
  rw [hu]
  cases b
  · dsimp only
    repeat' split
    all_goals simp_all
  · dsimp only
    exact h1

/-! ## walkEntry-level lemmas -/

/-- A listed entry that the walk appends to `tooBigFiles`: a file (not a
directory) whose extension has a policy entry that its size strictly
exceeds. -/
def entryOversized (e : Entry) : Bool :=
  !e.isFolder && overLimit ((path_extname e.name).drop 1) e.size

/-- A listed entry that raises `PERF_I3D_TOO_BIG`: an oversized file of the
`cache` extension. -/
def entryCacheOversized (e : Entry) : Bool :=
  !e.isFolder && (decide ((path_extname e.name).drop 1 = "cache")
    && overLimit "cache" e.size)

/-- Projections of one walk iteration that neither the space check nor the
classifier mutates. -/
theorem walkEntry_flag_broken (env : Env) (s : ModState) (e : Entry) :
    (walkEntry env s e).flag_broken = s.flag_broken := by
  unfold walkEntry
  dsimp only
  split_ifs <;> simp_all [countFile_flag_broken, setProblemFlag]

theorem walkEntry_info_noMP (env : Env) (s : ModState) (e : Entry) :
    (walkEntry env s e).flag_info.INFO_NO_MULTIPLAYER_UNZIPPED = s.flag_info.INFO_NO_MULTIPLAYER_UNZIPPED := by
  unfold walkEntry
  dsimp only
  split_ifs <;> simp_all [countFile_info_noMP, setProblemFlag]

theorem walkEntry_info_savegame (env : Env) (s : ModState) (e : Entry) :
    (walkEntry env s e).flag_info.FILE_IS_A_SAVEGAME = s.flag_info.FILE_IS_A_SAVEGAME := by
  unfold walkEntry
  dsimp only
  split_ifs <;> simp_all [countFile_info_savegame, setProblemFlag]

theorem walkEntry_info_dyn (env : Env) (s : ModState) (e : Entry) :
    (walkEntry env s e).flag_info.PERF_L10N_NOT_SET = s.flag_info.PERF_L10N_NOT_SET := by
  unfold walkEntry
  dsimp only
  split_ifs <;> simp_all [countFile_info_dyn, setProblemFlag]

theorem walkEntry_isSaveGame (env : Env) (s : ModState) (e : Entry) :
    (walkEntry env s e).fileDetail.isSaveGame = s.fileDetail.isSaveGame := by
  unfold walkEntry
  dsimp only
  split_ifs <;> simp_all [countFile_isSaveGame, setProblemFlag]

theorem walkEntry_DAMAGED (env : Env) (s : ModState) (e : Entry) :
    (walkEntry env s e).flag_problem.MOD_ERROR_MODDESC_DAMAGED_RECOVERABLE = s.flag_problem.MOD_ERROR_MODDESC_DAMAGED_RECOVERABLE := by
  unfold walkEntry
  dsimp only
  split_ifs <;> simp_all [countFile_DAMAGED, setProblemFlag]

theorem walkEntry_PREFPNG (env : Env) (s : ModState) (e : Entry) :
    (walkEntry env s e).flag_problem.PREF_PNG_TEXTURE = s.flag_problem.PREF_PNG_TEXTURE := by
  unfold walkEntry
  dsimp only
  split_ifs <;> simp_all [countFile_PREFPNG, setProblemFlag]

theorem walkEntry_GRLEMANY (env : Env) (s : ModState) (e : Entry) :
    (walkEntry env s e).flag_problem.PERF_GRLE_TOO_MANY = s.flag_problem.PERF_GRLE_TOO_MANY := by
  unfold walkEntry
  dsimp only
  split_ifs <;> simp_all [countFile_GRLEMANY, setProblemFlag]

theorem walkEntry_PNGMANY (env : Env) (s : ModState) (e : Entry) :
    (walkEntry env s e).flag_problem.PERF_PNG_TOO_MANY = s.flag_problem.PERF_PNG_TOO_MANY := by
  unfold walkEntry
  dsimp only
  split_ifs <;> simp_all [countFile_PNGMANY, setProblemFlag]

theorem walkEntry_PDFMANY (env : Env) (s : ModState) (e : Entry) :
    (walkEntry env s e).flag_problem.PERF_PDF_TOO_MANY = s.flag_problem.PERF_PDF_TOO_MANY := by
  unfold walkEntry
  dsimp only
  split_ifs <;> simp_all [countFile_PDFMANY, setProblemFlag]

theorem walkEntry_TXTMANY (env : Env) (s : ModState) (e : Entry) :
    (walkEntry env s e).flag_problem.PERF_TXT_TOO_MANY = s.flag_problem.PERF_TXT_TOO_MANY := by
  unfold walkEntry
  dsimp only
  split_ifs <;> simp_all [countFile_TXTMANY, setProblemFlag]

theorem walkEntry_L10NP (env : Env) (s : ModState) (e : Entry) :
    (walkEntry env s e).flag_problem.PERF_L10N_NOT_SET = s.flag_problem.PERF_L10N_NOT_SET := by
  unfold walkEntry
  dsimp only
  split_ifs <;> simp_all [countFile_L10NP, setProblemFlag]

/-- One walk iteration appends to `tooBigFiles` exactly for an oversized
size-checked file. -/
theorem walkEntry_tooBig (env : Env) (s : ModState) (e : Entry) :
    (walkEntry env s e).fileDetail.tooBigFiles
      = s.fileDetail.tooBigFiles
        ++ (if entryOversized e then [e.name] else []) := by
  unfold walkEntry entryOversized
  dsimp only
  split_ifs <;> simp_all [countFile_tooBig]

/-- One walk iteration raises `PERF_I3D_TOO_BIG` exactly for an oversized
`cache` file. -/
theorem walkEntry_I3D (env : Env) (s : ModState) (e : Entry) :
    (walkEntry env s e).flag_problem.PERF_I3D_TOO_BIG
      = (s.flag_problem.PERF_I3D_TOO_BIG || entryCacheOversized e) := by
  unfold walkEntry entryCacheOversized
  dsimp only
  split_ifs <;> simp_all [countFile_I3D, setProblemFlag]

/-! ## Fold- and stage-level lemmas -/

/-- The walk appends to `tooBigFiles` the names of exactly the oversized
size-checked files, in listing order. -/
theorem walk_fold_tooBig (env : Env) (l : List Entry) (s : ModState) :
    (l.foldl (walkEntry env) s).fileDetail.tooBigFiles
      = s.fileDetail.tooBigFiles
        ++ (l.filter entryOversized).map (fun e => e.name) := by
  induction l generalizing s with
  | nil => simp
  | cons e es ih =>
    rw [List.foldl_cons, ih, walkEntry_tooBig]
    by_cases he : entryOversized e <;> simp [he]

/-- The walk raises `PERF_I3D_TOO_BIG` exactly when some entry is an
oversized `cache` file. -/
theorem walk_fold_I3D (env : Env) (l : List Entry) (s : ModState) :
    (l.foldl (walkEntry env) s).flag_problem.PERF_I3D_TOO_BIG
      = (s.flag_problem.PERF_I3D_TOO_BIG || l.any entryCacheOversized) := by
  induction l generalizing s with
  | nil => simp
  | cons e es ih =>
    rw [List.foldl_cons, ih, walkEntry_I3D, List.any_cons, Bool.or_assoc]

/-- Projections of `#doStep_fileCounts` that neither the walk nor the
post-walk quota assignments mutate. -/
theorem fileCounts_flag_broken (env : Env) (s : ModState) :
    (doStep_fileCounts env s).flag_broken = s.flag_broken := by
  unfold doStep_fileCounts
  dsimp only
  exact foldl_preserve _ _ (fun s e => walkEntry_flag_broken env s e) env.entries s

theorem fileCounts_info_noMP (env : Env) (s : ModState) :
    (doStep_fileCounts env s).flag_info.INFO_NO_MULTIPLAYER_UNZIPPED
      = s.flag_info.INFO_NO_MULTIPLAYER_UNZIPPED := by
  unfold doStep_fileCounts
  dsimp only
  exact foldl_preserve (walkEntry env) (fun st => st.flag_info.INFO_NO_MULTIPLAYER_UNZIPPED) (fun s e => walkEntry_info_noMP env s e) env.entries s

theorem fileCounts_info_savegame (env : Env) (s : ModState) :
    (doStep_fileCounts env s).flag_info.FILE_IS_A_SAVEGAME
      = s.flag_info.FILE_IS_A_SAVEGAME := by
  unfold doStep_fileCounts
  dsimp only
  exact foldl_preserve (walkEntry env) (fun st => st.flag_info.FILE_IS_A_SAVEGAME) (fun s e => walkEntry_info_savegame env s e) env.entries s

theorem fileCounts_info_dyn (env : Env) (s : ModState) :
    (doStep_fileCounts env s).flag_info.PERF_L10N_NOT_SET
      = s.flag_info.PERF_L10N_NOT_SET := by
  unfold doStep_fileCounts
  dsimp only
  exact foldl_preserve (walkEntry env) (fun st => st.flag_info.PERF_L10N_NOT_SET) (fun s e => walkEntry_info_dyn env s e) env.entries s

theorem fileCounts_isSaveGame (env : Env) (s : ModState) :
    (doStep_fileCounts env s).fileDetail.isSaveGame
      = s.fileDetail.isSaveGame := by
  unfold doStep_fileCounts
  dsimp only
  exact foldl_preserve (walkEntry env) (fun st => st.fileDetail.isSaveGame) (fun s e => walkEntry_isSaveGame env s e) env.entries s

theorem fileCounts_DAMAGED (env : Env) (s : ModState) :
    (doStep_fileCounts env s).flag_problem.MOD_ERROR_MODDESC_DAMAGED_RECOVERABLE
      = s.flag_problem.MOD_ERROR_MODDESC_DAMAGED_RECOVERABLE := by
  unfold doStep_fileCounts
  dsimp only
  exact foldl_preserve (walkEntry env) (fun st => st.flag_problem.MOD_ERROR_MODDESC_DAMAGED_RECOVERABLE) (fun s e => walkEntry_DAMAGED env s e) env.entries s

theorem fileCounts_PREFPNG (env : Env) (s : ModState) :
    (doStep_fileCounts env s).flag_problem.PREF_PNG_TEXTURE
      = s.flag_problem.PREF_PNG_TEXTURE := by
  unfold doStep_fileCounts
  dsimp only
  exact foldl_preserve (walkEntry env) (fun st => st.flag_problem.PREF_PNG_TEXTURE) (fun s e => walkEntry_PREFPNG env s e) env.entries s

theorem fileCounts_L10NP (env : Env) (s : ModState) :
    (doStep_fileCounts env s).flag_problem.PERF_L10N_NOT_SET
      = s.flag_problem.PERF_L10N_NOT_SET := by
  unfold doStep_fileCounts
  dsimp only
  exact foldl_preserve (walkEntry env) (fun st => st.flag_problem.PERF_L10N_NOT_SET) (fun s e => walkEntry_L10NP env s e) env.entries s

theorem fileCounts_tooBig (env : Env) (s : ModState) :
    (doStep_fileCounts env s).fileDetail.tooBigFiles
      = s.fileDetail.tooBigFiles
        ++ (env.entries.filter entryOversized).map (fun e => e.name) := by
  unfold doStep_fileCounts
  dsimp only
  exact walk_fold_tooBig env env.entries s

theorem fileCounts_I3D (env : Env) (s : ModState) :
    (doStep_fileCounts env s).flag_problem.PERF_I3D_TOO_BIG
      = (s.flag_problem.PERF_I3D_TOO_BIG || env.entries.any entryCacheOversized) := by
  unfold doStep_fileCounts
  dsimp only
  exact walk_fold_I3D env env.entries s

/-! ## Stage-level projection lemmas -/

/-- The actions/bindings extraction writes only `modDesc`. -/
theorem parseActions_flag_broken (t : ModDescTree) (st0 : ModState) :
    (doStep_parseActions t st0).flag_broken = st0.flag_broken := by
  unfold doStep_parseActions
  dsimp only
  have hb : ∀ (l : List DeclActionBinding) (st : ModState),
      (l.foldl parseActions_bindingStep st).flag_broken = st.flag_broken := by
    intro l st
    refine foldl_preserve parseActions_bindingStep (fun st => st.flag_broken) ?_ l st
    intro st ab
    unfold parseActions_bindingStep
    cases hab : ab.binds with
    | none => rfl
    | some bs =>
      refine foldl_preserve (parseActions_bindStep ab) (fun st => st.flag_broken) ?_ bs st
      intro st b
      unfold parseActions_bindStep
      split_ifs <;> rfl
  have hA : ∀ (l : List DeclAction) (st : ModState),
      (l.foldl parseActions_actionStep st).flag_broken = st.flag_broken := by
    intro l st
    exact foldl_preserve parseActions_actionStep (fun st => st.flag_broken)
      (fun st a => rfl) l st
  cases t.actionsDecl <;> cases t.bindingsDecl <;> simp [hA, hb]

theorem parseActions_flag_problem (t : ModDescTree) (st0 : ModState) :
    (doStep_parseActions t st0).flag_problem = st0.flag_problem := by
  unfold doStep_parseActions
  dsimp only
  have hb : ∀ (l : List DeclActionBinding) (st : ModState),
      (l.foldl parseActions_bindingStep st).flag_problem = st.flag_problem := by
    intro l st
    refine foldl_preserve parseActions_bindingStep (fun st => st.flag_problem) ?_ l st
    intro st ab
    unfold parseActions_bindingStep
    cases hab : ab.binds with
    | none => rfl
    | some bs =>
      refine foldl_preserve (parseActions_bindStep ab) (fun st => st.flag_problem) ?_ bs st
      intro st b
      unfold parseActions_bindStep
      split_ifs <;> rfl
  have hA : ∀ (l : List DeclAction) (st : ModState),
      (l.foldl parseActions_actionStep st).flag_problem = st.flag_problem := by
    intro l st
    exact foldl_preserve parseActions_actionStep (fun st => st.flag_problem)
      (fun st a => rfl) l st
  cases t.actionsDecl <;> cases t.bindingsDecl <;> simp [hA, hb]

theorem parseActions_flag_info (t : ModDescTree) (st0 : ModState) :
    (doStep_parseActions t st0).flag_info = st0.flag_info := by
  unfold doStep_parseActions
  dsimp only
  have hb : ∀ (l : List DeclActionBinding) (st : ModState),
      (l.foldl parseActions_bindingStep st).flag_info = st.flag_info := by
    intro l st
    refine foldl_preserve parseActions_bindingStep (fun st => st.flag_info) ?_ l st
    intro st ab
    unfold parseActions_bindingStep
    cases hab : ab.binds with
    | none => rfl
    | some bs =>
      refine foldl_preserve (parseActions_bindStep ab) (fun st => st.flag_info) ?_ bs st
      intro st b
      unfold parseActions_bindStep
      split_ifs <;> rfl
  have hA : ∀ (l : List DeclAction) (st : ModState),
      (l.foldl parseActions_actionStep st).flag_info = st.flag_info := by
    intro l st
    exact foldl_preserve parseActions_actionStep (fun st => st.flag_info)
      (fun st a => rfl) l st
  cases t.actionsDecl <;> cases t.bindingsDecl <;> simp [hA, hb]

theorem parseActions_fileDetail (t : ModDescTree) (st0 : ModState) :
    (doStep_parseActions t st0).fileDetail = st0.fileDetail := by
  unfold doStep_parseActions
  dsimp only
  have hb : ∀ (l : List DeclActionBinding) (st : ModState),
      (l.foldl parseActions_bindingStep st).fileDetail = st.fileDetail := by
    intro l st
    refine foldl_preserve parseActions_bindingStep (fun st => st.fileDetail) ?_ l st
    intro st ab
    unfold parseActions_bindingStep
    cases hab : ab.binds with
    | none => rfl
    | some bs =>
      refine foldl_preserve (parseActions_bindStep ab) (fun st => st.fileDetail) ?_ bs st
      intro st b
      unfold parseActions_bindStep
      split_ifs <;> rfl
  have hA : ∀ (l : List DeclAction) (st : ModState),
      (l.foldl parseActions_actionStep st).fileDetail = st.fileDetail := by
    intro l st
    exact foldl_preserve parseActions_actionStep (fun st => st.fileDetail)
      (fun st a => rfl) l st
  cases t.actionsDecl <;> cases t.bindingsDecl <;> simp [hA, hb]

theorem parseActions_md5Sum (t : ModDescTree) (st0 : ModState) :
    (doStep_parseActions t st0).md5Sum = st0.md5Sum := by
  unfold doStep_parseActions
  dsimp only
  have hb : ∀ (l : List DeclActionBinding) (st : ModState),
      (l.foldl parseActions_bindingStep st).md5Sum = st.md5Sum := by
    intro l st
    refine foldl_preserve parseActions_bindingStep (fun st => st.md5Sum) ?_ l st
    intro st ab
    unfold parseActions_bindingStep
    cases hab : ab.binds with
    | none => rfl
    | some bs =>
      refine foldl_preserve (parseActions_bindStep ab) (fun st => st.md5Sum) ?_ bs st
      intro st b
      unfold parseActions_bindStep
      split_ifs <;> rfl
  have hA : ∀ (l : List DeclAction) (st : ModState),
      (l.foldl parseActions_actionStep st).md5Sum = st.md5Sum := by
    intro l st
    exact foldl_preserve parseActions_actionStep (fun st => st.md5Sum)
      (fun st a => rfl) l st
  cases t.actionsDecl <;> cases t.bindingsDecl <;> simp [hA, hb]

theorem parseActions_modDescParsed (t : ModDescTree) (st0 : ModState) :
    (doStep_parseActions t st0).modDescParsed = st0.modDescParsed := by
  unfold doStep_parseActions
  dsimp only
  have hb : ∀ (l : List DeclActionBinding) (st : ModState),
      (l.foldl parseActions_bindingStep st).modDescParsed = st.modDescParsed := by
    intro l st
    refine foldl_preserve parseActions_bindingStep (fun st => st.modDescParsed) ?_ l st
    intro st ab
    unfold parseActions_bindingStep
    cases hab : ab.binds with
    | none => rfl
    | some bs =>
      refine foldl_preserve (parseActions_bindStep ab) (fun st => st.modDescParsed) ?_ bs st
      intro st b
      unfold parseActions_bindStep
      split_ifs <;> rfl
  have hA : ∀ (l : List DeclAction) (st : ModState),
      (l.foldl parseActions_actionStep st).modDescParsed = st.modDescParsed := by
    intro l st
    exact foldl_preserve parseActions_actionStep (fun st => st.modDescParsed)
      (fun st a => rfl) l st
  cases t.actionsDecl <;> cases t.bindingsDecl <;> simp [hA, hb]

theorem parseActions_uuid (t : ModDescTree) (st0 : ModState) :
    (doStep_parseActions t st0).uuid = st0.uuid := by
  unfold doStep_parseActions
  dsimp only
  have hb : ∀ (l : List DeclActionBinding) (st : ModState),
      (l.foldl parseActions_bindingStep st).uuid = st.uuid := by
    intro l st
    refine foldl_preserve parseActions_bindingStep (fun st => st.uuid) ?_ l st
    intro st ab
    unfold parseActions_bindingStep
    cases hab : ab.binds with
    | none => rfl
    | some bs =>
      refine foldl_preserve (parseActions_bindStep ab) (fun st => st.uuid) ?_ bs st
      intro st b
      unfold parseActions_bindStep
      split_ifs <;> rfl
  have hA : ∀ (l : List DeclAction) (st : ModState),
      (l.foldl parseActions_actionStep st).uuid = st.uuid := by
    intro l st
    exact foldl_preserve parseActions_actionStep (fun st => st.uuid)
      (fun st a => rfl) l st
  cases t.actionsDecl <;> cases t.bindingsDecl <;> simp [hA, hb]

theorem parseActions_l10n (t : ModDescTree) (st0 : ModState) :
    (doStep_parseActions t st0).l10n = st0.l10n := by
  unfold doStep_parseActions
  dsimp only
  have hb : ∀ (l : List DeclActionBinding) (st : ModState),
      (l.foldl parseActions_bindingStep st).l10n = st.l10n := by
    intro l st
    refine foldl_preserve parseActions_bindingStep (fun st => st.l10n) ?_ l st
    intro st ab
    unfold parseActions_bindingStep
    cases hab : ab.binds with
    | none => rfl
    | some bs =>
      refine foldl_preserve (parseActions_bindStep ab) (fun st => st.l10n) ?_ bs st
      intro st b
      unfold parseActions_bindStep
      split_ifs <;> rfl
  have hA : ∀ (l : List DeclAction) (st : ModState),
      (l.foldl parseActions_actionStep st).l10n = st.l10n := by
    intro l st
    exact foldl_preserve parseActions_actionStep (fun st => st.l10n)
      (fun st a => rfl) l st
  cases t.actionsDecl <;> cases t.bindingsDecl <;> simp [hA, hb]

theorem parseActions_maxFilesType (t : ModDescTree) (st0 : ModState) :
    (doStep_parseActions t st0).maxFilesType = st0.maxFilesType := by
  unfold doStep_parseActions
  dsimp only
  have hb : ∀ (l : List DeclActionBinding) (st : ModState),
      (l.foldl parseActions_bindingStep st).maxFilesType = st.maxFilesType := by
    intro l st
    refine foldl_preserve parseActions_bindingStep (fun st => st.maxFilesType) ?_ l st
    intro st ab
    unfold parseActions_bindingStep
    cases hab : ab.binds with
    | none => rfl
    | some bs =>
      refine foldl_preserve (parseActions_bindStep ab) (fun st => st.maxFilesType) ?_ bs st
      intro st b
      unfold parseActions_bindStep
      split_ifs <;> rfl
  have hA : ∀ (l : List DeclAction) (st : ModState),
      (l.foldl parseActions_actionStep st).maxFilesType = st.maxFilesType := by
    intro l st
    exact foldl_preserve parseActions_actionStep (fun st => st.maxFilesType)
      (fun st a => rfl) l st
  cases t.actionsDecl <;> cases t.bindingsDecl <;> simp [hA, hb]

/-- Projections the descriptor extractor leaves unchanged. -/
theorem parse_fileDetail (env : Env) (s : ModState) :
    (doStep_parseModDesc env s).fileDetail = s.fileDetail := by
  unfold doStep_parseModDesc
  cases env.modDescXML with
  | parseError => simp
  | missing => simp
  | ok t =>
    dsimp only
    rw [parseActions_fileDetail]
    split <;> simp

theorem parse_flag_info (env : Env) (s : ModState) :
    (doStep_parseModDesc env s).flag_info = s.flag_info := by
  unfold doStep_parseModDesc
  cases env.modDescXML with
  | parseError => simp
  | missing => simp
  | ok t =>
    dsimp only
    rw [parseActions_flag_info]
    split <;> simp

theorem parse_md5Sum (env : Env) (s : ModState) :
    (doStep_parseModDesc env s).md5Sum = s.md5Sum := by
  unfold doStep_parseModDesc
  cases env.modDescXML with
  | parseError => simp
  | missing => simp
  | ok t =>
    dsimp only
    rw [parseActions_md5Sum]
    split <;> simp

/-- Problem-map fields the descriptor extractor leaves unchanged (it
assigns the piracy flag and may raise the no-icon flag only). -/
theorem parse_DAMAGED (env : Env) (s : ModState) :
    (doStep_parseModDesc env s).flag_problem.MOD_ERROR_MODDESC_DAMAGED_RECOVERABLE
      = s.flag_problem.MOD_ERROR_MODDESC_DAMAGED_RECOVERABLE := by
  unfold doStep_parseModDesc
  cases env.modDescXML with
  | parseError => simp
  | missing => simp
  | ok t =>
    dsimp only
    rw [parseActions_flag_problem]
    split <;> simp [setProblemFlag]

theorem parse_PREFPNG (env : Env) (s : ModState) :
    (doStep_parseModDesc env s).flag_problem.PREF_PNG_TEXTURE
      = s.flag_problem.PREF_PNG_TEXTURE := by
  unfold doStep_parseModDesc
  cases env.modDescXML with
  | parseError => simp
  | missing => simp
  | ok t =>
    dsimp only
    rw [parseActions_flag_problem]
    split <;> simp [setProblemFlag]

theorem parse_I3D (env : Env) (s : ModState) :
    (doStep_parseModDesc env s).flag_problem.PERF_I3D_TOO_BIG
      = s.flag_problem.PERF_I3D_TOO_BIG := by
  unfold doStep_parseModDesc
  cases env.modDescXML with
  | parseError => simp
  | missing => simp
  | ok t =>
    dsimp only
    rw [parseActions_flag_problem]
    split <;> simp [setProblemFlag]

theorem parse_L10NP (env : Env) (s : ModState) :
    (doStep_parseModDesc env s).flag_problem.PERF_L10N_NOT_SET
      = s.flag_problem.PERF_L10N_NOT_SET := by
  unfold doStep_parseModDesc
  cases env.modDescXML with
  | parseError => simp
  | missing => simp
  | ok t =>
    dsimp only
    rw [parseActions_flag_problem]
    split <;> simp [setProblemFlag]

theorem parse_GRLEMANY (env : Env) (s : ModState) :
    (doStep_parseModDesc env s).flag_problem.PERF_GRLE_TOO_MANY
      = s.flag_problem.PERF_GRLE_TOO_MANY := by
  unfold doStep_parseModDesc
  cases env.modDescXML with
  | parseError => simp
  | missing => simp
  | ok t =>
    dsimp only
    rw [parseActions_flag_problem]
    split <;> simp [setProblemFlag]

theorem parse_PNGMANY (env : Env) (s : ModState) :
    (doStep_parseModDesc env s).flag_problem.PERF_PNG_TOO_MANY
      = s.flag_problem.PERF_PNG_TOO_MANY := by
  unfold doStep_parseModDesc
  cases env.modDescXML with
  | parseError => simp
  | missing => simp
  | ok t =>
    dsimp only
    rw [parseActions_flag_problem]
    split <;> simp [setProblemFlag]

theorem parse_PDFMANY (env : Env) (s : ModState) :
    (doStep_parseModDesc env s).flag_problem.PERF_PDF_TOO_MANY
      = s.flag_problem.PERF_PDF_TOO_MANY := by
  unfold doStep_parseModDesc
  cases env.modDescXML with
  | parseError => simp
  | missing => simp
  | ok t =>
    dsimp only
    rw [parseActions_flag_problem]
    split <;> simp [setProblemFlag]

theorem parse_TXTMANY (env : Env) (s : ModState) :
    (doStep_parseModDesc env s).flag_problem.PERF_TXT_TOO_MANY
      = s.flag_problem.PERF_TXT_TOO_MANY := by
  unfold doStep_parseModDesc
  cases env.modDescXML with
  | parseError => simp
  | missing => simp
  | ok t =>
    dsimp only
    rw [parseActions_flag_problem]
    split <;> simp [setProblemFlag]

theorem parse_DDSBIG (env : Env) (s : ModState) :
    (doStep_parseModDesc env s).flag_problem.PERF_DDS_TOO_BIG
      = s.flag_problem.PERF_DDS_TOO_BIG := by
  unfold doStep_parseModDesc
  cases env.modDescXML with
  | parseError => simp
  | missing => simp
  | ok t =>
    dsimp only
    rw [parseActions_flag_problem]
    split <;> simp [setProblemFlag]

theorem parse_GDMBIG (env : Env) (s : ModState) :
    (doStep_parseModDesc env s).flag_problem.PERF_GDM_TOO_BIG
      = s.flag_problem.PERF_GDM_TOO_BIG := by
  unfold doStep_parseModDesc
  cases env.modDescXML with
  | parseError => simp
  | missing => simp
  | ok t =>
    dsimp only
    rw [parseActions_flag_problem]
    split <;> simp [setProblemFlag]

theorem parse_XMLBIG (env : Env) (s : ModState) :
    (doStep_parseModDesc env s).flag_problem.PERF_XML_TOO_BIG
      = s.flag_problem.PERF_XML_TOO_BIG := by
  unfold doStep_parseModDesc
  cases env.modDescXML with
  | parseError => simp
  | missing => simp
  | ok t =>
    dsimp only
    rw [parseActions_flag_problem]
    split <;> simp [setProblemFlag]

theorem parse_SHAPESBIG (env : Env) (s : ModState) :
    (doStep_parseModDesc env s).flag_problem.PERF_SHAPES_TOO_BIG
      = s.flag_problem.PERF_SHAPES_TOO_BIG := by
  unfold doStep_parseModDesc
  cases env.modDescXML with
  | parseError => simp
  | missing => simp
  | ok t =>
    dsimp only
    rw [parseActions_flag_problem]
    split <;> simp [setProblemFlag]

theorem parse_SPACE (env : Env) (s : ModState) :
    (doStep_parseModDesc env s).flag_problem.PERF_SPACE_IN_FILE
      = s.flag_problem.PERF_SPACE_IN_FILE := by
  unfold doStep_parseModDesc
  cases env.modDescXML with
  | parseError => simp
  | missing => simp
  | ok t =>
    dsimp only
    rw [parseActions_flag_problem]
    split <;> simp [setProblemFlag]

theorem parse_EXTRA (env : Env) (s : ModState) :
    (doStep_parseModDesc env s).flag_problem.PERF_HAS_EXTRA
      = s.flag_problem.PERF_HAS_EXTRA := by
  unfold doStep_parseModDesc
  cases env.modDescXML with
  | parseError => simp
  | missing => simp
  | ok t =>
    dsimp only
    rw [parseActions_flag_problem]
    split <;> simp [setProblemFlag]

/-- The map/crop stage writes only `modDesc` fields. -/
theorem mapCrop_flag_broken (env : Env) (s : ModState) :
    (mapCropStage env s).flag_broken = s.flag_broken := by
  unfold mapCropStage
  repeat' split
  all_goals rfl

theorem mapCrop_flag_problem (env : Env) (s : ModState) :
    (mapCropStage env s).flag_problem = s.flag_problem := by
  unfold mapCropStage
  repeat' split
  all_goals rfl

theorem mapCrop_flag_info (env : Env) (s : ModState) :
    (mapCropStage env s).flag_info = s.flag_info := by
  unfold mapCropStage
  repeat' split
  all_goals rfl

theorem mapCrop_fileDetail (env : Env) (s : ModState) :
    (mapCropStage env s).fileDetail = s.fileDetail := by
  unfold mapCropStage
  repeat' split
  all_goals rfl

theorem mapCrop_md5Sum (env : Env) (s : ModState) :
    (mapCropStage env s).md5Sum = s.md5Sum := by
  unfold mapCropStage
  repeat' split
  all_goals rfl

theorem mapCrop_modDescParsed (env : Env) (s : ModState) :
    (mapCropStage env s).modDescParsed = s.modDescParsed := by
  unfold mapCropStage
  repeat' split
  all_goals rfl

theorem mapCrop_uuid (env : Env) (s : ModState) :
    (mapCropStage env s).uuid = s.uuid := by
  unfold mapCropStage
  repeat' split
  all_goals rfl

theorem mapCrop_maxFilesType (env : Env) (s : ModState) :
    (mapCropStage env s).maxFilesType = s.maxFilesType := by
  unfold mapCropStage
  repeat' split
  all_goals rfl

/-- Projections preserved by the icon block (it raises the no-icon flag
or marks the decoded image only). -/
theorem icon_flag_broken (env : Env) (s : ModState) :
    (iconStage env s).flag_broken = s.flag_broken := by
  unfold iconStage
  repeat' split
  all_goals simp

theorem icon_flag_info (env : Env) (s : ModState) :
    (iconStage env s).flag_info = s.flag_info := by
  unfold iconStage
  repeat' split
  all_goals simp

theorem icon_fileDetail (env : Env) (s : ModState) :
    (iconStage env s).fileDetail = s.fileDetail := by
  unfold iconStage
  repeat' split
  all_goals simp

theorem icon_md5Sum (env : Env) (s : ModState) :
    (iconStage env s).md5Sum = s.md5Sum := by
  unfold iconStage
  repeat' split
  all_goals simp

theorem icon_modDescParsed (env : Env) (s : ModState) :
    (iconStage env s).modDescParsed = s.modDescParsed := by
  unfold iconStage
  repeat' split
  all_goals simp

theorem icon_uuid (env : Env) (s : ModState) :
    (iconStage env s).uuid = s.uuid := by
  unfold iconStage
  repeat' split
  all_goals simp

theorem icon_maxFilesType (env : Env) (s : ModState) :
    (iconStage env s).maxFilesType = s.maxFilesType := by
  unfold iconStage
  repeat' split
  all_goals simp

/-- Problem-map fields the icon block leaves unchanged. -/
theorem icon_DAMAGED (env : Env) (s : ModState) :
    (iconStage env s).flag_problem.MOD_ERROR_MODDESC_DAMAGED_RECOVERABLE = s.flag_problem.MOD_ERROR_MODDESC_DAMAGED_RECOVERABLE := by
  unfold iconStage
  repeat' split
  all_goals simp [setProblemFlag]

theorem icon_PREFPNG (env : Env) (s : ModState) :
    (iconStage env s).flag_problem.PREF_PNG_TEXTURE = s.flag_problem.PREF_PNG_TEXTURE := by
  unfold iconStage
  repeat' split
  all_goals simp [setProblemFlag]

theorem icon_I3D (env : Env) (s : ModState) :
    (iconStage env s).flag_problem.PERF_I3D_TOO_BIG = s.flag_problem.PERF_I3D_TOO_BIG := by
  unfold iconStage
  repeat' split
  all_goals simp [setProblemFlag]

theorem icon_L10NP (env : Env) (s : ModState) :
    (iconStage env s).flag_problem.PERF_L10N_NOT_SET = s.flag_problem.PERF_L10N_NOT_SET := by
  unfold iconStage
  repeat' split
  all_goals simp [setProblemFlag]

theorem icon_GRLEMANY (env : Env) (s : ModState) :
    (iconStage env s).flag_problem.PERF_GRLE_TOO_MANY = s.flag_problem.PERF_GRLE_TOO_MANY := by
  unfold iconStage
  repeat' split
  all_goals simp [setProblemFlag]

theorem icon_PNGMANY (env : Env) (s : ModState) :
    (iconStage env s).flag_problem.PERF_PNG_TOO_MANY = s.flag_problem.PERF_PNG_TOO_MANY := by
  unfold iconStage
  repeat' split
  all_goals simp [setProblemFlag]

theorem icon_PDFMANY (env : Env) (s : ModState) :
    (iconStage env s).flag_problem.PERF_PDF_TOO_MANY = s.flag_problem.PERF_PDF_TOO_MANY := by
  unfold iconStage
  repeat' split
  all_goals simp [setProblemFlag]

theorem icon_TXTMANY (env : Env) (s : ModState) :
    (iconStage env s).flag_problem.PERF_TXT_TOO_MANY = s.flag_problem.PERF_TXT_TOO_MANY := by
  unfold iconStage
  repeat' split
  all_goals simp [setProblemFlag]

theorem icon_DDSBIG (env : Env) (s : ModState) :
    (iconStage env s).flag_problem.PERF_DDS_TOO_BIG = s.flag_problem.PERF_DDS_TOO_BIG := by
  unfold iconStage
  repeat' split
  all_goals simp [setProblemFlag]

theorem icon_GDMBIG (env : Env) (s : ModState) :
    (iconStage env s).flag_problem.PERF_GDM_TOO_BIG = s.flag_problem.PERF_GDM_TOO_BIG := by
  unfold iconStage
  repeat' split
  all_goals simp [setProblemFlag]

theorem icon_XMLBIG (env : Env) (s : ModState) :
    (iconStage env s).flag_problem.PERF_XML_TOO_BIG = s.flag_problem.PERF_XML_TOO_BIG := by
  unfold iconStage
  repeat' split
  all_goals simp [setProblemFlag]

theorem icon_SHAPESBIG (env : Env) (s : ModState) :
    (iconStage env s).flag_problem.PERF_SHAPES_TOO_BIG = s.flag_problem.PERF_SHAPES_TOO_BIG := by
  unfold iconStage
  repeat' split
  all_goals simp [setProblemFlag]

theorem icon_SPACE (env : Env) (s : ModState) :
    (iconStage env s).flag_problem.PERF_SPACE_IN_FILE = s.flag_problem.PERF_SPACE_IN_FILE := by
  unfold iconStage
  repeat' split
  all_goals simp [setProblemFlag]

theorem icon_EXTRA (env : Env) (s : ModState) :
    (iconStage env s).flag_problem.PERF_HAS_EXTRA = s.flag_problem.PERF_HAS_EXTRA := by
  unfold iconStage
  repeat' split
  all_goals simp [setProblemFlag]

theorem icon_PIRACY (env : Env) (s : ModState) :
    (iconStage env s).flag_problem.INFO_MIGHT_BE_PIRACY = s.flag_problem.INFO_MIGHT_BE_PIRACY := by
  unfold iconStage
  repeat' split
  all_goals simp [setProblemFlag]

/-- The localization resolver writes only the dynamic info key and the
localized-strings record. -/
theorem l10n_flag_broken (env : Env) (s : ModState) :
    (doStep_l10n env s).flag_broken = s.flag_broken := rfl

theorem l10n_flag_problem (env : Env) (s : ModState) :
    (doStep_l10n env s).flag_problem = s.flag_problem := rfl

theorem l10n_fileDetail (env : Env) (s : ModState) :
    (doStep_l10n env s).fileDetail = s.fileDetail := rfl

theorem l10n_md5Sum (env : Env) (s : ModState) :
    (doStep_l10n env s).md5Sum = s.md5Sum := rfl

theorem l10n_modDesc (env : Env) (s : ModState) :
    (doStep_l10n env s).modDesc = s.modDesc := rfl

theorem l10n_info_noMP (env : Env) (s : ModState) :
    (doStep_l10n env s).flag_info.INFO_NO_MULTIPLAYER_UNZIPPED
      = s.flag_info.INFO_NO_MULTIPLAYER_UNZIPPED := rfl

theorem l10n_info_savegame (env : Env) (s : ModState) :
    (doStep_l10n env s).flag_info.FILE_IS_A_SAVEGAME
      = s.flag_info.FILE_IS_A_SAVEGAME := rfl

theorem l10n_info_malicious (env : Env) (s : ModState) :
    (doStep_l10n env s).flag_info.MALICIOUS_CODE
      = s.flag_info.MALICIOUS_CODE := rfl

/-- The dynamic info key after the localization resolver. -/
theorem l10n_info_dyn (env : Env) (s : ModState) :
    (doStep_l10n env s).flag_info.PERF_L10N_NOT_SET
      = some ((modDesc_localString s.modDescParsed env.locale
            (fun t => t.titleEntry) "--" = "--")
          || (modDesc_localString s.modDescParsed env.locale
            (fun t => t.descriptionEntry) "" = "")) := rfl

/-- Projections of the validity step (it raises broken flags, fills the
uuid and may record a copy name). -/
theorem nameStep_flag_problem (env : Env) (s : ModState) :
    ((nameStep env s).1).flag_problem = s.flag_problem := by
  unfold nameStep doStep_validFileName
  dsimp only
  repeat' split
  all_goals simp

theorem nameStep_flag_info (env : Env) (s : ModState) :
    ((nameStep env s).1).flag_info = s.flag_info := by
  unfold nameStep doStep_validFileName
  dsimp only
  repeat' split
  all_goals simp

theorem nameStep_md5Sum (env : Env) (s : ModState) :
    ((nameStep env s).1).md5Sum = s.md5Sum := by
  unfold nameStep doStep_validFileName
  dsimp only
  repeat' split
  all_goals simp

theorem nameStep_modDescParsed (env : Env) (s : ModState) :
    ((nameStep env s).1).modDescParsed = s.modDescParsed := by
  unfold nameStep doStep_validFileName
  dsimp only
  repeat' split
  all_goals simp

theorem nameStep_maxFilesType (env : Env) (s : ModState) :
    ((nameStep env s).1).maxFilesType = s.maxFilesType := by
  unfold nameStep doStep_validFileName
  dsimp only
  repeat' split
  all_goals simp

theorem nameStep_l10n (env : Env) (s : ModState) :
    ((nameStep env s).1).l10n = s.l10n := by
  unfold nameStep doStep_validFileName
  dsimp only
  repeat' split
  all_goals simp

theorem nameStep_modDesc (env : Env) (s : ModState) :
    ((nameStep env s).1).modDesc = s.modDesc := by
  unfold nameStep doStep_validFileName
  dsimp only
  repeat' split
  all_goals simp

theorem nameStep_isSaveGame (env : Env) (s : ModState) :
    ((nameStep env s).1).fileDetail.isSaveGame = s.fileDetail.isSaveGame := by
  unfold nameStep doStep_validFileName
  dsimp only
  repeat' split
  all_goals simp

theorem nameStep_tooBig (env : Env) (s : ModState) :
    ((nameStep env s).1).fileDetail.tooBigFiles = s.fileDetail.tooBigFiles := by
  unfold nameStep doStep_validFileName
  dsimp only
  repeat' split
  all_goals simp

/-- The two version flags are assigned by the descriptor extractor and are
untouched before it. -/
theorem nameStep_NOVERSION (env : Env) (s : ModState) :
    ((nameStep env s).1).flag_broken.MOD_ERROR_NO_MOD_VERSION
      = s.flag_broken.MOD_ERROR_NO_MOD_VERSION := by
  unfold nameStep doStep_validFileName
  dsimp only
  repeat' split
  all_goals simp [setBrokenFlag]

theorem nameStep_OLDVERSION (env : Env) (s : ModState) :
    ((nameStep env s).1).flag_broken.NOT_MOD_MODDESC_VERSION_OLD_OR_MISSING
      = s.flag_broken.NOT_MOD_MODDESC_VERSION_OLD_OR_MISSING := by
  unfold nameStep doStep_validFileName
  dsimp only
  repeat' split
  all_goals simp [setBrokenFlag]

/-- Projections of the open/save-game/descriptor gate. -/
theorem gateStep_flag_problem (env : Env) (v : Bool) (s : ModState) :
    (gateStep env v s).flag_problem = s.flag_problem := by
  unfold gateStep
  repeat' split
  all_goals simp

theorem gateStep_modDescParsed (env : Env) (v : Bool) (s : ModState) :
    (gateStep env v s).modDescParsed = s.modDescParsed := by
  unfold gateStep
  repeat' split
  all_goals simp

theorem gateStep_maxFilesType (env : Env) (v : Bool) (s : ModState) :
    (gateStep env v s).maxFilesType = s.maxFilesType := by
  unfold gateStep
  repeat' split
  all_goals simp

theorem gateStep_l10n (env : Env) (v : Bool) (s : ModState) :
    (gateStep env v s).l10n = s.l10n := by
  unfold gateStep
  repeat' split
  all_goals simp

theorem gateStep_uuid (env : Env) (v : Bool) (s : ModState) :
    (gateStep env v s).uuid = s.uuid := by
  unfold gateStep
  repeat' split
  all_goals simp

theorem gateStep_info_noMP (env : Env) (v : Bool) (s : ModState) :
    (gateStep env v s).flag_info.INFO_NO_MULTIPLAYER_UNZIPPED
      = s.flag_info.INFO_NO_MULTIPLAYER_UNZIPPED := by
  unfold gateStep
  repeat' split
  all_goals simp [setInfoFlag]

theorem gateStep_info_dyn (env : Env) (v : Bool) (s : ModState) :
    (gateStep env v s).flag_info.PERF_L10N_NOT_SET
      = s.flag_info.PERF_L10N_NOT_SET := by
  unfold gateStep
  repeat' split
  all_goals simp [setInfoFlag]

theorem gateStep_tooBig (env : Env) (v : Bool) (s : ModState) :
    (gateStep env v s).fileDetail.tooBigFiles = s.fileDetail.tooBigFiles := by
  unfold gateStep
  repeat' split
  all_goals simp

theorem gateStep_NOVERSION (env : Env) (v : Bool) (s : ModState) :
    (gateStep env v s).flag_broken.MOD_ERROR_NO_MOD_VERSION
      = s.flag_broken.MOD_ERROR_NO_MOD_VERSION := by
  unfold gateStep
  repeat' split
  all_goals simp [setBrokenFlag]

theorem gateStep_OLDVERSION (env : Env) (v : Bool) (s : ModState) :
    (gateStep env v s).flag_broken.NOT_MOD_MODDESC_VERSION_OLD_OR_MISSING
      = s.flag_broken.NOT_MOD_MODDESC_VERSION_OLD_OR_MISSING := by
  unfold gateStep
  repeat' split
  all_goals simp [setBrokenFlag]

/-- Whether the gate's save-game branch fires:
`couldOpen` succeeded and the marker file exists. -/
def savegameDetected (env : Env) : Bool :=
  env.couldOpen && env.hasEntry "careerSavegame.xml"

/-- The save-game state flag after the gate. -/
theorem gateStep_isSaveGame (env : Env) (v : Bool) (s : ModState) :
    (gateStep env v s).fileDetail.isSaveGame
      = (savegameDetected env || s.fileDetail.isSaveGame) := by
  unfold gateStep savegameDetected
  repeat' split
  all_goals simp_all

/-! ## Run-level characterizations -/

/-- No problem flag is raised before the file walk. -/
theorem afterGate_flag_problem (env : Env) :
    (run_afterGate env).flag_problem = {} := by
  unfold run_afterGate run_afterName run_constructed
  rw [gateStep_flag_problem, nameStep_flag_problem]
  rfl

/-- The save-game state flag after the gate. -/
theorem afterGate_isSaveGame (env : Env) :
    (run_afterGate env).fileDetail.isSaveGame = savegameDetected env := by
  unfold run_afterGate run_afterName run_constructed
  rw [gateStep_isSaveGame, nameStep_isSaveGame]
  simp [constructorStep, mkInitialState]

/-- The save-game state flag is stable after the gate. -/
theorem afterCounts_isSaveGame (env : Env) :
    (run_afterCounts env).fileDetail.isSaveGame = savegameDetected env := by
  unfold run_afterCounts
  by_cases hp : proceeds env <;> simp [hp, fileCounts_isSaveGame, afterGate_isSaveGame]

theorem afterDesc_isSaveGame (env : Env) :
    (run_afterDesc env).fileDetail.isSaveGame = savegameDetected env := by
  unfold run_afterDesc
  by_cases hp : proceeds env <;> simp [hp, parse_fileDetail, afterCounts_isSaveGame]

theorem afterMap_isSaveGame (env : Env) :
    (run_afterMap env).fileDetail.isSaveGame = savegameDetected env := by
  unfold run_afterMap
  by_cases hp : proceeds env <;> simp [hp, mapCrop_fileDetail, afterDesc_isSaveGame]

theorem afterIcon_isSaveGame (env : Env) :
    (run_afterIcon env).fileDetail.isSaveGame = savegameDetected env := by
  unfold run_afterIcon
  by_cases hp : proceeds env <;> simp [hp, icon_fileDetail, afterMap_isSaveGame]

theorem final_isSaveGame (env : Env) :
    (run_final env).fileDetail.isSaveGame = savegameDetected env := by
  unfold run_final
  rw [l10n_fileDetail]
  exact afterIcon_isSaveGame env

/-- The unzipped-no-multiplayer flag keeps its constructor value. -/
theorem afterGate_info_noMP (env : Env) :
    (run_afterGate env).flag_info.INFO_NO_MULTIPLAYER_UNZIPPED = env.isFolder := by
  unfold run_afterGate run_afterName run_constructed
  rw [gateStep_info_noMP, nameStep_flag_info]
  rfl

theorem afterCounts_info_noMP (env : Env) :
    (run_afterCounts env).flag_info.INFO_NO_MULTIPLAYER_UNZIPPED = env.isFolder := by
  unfold run_afterCounts
  by_cases hp : proceeds env <;> simp [hp, fileCounts_info_noMP, afterGate_info_noMP]

theorem afterDesc_info_noMP (env : Env) :
    (run_afterDesc env).flag_info.INFO_NO_MULTIPLAYER_UNZIPPED = env.isFolder := by
  unfold run_afterDesc
  by_cases hp : proceeds env <;> simp [hp, parse_flag_info, afterCounts_info_noMP]

theorem afterMap_info_noMP (env : Env) :
    (run_afterMap env).flag_info.INFO_NO_MULTIPLAYER_UNZIPPED = env.isFolder := by
  unfold run_afterMap
  by_cases hp : proceeds env <;> simp [hp, mapCrop_flag_info, afterDesc_info_noMP]

theorem afterIcon_info_noMP (env : Env) :
    (run_afterIcon env).flag_info.INFO_NO_MULTIPLAYER_UNZIPPED = env.isFolder := by
  unfold run_afterIcon
  by_cases hp : proceeds env <;> simp [hp, icon_flag_info, afterMap_info_noMP]

theorem final_info_noMP (env : Env) :
    (run_final env).flag_info.INFO_NO_MULTIPLAYER_UNZIPPED = env.isFolder := by
  unfold run_final
  rw [l10n_info_noMP]
  exact afterIcon_info_noMP env

/-- The dynamic info key is absent until the localization resolver runs. -/
theorem afterGate_info_dyn (env : Env) :
    (run_afterGate env).flag_info.PERF_L10N_NOT_SET = none := by
  unfold run_afterGate run_afterName run_constructed
  rw [gateStep_info_dyn, nameStep_flag_info]
  rfl

theorem afterCounts_info_dyn (env : Env) :
    (run_afterCounts env).flag_info.PERF_L10N_NOT_SET = none := by
  unfold run_afterCounts
  by_cases hp : proceeds env <;> simp [hp, fileCounts_info_dyn, afterGate_info_dyn]

theorem afterDesc_info_dyn (env : Env) :
    (run_afterDesc env).flag_info.PERF_L10N_NOT_SET = none := by
  unfold run_afterDesc
  by_cases hp : proceeds env <;> simp [hp, parse_flag_info, afterCounts_info_dyn]

theorem afterMap_info_dyn (env : Env) :
    (run_afterMap env).flag_info.PERF_L10N_NOT_SET = none := by
  unfold run_afterMap
  by_cases hp : proceeds env <;> simp [hp, mapCrop_flag_info, afterDesc_info_dyn]

theorem afterIcon_info_dyn (env : Env) :
    (run_afterIcon env).flag_info.PERF_L10N_NOT_SET = none := by
  unfold run_afterIcon
  by_cases hp : proceeds env <;> simp [hp, icon_flag_info, afterMap_info_dyn]

/-- The two flags no code path raises stay false through the run. -/
theorem afterGate_DAMAGED (env : Env) :
    (run_afterGate env).flag_problem.MOD_ERROR_MODDESC_DAMAGED_RECOVERABLE = false := by
  rw [afterGate_flag_problem]

theorem afterGate_PREFPNG (env : Env) :
    (run_afterGate env).flag_problem.PREF_PNG_TEXTURE = false := by
  rw [afterGate_flag_problem]

theorem afterCounts_DAMAGED (env : Env) :
    (run_afterCounts env).flag_problem.MOD_ERROR_MODDESC_DAMAGED_RECOVERABLE = false := by
  unfold run_afterCounts
  by_cases hp : proceeds env <;> simp [hp, fileCounts_DAMAGED, afterGate_DAMAGED]

theorem afterDesc_DAMAGED (env : Env) :
    (run_afterDesc env).flag_problem.MOD_ERROR_MODDESC_DAMAGED_RECOVERABLE = false := by
  unfold run_afterDesc
  by_cases hp : proceeds env <;> simp [hp, parse_DAMAGED, afterCounts_DAMAGED]

theorem afterMap_DAMAGED (env : Env) :
    (run_afterMap env).flag_problem.MOD_ERROR_MODDESC_DAMAGED_RECOVERABLE = false := by
  unfold run_afterMap
  by_cases hp : proceeds env <;> simp [hp, mapCrop_flag_problem, afterDesc_DAMAGED]

theorem afterIcon_DAMAGED (env : Env) :
    (run_afterIcon env).flag_problem.MOD_ERROR_MODDESC_DAMAGED_RECOVERABLE = false := by
  unfold run_afterIcon
  by_cases hp : proceeds env <;> simp [hp, icon_DAMAGED, afterMap_DAMAGED]

theorem final_DAMAGED (env : Env) :
    (run_final env).flag_problem.MOD_ERROR_MODDESC_DAMAGED_RECOVERABLE = false := by
  unfold run_final
  rw [l10n_flag_problem]
  exact afterIcon_DAMAGED env

theorem afterCounts_PREFPNG (env : Env) :
    (run_afterCounts env).flag_problem.PREF_PNG_TEXTURE = false := by
  unfold run_afterCounts
  by_cases hp : proceeds env <;> simp [hp, fileCounts_PREFPNG, afterGate_PREFPNG]

theorem afterDesc_PREFPNG (env : Env) :
    (run_afterDesc env).flag_problem.PREF_PNG_TEXTURE = false := by
  unfold run_afterDesc
  by_cases hp : proceeds env <;> simp [hp, parse_PREFPNG, afterCounts_PREFPNG]

theorem afterMap_PREFPNG (env : Env) :
    (run_afterMap env).flag_problem.PREF_PNG_TEXTURE = false := by
  unfold run_afterMap
  by_cases hp : proceeds env <;> simp [hp, mapCrop_flag_problem, afterDesc_PREFPNG]

theorem afterIcon_PREFPNG (env : Env) :
    (run_afterIcon env).flag_problem.PREF_PNG_TEXTURE = false := by
  unfold run_afterIcon
  by_cases hp : proceeds env <;> simp [hp, icon_PREFPNG, afterMap_PREFPNG]

theorem final_PREFPNG (env : Env) :
    (run_final env).flag_problem.PREF_PNG_TEXTURE = false := by
  unfold run_final
  rw [l10n_flag_problem]
  exact afterIcon_PREFPNG env

/-- The oversized-files list before the walk is empty, and after the walk
it is exactly the oversized entries. -/
theorem afterGate_tooBig (env : Env) :
    (run_afterGate env).fileDetail.tooBigFiles = [] := by
  unfold run_afterGate run_afterName run_constructed
  rw [gateStep_tooBig, nameStep_tooBig]
  rfl

theorem afterCounts_tooBig (env : Env) :
    (run_afterCounts env).fileDetail.tooBigFiles = (if proceeds env then
        (env.entries.filter entryOversized).map (fun e => e.name) else []) := by
  unfold run_afterCounts
  by_cases hp : proceeds env <;> simp [hp, fileCounts_tooBig, afterGate_tooBig]

theorem afterDesc_tooBig (env : Env) :
    (run_afterDesc env).fileDetail.tooBigFiles = (if proceeds env then
        (env.entries.filter entryOversized).map (fun e => e.name) else []) := by
  unfold run_afterDesc
  by_cases hp : proceeds env <;> simp [hp, parse_fileDetail, afterCounts_tooBig]

theorem afterMap_tooBig (env : Env) :
    (run_afterMap env).fileDetail.tooBigFiles = (if proceeds env then
        (env.entries.filter entryOversized).map (fun e => e.name) else []) := by
  unfold run_afterMap
  by_cases hp : proceeds env <;> simp [hp, mapCrop_fileDetail, afterDesc_tooBig]

theorem afterIcon_tooBig (env : Env) :
    (run_afterIcon env).fileDetail.tooBigFiles = (if proceeds env then
        (env.entries.filter entryOversized).map (fun e => e.name) else []) := by
  unfold run_afterIcon
  by_cases hp : proceeds env <;> simp [hp, icon_fileDetail, afterMap_tooBig]

theorem final_tooBig (env : Env) :
    (run_final env).fileDetail.tooBigFiles = (if proceeds env then
        (env.entries.filter entryOversized).map (fun e => e.name) else []) := by
  unfold run_final
  rw [l10n_fileDetail]
  exact afterIcon_tooBig env

/-- The I3D-labelled oversize flag across the run. -/
theorem afterGate_I3D (env : Env) :
    (run_afterGate env).flag_problem.PERF_I3D_TOO_BIG = false := by
  rw [afterGate_flag_problem]

theorem afterCounts_I3D (env : Env) :
    (run_afterCounts env).flag_problem.PERF_I3D_TOO_BIG = (if proceeds env then env.entries.any entryCacheOversized else false) := by
  unfold run_afterCounts
  by_cases hp : proceeds env <;> simp [hp, fileCounts_I3D, afterGate_I3D]

theorem afterDesc_I3D (env : Env) :
    (run_afterDesc env).flag_problem.PERF_I3D_TOO_BIG = (if proceeds env then env.entries.any entryCacheOversized else false) := by
  unfold run_afterDesc
  by_cases hp : proceeds env <;> simp [hp, parse_I3D, afterCounts_I3D]

theorem afterMap_I3D (env : Env) :
    (run_afterMap env).flag_problem.PERF_I3D_TOO_BIG = (if proceeds env then env.entries.any entryCacheOversized else false) := by
  unfold run_afterMap
  by_cases hp : proceeds env <;> simp [hp, mapCrop_flag_problem, afterDesc_I3D]

theorem afterIcon_I3D (env : Env) :
    (run_afterIcon env).flag_problem.PERF_I3D_TOO_BIG = (if proceeds env then env.entries.any entryCacheOversized else false) := by
  unfold run_afterIcon
  by_cases hp : proceeds env <;> simp [hp, icon_I3D, afterMap_I3D]

theorem final_I3D (env : Env) :
    (run_final env).flag_problem.PERF_I3D_TOO_BIG = (if proceeds env then env.entries.any entryCacheOversized else false) := by
  unfold run_final
  rw [l10n_flag_problem]
  exact afterIcon_I3D env

/-! ## Issue-list membership -/

/-- Unfolding membership in the flattened issue list. -/
theorem issues_mem_iff (s : ModState) (nm : String) :
    nm ∈ storableIssues s
      ↔ (nm, true) ∈ (brokenEntries s.flag_broken
          ++ problemEntries s.flag_problem s.flag_info.PERF_L10N_NOT_SET
          ++ infoEntries s.flag_info) := by
  unfold storableIssues
  constructor
  · intro h
    rcases List.mem_map.mp h with ⟨p, hp, he⟩
    rcases List.mem_filter.mp hp with ⟨hm, hv⟩
    have hpe : p = (nm, true) := by
      rcases p with ⟨a, b⟩
      simp at he hv
      simp [he, hv]
    rw [← hpe]
    exact hm
  · intro h
    refine List.mem_map.mpr ⟨(nm, true), List.mem_filter.mpr ⟨h, rfl⟩, rfl⟩

theorem issues_contains_DAMAGED (s : ModState) :
    ("MOD_ERROR_MODDESC_DAMAGED_RECOVERABLE" ∈ storableIssues s)
      ↔ s.flag_problem.MOD_ERROR_MODDESC_DAMAGED_RECOVERABLE = true := by
  rw [issues_mem_iff]
  simp [brokenEntries, problemEntries, infoEntries]

theorem issues_contains_PREFPNG (s : ModState) :
    ("PREF_PNG_TEXTURE" ∈ storableIssues s)
      ↔ s.flag_problem.PREF_PNG_TEXTURE = true := by
  rw [issues_mem_iff]
  simp [brokenEntries, problemEntries, infoEntries]

theorem issues_contains_NOTMOD (s : ModState) :
    ("NOT_MOD_MODDESC_MISSING" ∈ storableIssues s)
      ↔ s.flag_broken.NOT_MOD_MODDESC_MISSING = true := by
  rw [issues_mem_iff]
  simp [brokenEntries, problemEntries, infoEntries]

theorem issues_contains_NOMP (s : ModState) :
    ("INFO_NO_MULTIPLAYER_UNZIPPED" ∈ storableIssues s)
      ↔ s.flag_info.INFO_NO_MULTIPLAYER_UNZIPPED = true := by
  rw [issues_mem_iff]
  simp [brokenEntries, problemEntries, infoEntries]

/-- Bridge between the boolean `contains` of the record and membership. -/
theorem contains_false_of_not_mem {l : List String} {a : String}
    (h : a ∉ l) : l.contains a = false := by
  rw [Bool.eq_false_iff]
  intro hc
  exact h (List.elem_iff.mp hc)

theorem contains_true_of_mem {l : List String} {a : String}
    (h : a ∈ l) : l.contains a = true :=
  List.elem_iff.mpr h

/-- The record's issue list is the flattened flag list of the final state. -/
theorem getInfo_issues (env : Env) :
    (getInfo env).issues = storableIssues (run_final env) := rfl

/-- No problem flag is set when the instance is constructed or validated. -/
theorem constructed_flag_problem (env : Env) :
    (run_constructed env).flag_problem = {} := rfl

theorem afterName_flag_problem (env : Env) :
    (run_afterName env).flag_problem = {} := by
  unfold run_afterName
  rw [nameStep_flag_problem]
  rfl

/-! ## Claims -/

/-- Claim C9: the declared problem flags `MOD_ERROR_MODDESC_DAMAGED_RECOVERABLE`
and `PREF_PNG_TEXTURE` stay false at every point of every run and never
appear in the report's issue list: no code path raises either of them. -/
theorem C9_unraised_flags (env : Env) :
    ((runTrace env).all (fun st =>
        !st.flag_problem.MOD_ERROR_MODDESC_DAMAGED_RECOVERABLE
          && !st.flag_problem.PREF_PNG_TEXTURE)) = true
    ∧ (getInfo env).issues.contains "MOD_ERROR_MODDESC_DAMAGED_RECOVERABLE" = false
    ∧ (getInfo env).issues.contains "PREF_PNG_TEXTURE" = false := by
  refine ⟨?_, ?_, ?_⟩
  · simp only [runTrace, List.all_cons, List.all_nil, Bool.and_eq_true,
      Bool.not_eq_true']
    rw [constructed_flag_problem, afterName_flag_problem, afterGate_flag_problem,
      afterCounts_DAMAGED, afterCounts_PREFPNG, afterDesc_DAMAGED,
      afterDesc_PREFPNG, afterMap_DAMAGED, afterMap_PREFPNG, afterIcon_DAMAGED,
      afterIcon_PREFPNG, final_DAMAGED, final_PREFPNG]
    simp [mkInitialState]
  · rw [getInfo_issues]
    exact contains_false_of_not_mem
      (fun h => by simpa [final_DAMAGED] using (issues_contains_DAMAGED _).mp h)
  · rw [getInfo_issues]
    exact contains_false_of_not_mem
      (fun h => by simpa [final_PREFPNG] using (issues_contains_PREFPNG _).mp h)

/-- Claim C10: for a folder artifact the constructor sets
`INFO_NO_MULTIPLAYER_UNZIPPED` and the flag appears in the issue list
regardless of the declared multiplayer support (the environment `env`
carries an arbitrary descriptor); for a non-folder artifact it never
appears. -/
theorem C10_folder_flag (env : Env) :
    (run_constructed env).flag_info.INFO_NO_MULTIPLAYER_UNZIPPED = env.isFolder
    ∧ (getInfo env).issues.contains "INFO_NO_MULTIPLAYER_UNZIPPED" = env.isFolder := by
  refine ⟨rfl, ?_⟩
  rw [getInfo_issues]
  cases hf : env.isFolder
  · exact contains_false_of_not_mem
      (fun h => by simpa [final_info_noMP, hf] using (issues_contains_NOMP _).mp h)
  · exact contains_true_of_mem
      ((issues_contains_NOMP _).mpr (by rw [final_info_noMP, hf]))

/-- Claim C1 (amended): the record's `canNotUse` is computed by the
`#doStep_canUse` getter: it is `false` (artifact usable) exactly when the
artifact is not a save-game and every broken flag is false; a detected
save-game is always reported NOT usable (`canNotUse = true`), the opposite
of the claim's save-game clause. -/
theorem C1_canUse_amended (env : Env) :
    ((getInfo env).canNotUse = false
      ↔ (savegameDetected env = false
          ∧ (run_final env).flag_broken.any = false))
    ∧ (savegameDetected env = true → (getInfo env).canNotUse = true) := by
  have hc : (getInfo env).canNotUse
      = (if savegameDetected env then true else (run_final env).flag_broken.any) := by
    show doStep_canUse (run_final env)
      = (if savegameDetected env then true else (run_final env).flag_broken.any)
    unfold doStep_canUse
    rw [final_isSaveGame]
  rw [hc]
  cases savegameDetected env <;> simp

/-- Witness for the save-game clause of the amended claim C1 at a concrete
save-game environment. -/
theorem C1_canUse_amended_witness :
    savegameDetected savegameEnv = true
    ∧ (getInfo savegameEnv).canNotUse = true :=
  ⟨by decide, (C1_canUse_amended savegameEnv).2 (by decide)⟩

/-- Counterexample to claim C1 as stated: a detected save-game with every
broken flag false is reported with `canNotUse = true`, not `false`. -/
theorem C1_counterexample :
    (run_final savegameEnv).fileDetail.isSaveGame = true
    ∧ (run_final savegameEnv).flag_broken = {}
    ∧ (getInfo savegameEnv).canNotUse = true := by
  refine ⟨?_, ?_, ?_⟩ <;> decide

/-- Claim C5 counterexample: a digit-leading (invalid) file name whose
archive opens and has no `modDesc.xml` entry: the pipeline throws at the
invalid-name gate before the descriptor check, so the missing-descriptor
flag is never raised and the pre-computed checksum survives. -/
theorem C5_counterexample :
    digitNameEnv.couldOpen = true
    ∧ digitNameEnv.hasEntry "modDesc.xml" = false
    ∧ digitNameEnv.hasEntry "careerSavegame.xml" = false
    ∧ (run_final digitNameEnv).fileDetail.isSaveGame = false
    ∧ (getInfo digitNameEnv).issues.contains "NOT_MOD_MODDESC_MISSING" = false
    ∧ (getInfo digitNameEnv).md5Sum = some "abc123"
    ∧ (getInfo digitNameEnv).canNotUse = true := by
  refine ⟨?_, ?_, ?_, ?_, ?_, ?_, ?_⟩ <;> decide

/-- Claim C5 (amended): for an artifact whose file name passes validation,
whose archive opens, which is not a save-game and which has no
`modDesc.xml` entry, the report carries the missing-descriptor issue,
`canNotUse = true` and a null checksum. -/
theorem C5_missing_descriptor_amended (env : Env)
    (hv : (nameStep env (run_constructed env)).2 = true)
    (ho : env.couldOpen = true)
    (hs : env.hasEntry "careerSavegame.xml" = false)
    (hm : env.hasEntry "modDesc.xml" = false) :
    "NOT_MOD_MODDESC_MISSING" ∈ (getInfo env).issues
    ∧ (getInfo env).canNotUse = true
    ∧ (getInfo env).md5Sum = none := by
  have hp : proceeds env = false := by
    unfold proceeds
    rw [hm]
    simp
  have hg : run_afterGate env
      = { util_raiseFlag_broken "NOT_MOD_MODDESC_MISSING" (run_afterName env) with
          md5Sum := none } := by
    unfold run_afterGate gateStep
    rw [hv, ho, hs, hm]
    simp
  have hfin : run_final env = doStep_l10n env (run_afterGate env) := by
    unfold run_final run_afterIcon run_afterMap run_afterDesc run_afterCounts
    rw [hp]
    simp
  have hflag : (run_final env).flag_broken.NOT_MOD_MODDESC_MISSING = true := by
    rw [hfin, l10n_flag_broken, hg]
    simp [setBrokenFlag]
  have hsg : savegameDetected env = false := by
    unfold savegameDetected
    rw [hs]
    simp
  refine ⟨?_, ?_, ?_⟩
  · rw [getInfo_issues]
    exact (issues_contains_NOTMOD _).mpr hflag
  · show doStep_canUse (run_final env) = true
    unfold doStep_canUse
    rw [final_isSaveGame, hsg]
    simp [FlagBroken.any, brokenEntries, hflag]
  · show (run_final env).md5Sum = none
    rw [hfin, l10n_md5Sum, hg]

/-- Witness for the amended claim C5 at a concrete valid-name archive with
no descriptor entry. -/
theorem C5_missing_descriptor_amended_witness :
    (nameStep noDescEnv (run_constructed noDescEnv)).2 = true
    ∧ ("NOT_MOD_MODDESC_MISSING" ∈ (getInfo noDescEnv).issues
        ∧ (getInfo noDescEnv).canNotUse = true
        ∧ (getInfo noDescEnv).md5Sum = none) :=
  ⟨by decide, C5_missing_descriptor_amended noDescEnv (by decide) (by decide)
      (by decide) (by decide)⟩

/-- The five concrete size-check call sites of the switch raise exactly
their own flag when the size strictly exceeds the policy entry. -/
theorem sizeCheckHit_DDS (size : Nat) (n : String) (s : ModState) :
    (util_size_check size "dds" n "DDS" s).flag_problem.PERF_DDS_TOO_BIG
      = (s.flag_problem.PERF_DDS_TOO_BIG || decide (size > 12582912)) := by
  unfold util_size_check
  simp only [fileSizeMap]
  split_ifs with h <;> simp [perfName_DDS, setProblemFlag, h]

theorem sizeCheckHit_I3D (size : Nat) (n : String) (s : ModState) :
    (util_size_check size "cache" n "I3D" s).flag_problem.PERF_I3D_TOO_BIG
      = (s.flag_problem.PERF_I3D_TOO_BIG || decide (size > 10485760)) := by
  unfold util_size_check
  simp only [fileSizeMap]
  split_ifs with h <;> simp [perfName_I3D, setProblemFlag, h]

theorem sizeCheckHit_GDM (size : Nat) (n : String) (s : ModState) :
    (util_size_check size "gdm" n "GDM" s).flag_problem.PERF_GDM_TOO_BIG
      = (s.flag_problem.PERF_GDM_TOO_BIG || decide (size > 18874368)) := by
  unfold util_size_check
  simp only [fileSizeMap]
  split_ifs with h <;> simp [perfName_GDM, setProblemFlag, h]

theorem sizeCheckHit_XML (size : Nat) (n : String) (s : ModState) :
    (util_size_check size "xml" n "XML" s).flag_problem.PERF_XML_TOO_BIG
      = (s.flag_problem.PERF_XML_TOO_BIG || decide (size > 262144)) := by
  unfold util_size_check
  simp only [fileSizeMap]
  split_ifs with h <;> simp [perfName_XML, setProblemFlag, h]

theorem sizeCheckHit_SHAPES (size : Nat) (n : String) (s : ModState) :
    (util_size_check size "shapes" n "SHAPES" s).flag_problem.PERF_SHAPES_TOO_BIG
      = (s.flag_problem.PERF_SHAPES_TOO_BIG || decide (size > 268435456)) := by
  unfold util_size_check
  simp only [fileSizeMap]
  split_ifs with h <;> simp [perfName_SHAPES, setProblemFlag, h]

/-- Claim C7: after a full walk, `tooBigFiles` holds exactly the names of
non-directory entries whose extension's policy threshold is strictly
exceeded; the `cache` extension's oversize raises the I3D-labelled flag
`PERF_I3D_TOO_BIG`; and each size-check call site of the switch raises its
flag exactly when the size strictly exceeds the claimed threshold
(cache 10485760, dds 12582912, gdm 18874368, shapes 268435456, xml 262144). -/
theorem C7_size_policy (env : Env) (hp : proceeds env = true) :
    ((run_final env).fileDetail.tooBigFiles
      = (env.entries.filter entryOversized).map (fun e => e.name))
    ∧ ((run_final env).flag_problem.PERF_I3D_TOO_BIG
      = env.entries.any entryCacheOversized)
    ∧ fileSizeMap "cache" = some 10485760
    ∧ fileSizeMap "dds" = some 12582912
    ∧ fileSizeMap "gdm" = some 18874368
    ∧ fileSizeMap "shapes" = some 268435456
    ∧ fileSizeMap "xml" = some 262144
    ∧ (∀ (size : Nat) (n : String) (s : ModState),
        (util_size_check size "dds" n "DDS" s).flag_problem.PERF_DDS_TOO_BIG
          = (s.flag_problem.PERF_DDS_TOO_BIG || decide (size > 12582912)))
    ∧ (∀ (size : Nat) (n : String) (s : ModState),
        (util_size_check size "cache" n "I3D" s).flag_problem.PERF_I3D_TOO_BIG
          = (s.flag_problem.PERF_I3D_TOO_BIG || decide (size > 10485760)))
    ∧ (∀ (size : Nat) (n : String) (s : ModState),
        (util_size_check size "gdm" n "GDM" s).flag_problem.PERF_GDM_TOO_BIG
          = (s.flag_problem.PERF_GDM_TOO_BIG || decide (size > 18874368)))
    ∧ (∀ (size : Nat) (n : String) (s : ModState),
        (util_size_check size "xml" n "XML" s).flag_problem.PERF_XML_TOO_BIG
          = (s.flag_problem.PERF_XML_TOO_BIG || decide (size > 262144)))
    ∧ (∀ (size : Nat) (n : String) (s : ModState),
        (util_size_check size "shapes" n "SHAPES" s).flag_problem.PERF_SHAPES_TOO_BIG
          = (s.flag_problem.PERF_SHAPES_TOO_BIG || decide (size > 268435456))) := by
  refine ⟨?_, ?_, rfl, rfl, rfl, rfl, rfl, sizeCheckHit_DDS, sizeCheckHit_I3D,
    sizeCheckHit_GDM, sizeCheckHit_XML, sizeCheckHit_SHAPES⟩
  · rw [final_tooBig, hp]
    simp
  · rw [final_I3D, hp]
    simp

/-- Witness for claim C7: a concrete archive carrying a DDS file one byte
over the threshold. -/
theorem C7_size_policy_witness :
    proceeds bigDdsEnv = true
    ∧ (run_final bigDdsEnv).fileDetail.tooBigFiles = ["big.dds"] := by
  refine ⟨by decide, ?_⟩
  rw [(C7_size_policy bigDdsEnv (by decide)).1]
  decide

theorem parseActions_iconFileName (t : ModDescTree) (st0 : ModState) :
    (doStep_parseActions t st0).modDesc.iconFileName
      = st0.modDesc.iconFileName := by
  unfold doStep_parseActions
  dsimp only
  have hb : ∀ (l : List DeclActionBinding) (st : ModState),
      (l.foldl parseActions_bindingStep st).modDesc.iconFileName
        = st.modDesc.iconFileName := by
    intro l st
    refine foldl_preserve parseActions_bindingStep
      (fun st => st.modDesc.iconFileName) ?_ l st
    intro st ab
    unfold parseActions_bindingStep
    cases hab : ab.binds with
    | none => rfl
    | some bs =>
      refine foldl_preserve (parseActions_bindStep ab)
        (fun st => st.modDesc.iconFileName) ?_ bs st
      intro st b
      unfold parseActions_bindStep
      split_ifs <;> rfl
  have hA : ∀ (l : List DeclAction) (st : ModState),
      (l.foldl parseActions_actionStep st).modDesc.iconFileName
        = st.modDesc.iconFileName := by
    intro l st
    exact foldl_preserve parseActions_actionStep
      (fun st => st.modDesc.iconFileName) (fun st a => rfl) l st
  cases t.actionsDecl <;> cases t.bindingsDecl <;> simp [hA, hb]

/-- Claim C8: when the declared icon filename does not end in `.dds`, its
last four characters are replaced by `.dds`; if the resulting name occurs
in the collected DDS-image list it is accepted as the icon filename and the
no-mod-icon flag is left untouched by the descriptor step, otherwise the
flag is raised and the icon filename is left as it was. -/
theorem C8_icon_resolution (env : Env) (t : ModDescTree) (n : String)
    (s : ModState) (hx : env.modDescXML = .ok t)
    (hd : iconDeclString t.iconDecl = n)
    (hn : strEndsWith n ".dds" = false) :
    ((iconResolve s.fileDetail.imageDDS t.iconDecl).1
        = if s.fileDetail.imageDDS.contains (n.dropRight 4 ++ ".dds")
          then some (n.dropRight 4 ++ ".dds") else none)
    ∧ (s.fileDetail.imageDDS.contains (n.dropRight 4 ++ ".dds") = true →
        (doStep_parseModDesc env s).modDesc.iconFileName
            = some (n.dropRight 4 ++ ".dds")
        ∧ (doStep_parseModDesc env s).flag_problem.MOD_ERROR_NO_MOD_ICON
            = s.flag_problem.MOD_ERROR_NO_MOD_ICON)
    ∧ (s.fileDetail.imageDDS.contains (n.dropRight 4 ++ ".dds") = false →
        (doStep_parseModDesc env s).modDesc.iconFileName
            = s.modDesc.iconFileName
        ∧ (doStep_parseModDesc env s).flag_problem.MOD_ERROR_NO_MOD_ICON
            = true) := by
  have hres : iconResolve s.fileDetail.imageDDS t.iconDecl
      = if s.fileDetail.imageDDS.contains (n.dropRight 4 ++ ".dds")
        then (some (n.dropRight 4 ++ ".dds"), false) else (none, true) := by
    unfold iconResolve
    rw [hd]
    simp only [hn, Bool.not_false, if_true]
  refine ⟨?_, ?_, ?_⟩
  · rw [hres]
    by_cases hc : s.fileDetail.imageDDS.contains (n.dropRight 4 ++ ".dds")
      = true <;> simp_all
  · intro hc
    have hres1 : (iconResolve s.fileDetail.imageDDS t.iconDecl).1
        = some (n.dropRight 4 ++ ".dds") := by
      rw [hres, hc]
      simp
    unfold doStep_parseModDesc
    rw [hx]
    dsimp only
    rw [parseActions_iconFileName, parseActions_flag_problem, hres1]
    simp
  · intro hc
    have hres1 : (iconResolve s.fileDetail.imageDDS t.iconDecl).1 = none := by
      rw [hres, hc]
      simp
    unfold doStep_parseModDesc
    rw [hx]
    dsimp only
    rw [parseActions_iconFileName, parseActions_flag_problem, hres1]
    simp [util_raiseFlag_problem, setProblemFlag]

/-- The descriptor tree of the healthy environment, declaring a PNG icon
name. -/
def pngIconTree : ModDescTree :=
  { simpleTree with iconDecl := .scalar "icon.png" }

/-- The healthy zip-mod environment with the PNG-declaring descriptor. -/
def pngIconEnv : Env :=
  { baseEnv with modDescXML := .ok pngIconTree }

/-- Witness for claim C8, reproducing the specified example: the declared
`icon.png` resolves to `icon.dds`, which the walk collected, so it is
accepted and the no-mod-icon flag stays down. -/
theorem C8_icon_resolution_witness :
    (pngIconEnv.modDescXML = XMLRead.ok pngIconTree
      ∧ iconDeclString pngIconTree.iconDecl = "icon.png"
      ∧ strEndsWith "icon.png" ".dds" = false)
    ∧ ((run_afterCounts pngIconEnv).fileDetail.imageDDS.contains
          ("icon.png".dropRight 4 ++ ".dds") = true →
        (doStep_parseModDesc pngIconEnv
            (run_afterCounts pngIconEnv)).modDesc.iconFileName
          = some ("icon.png".dropRight 4 ++ ".dds")
        ∧ (doStep_parseModDesc pngIconEnv
            (run_afterCounts pngIconEnv)).flag_problem.MOD_ERROR_NO_MOD_ICON
          = (run_afterCounts pngIconEnv).flag_problem.MOD_ERROR_NO_MOD_ICON)
    ∧ (run_afterCounts pngIconEnv).fileDetail.imageDDS.contains
        ("icon.png".dropRight 4 ++ ".dds") = true
    ∧ "icon.png".dropRight 4 ++ ".dds" = "icon.dds"
    ∧ (run_afterCounts pngIconEnv).flag_problem.MOD_ERROR_NO_MOD_ICON
        = false := by
  refine ⟨⟨rfl, rfl, by decide⟩, ?_, by decide, by decide, by decide⟩
  exact (C8_icon_resolution pngIconEnv pngIconTree "icon.png"
    (run_afterCounts pngIconEnv) rfl rfl (by decide)).2.1

theorem countUnknown_knownGood (suf fileName : String) (s : ModState)
    (h : knownGood.contains suf = true) :
    util_countUnknown suf fileName s = (s, false) := by
  unfold util_countUnknown
  simp [List.elem_iff.mp h]

/-- Claim C3 (code bug): the localization resolver computes the
title-fallback/empty-description condition but stores it on the *info* map
(a dynamically created `PERF_L10N_NOT_SET` key) and never touches the
declared problem flag of that name; so on a plain mod whose title resolves
to the fallback the problem badge is absent even though the condition
holds, while the flag name still surfaces in `issues` through the spread
merge. -/
theorem C3_l10n_wrong_map :
    (∀ (env : Env) (s : ModState),
        (doStep_l10n env s).flag_problem = s.flag_problem)
    ∧ (∀ (env : Env) (s : ModState),
        (doStep_l10n env s).flag_info.PERF_L10N_NOT_SET
          = some ((modDesc_localString s.modDescParsed env.locale
                (fun t => t.titleEntry) "--") = "--"
              || (modDesc_localString s.modDescParsed env.locale
                (fun t => t.descriptionEntry) "") = ""))
    ∧ (run_final baseEnv).fileDetail.isSaveGame = false
    ∧ (run_final baseEnv).flag_info.PERF_L10N_NOT_SET = some true
    ∧ (run_final baseEnv).flag_problem.PERF_L10N_NOT_SET = false
    ∧ (getInfo baseEnv).badgeArray.contains "problem" = false
    ∧ (getInfo baseEnv).issues.contains "PERF_L10N_NOT_SET" = true := by
  refine ⟨fun env s => rfl, fun env s => rfl, by decide, by decide, by decide,
    by decide, by decide⟩

/-- Claim C4 (code bug): the `grle`/`pdf`/`txt` arms of the classifier
switch compare the dot-stripped suffix against dot-carrying literals and
are dead, so classifying such a file is a no-op: the quota counters never
decrement and the matching too-many flags can never be raised by these
types.  Concretely an archive with three `txt` files ends the walk with
the `txt` quota still at its initial 2 and no `PERF_TXT_TOO_MANY`. -/
theorem C4_quota_dead_arms :
    (∀ (env : Env) (fileName : String) (size : Nat) (fullFileName : String)
        (s : ModState),
      util_countFile env ".grle" fileName size fullFileName s = s)
    ∧ (∀ (env : Env) (fileName : String) (size : Nat) (fullFileName : String)
        (s : ModState),
      util_countFile env ".pdf" fileName size fullFileName s = s)
    ∧ (∀ (env : Env) (fileName : String) (size : Nat) (fullFileName : String)
        (s : ModState),
      util_countFile env ".txt" fileName size fullFileName s = s)
    ∧ (run_final threeTxtEnv).maxFilesType.txt = 2
    ∧ (run_final threeTxtEnv).flag_problem.PERF_TXT_TOO_MANY = false
    ∧ (getInfo threeTxtEnv).issues.contains "PERF_TXT_TOO_MANY" = false := by
  refine ⟨?_, ?_, ?_, by decide, by decide, by decide⟩ <;>
    · intro env fileName size fullFileName s
      unfold util_countFile
      dsimp only
      rw [countUnknown_knownGood _ fileName s (by decide)]
      dsimp only
      simp +decide

/-- Counterexample for claim C6: a directory entry named `my dir` is
appended to the space-files list and raises `PERF_SPACE_IN_FILE`, because
the space check of the walk runs before the directory skip. -/
theorem C6_counterexample :
    (spaceDirEnv.entries.any (fun e => e.isFolder) = true)
    ∧ (run_final spaceDirEnv).fileDetail.spaceFiles = ["my dir"]
    ∧ (run_final spaceDirEnv).flag_problem.PERF_SPACE_IN_FILE = true
    ∧ (getInfo spaceDirEnv).issues.contains "PERF_SPACE_IN_FILE" = true := by
  refine ⟨by decide, by decide, by decide, by decide⟩

/-- Claim C6 as amended: a directory entry is exempt from classification,
but the space check still applies to it — the walk step on a folder is
exactly the space-handling update (space-files append plus
`PERF_SPACE_IN_FILE`) when its name holds a space, and the identity
otherwise. -/
theorem C6_directory_skip_amended (env : Env) (s : ModState) (e : Entry)
    (hf : e.isFolder = true) :
    walkEntry env s e
      = if strContainsChar e.name ' ' then
          util_raiseFlag_problem "PERF_SPACE_IN_FILE"
            { s with fileDetail :=
                { s.fileDetail with
                  spaceFiles := s.fileDetail.spaceFiles ++ [e.name] } }
        else s := by
  unfold walkEntry
  rw [hf]
  simp only [if_true]

/-- Witness for the amended claim C6 at a concrete spaced directory
entry. -/
theorem C6_directory_skip_amended_witness :
    (Entry.mk "my dir" true 0).isFolder = true
    ∧ walkEntry baseEnv mkInitialState (Entry.mk "my dir" true 0)
      = if strContainsChar (Entry.mk "my dir" true 0).name ' ' then
          util_raiseFlag_problem "PERF_SPACE_IN_FILE"
            { mkInitialState with fileDetail :=
                { mkInitialState.fileDetail with
                  spaceFiles := mkInitialState.fileDetail.spaceFiles
                    ++ [(Entry.mk "my dir" true 0).name] } }
        else mkInitialState :=
  ⟨by decide,
   C6_directory_skip_amended baseEnv mkInitialState (Entry.mk "my dir" true 0)
     (by decide)⟩

/-! ## Flag monotonicity order -/

/-- Boolean implication: the left flag being raised forces the right. -/
def leBool (a b : Bool) : Bool := !a || b

/-- Pointwise `leBool` on equal-length flag vectors. -/
def leBools : List Bool → List Bool → Bool
  | [], [] => true
  | a :: as, b :: bs => leBool a b && leBools as bs
  | _, _ => false

/-- The monotone flag vector of a state: every declared flag of the three
maps except `INFO_MIGHT_BE_PIRACY` (which `#doStep_parseModDesc` overwrites
unconditionally), with the dynamically created info key contributing its
raised-to-true component. -/
def monFlags (s : ModState) : List Bool :=
  [s.flag_broken.FILE_ERROR_GARBAGE_FILE,
   s.flag_broken.FILE_ERROR_LIKELY_COPY,
   s.flag_broken.FILE_ERROR_LIKELY_ZIP_PACK,
   s.flag_broken.FILE_ERROR_NAME_INVALID,
   s.flag_broken.FILE_ERROR_NAME_STARTS_DIGIT,
   s.flag_broken.FILE_ERROR_UNREADABLE_ZIP,
   s.flag_broken.FILE_ERROR_UNSUPPORTED_ARCHIVE,
   s.flag_broken.MOD_ERROR_NO_MOD_VERSION,
   s.flag_broken.NOT_MOD_MODDESC_MISSING,
   s.flag_broken.NOT_MOD_MODDESC_PARSE_ERROR,
   s.flag_broken.NOT_MOD_MODDESC_VERSION_OLD_OR_MISSING,
   s.flag_problem.MOD_ERROR_MODDESC_DAMAGED_RECOVERABLE,
   s.flag_problem.MOD_ERROR_NO_MOD_ICON,
   s.flag_problem.PERF_DDS_TOO_BIG,
   s.flag_problem.PERF_GDM_TOO_BIG,
   s.flag_problem.PERF_GRLE_TOO_MANY,
   s.flag_problem.PERF_HAS_EXTRA,
   s.flag_problem.PERF_I3D_TOO_BIG,
   s.flag_problem.PERF_L10N_NOT_SET,
   s.flag_problem.PERF_PDF_TOO_MANY,
   s.flag_problem.PERF_PNG_TOO_MANY,
   s.flag_problem.PERF_SHAPES_TOO_BIG,
   s.flag_problem.PERF_SPACE_IN_FILE,
   s.flag_problem.PERF_TXT_TOO_MANY,
   s.flag_problem.PERF_XML_TOO_BIG,
   s.flag_problem.PREF_PNG_TEXTURE,
   s.flag_info.INFO_NO_MULTIPLAYER_UNZIPPED,
   s.flag_info.FILE_IS_A_SAVEGAME,
   s.flag_info.MALICIOUS_CODE,
   s.flag_info.PERF_L10N_NOT_SET == some true]

/-- The monotone-flag order between two states of one run. -/
def flagLe (s t : ModState) : Bool := leBools (monFlags s) (monFlags t)

/-- The declared key names of the broken map. -/
def brokenKeys : List String := (brokenEntries {}).map (fun p => p.1)

/-- The declared key names of the problem map. -/
def problemKeys : List String := (problemEntries {} none).map (fun p => p.1)

/-- The declared key names of the info map. -/
def infoKeys : List String := (infoEntries {}).map (fun p => p.1)

/-- The name of the info key `#doStep_l10n` creates dynamically. -/
def l10nDynKey : String := "PERF_L10N_NOT_SET"

theorem leBool_self (a : Bool) : leBool a a = true := by
  cases a <;> rfl

theorem leBool_true (a : Bool) : leBool a true = true := by
  cases a <;> rfl

theorem leBool_false (b : Bool) : leBool false b = true := rfl

theorem leBool_iff (a b : Bool) : leBool a b = true ↔ (a = true → b = true) := by
  cases a <;> cases b <;> simp [leBool]

theorem leBool_trans {a b c : Bool} (h1 : leBool a b = true)
    (h2 : leBool b c = true) : leBool a c = true := by
  cases a <;> cases b <;> cases c <;> simp_all [leBool]

theorem leBools_refl : ∀ (l : List Bool), leBools l l = true := by
  intro l
  induction l with
  | nil => rfl
  | cons a as ih => simp [leBools, leBool_self, ih]

theorem leBools_trans : ∀ {a b c : List Bool}, leBools a b = true →
    leBools b c = true → leBools a c = true := by
  intro a
  induction a with
  | nil =>
    intro b c h1 h2
    cases b <;> cases c <;> simp_all [leBools]
  | cons x xs ih =>
    intro b c h1 h2
    cases b with
    | nil => simp [leBools] at h1
    | cons y ys =>
      cases c with
      | nil => simp [leBools] at h2
      | cons z zs =>
        simp only [leBools, Bool.and_eq_true] at h1 h2 ⊢
        exact ⟨leBool_trans h1.1 h2.1, ih h1.2 h2.2⟩

theorem leBools_replicate_false : ∀ (n : Nat) (l : List Bool),
    l.length = n → leBools (List.replicate n false) l = true := by
  intro n
  induction n with
  | zero =>
    intro l hl
    rw [List.length_eq_zero.mp hl]
    rfl
  | succ m ih =>
    intro l hl
    cases l with
    | nil => simp at hl
    | cons b bs =>
      simp only [List.replicate_succ, leBools, leBool_false, Bool.true_and]
      exact ih bs (by simpa using hl)

theorem flagLe_refl (s : ModState) : flagLe s s = true :=
  leBools_refl (monFlags s)

theorem flagLe_trans {a b c : ModState} (h1 : flagLe a b = true)
    (h2 : flagLe b c = true) : flagLe a c = true :=
  leBools_trans h1 h2

theorem monFlags_length (s : ModState) : (monFlags s).length = 30 := rfl

/-- Replacing the target state by one with identical flag maps preserves
the order. -/
theorem flagLe_eq_flags (s t u : ModState)
    (hb : u.flag_broken = t.flag_broken)
    (hp : u.flag_problem = t.flag_problem)
    (hi : u.flag_info = t.flag_info)
    (h : flagLe s t = true) : flagLe s u = true := by
  unfold flagLe monFlags at h ⊢
  rw [hb, hp, hi]
  exact h

/-- One raise call never lowers any monotone component: per-field
implications for the three flag-setter if-chains. -/
theorem setBrokenFlag_mono_FILE_ERROR_GARBAGE_FILE (f : String) (b : FlagBroken) :
    leBool b.FILE_ERROR_GARBAGE_FILE (setBrokenFlag f b).FILE_ERROR_GARBAGE_FILE = true := by
  by_cases h : f = "FILE_ERROR_GARBAGE_FILE"
  · subst h
    simp only [setBrokenFlag, apply_ite (fun q : FlagBroken => q.FILE_ERROR_GARBAGE_FILE)]
    simp +decide [leBool_true, leBool_self]
  · simp only [setBrokenFlag, apply_ite (fun q : FlagBroken => q.FILE_ERROR_GARBAGE_FILE)]
    simp [h, leBool_self]

theorem setBrokenFlag_mono_FILE_ERROR_LIKELY_COPY (f : String) (b : FlagBroken) :
    leBool b.FILE_ERROR_LIKELY_COPY (setBrokenFlag f b).FILE_ERROR_LIKELY_COPY = true := by
  by_cases h : f = "FILE_ERROR_LIKELY_COPY"
  · subst h
    simp only [setBrokenFlag, apply_ite (fun q : FlagBroken => q.FILE_ERROR_LIKELY_COPY)]
    simp +decide [leBool_true, leBool_self]
  · simp only [setBrokenFlag, apply_ite (fun q : FlagBroken => q.FILE_ERROR_LIKELY_COPY)]
    simp [h, leBool_self]

theorem setBrokenFlag_mono_FILE_ERROR_LIKELY_ZIP_PACK (f : String) (b : FlagBroken) :
    leBool b.FILE_ERROR_LIKELY_ZIP_PACK (setBrokenFlag f b).FILE_ERROR_LIKELY_ZIP_PACK = true := by
  by_cases h : f = "FILE_ERROR_LIKELY_ZIP_PACK"
  · subst h
    simp only [setBrokenFlag, apply_ite (fun q : FlagBroken => q.FILE_ERROR_LIKELY_ZIP_PACK)]
    simp +decide [leBool_true, leBool_self]
  · simp only [setBrokenFlag, apply_ite (fun q : FlagBroken => q.FILE_ERROR_LIKELY_ZIP_PACK)]
    simp [h, leBool_self]

theorem setBrokenFlag_mono_FILE_ERROR_NAME_INVALID (f : String) (b : FlagBroken) :
    leBool b.FILE_ERROR_NAME_INVALID (setBrokenFlag f b).FILE_ERROR_NAME_INVALID = true := by
  by_cases h : f = "FILE_ERROR_NAME_INVALID"
  · subst h
    simp only [setBrokenFlag, apply_ite (fun q : FlagBroken => q.FILE_ERROR_NAME_INVALID)]
    simp +decide [leBool_true, leBool_self]
  · simp only [setBrokenFlag, apply_ite (fun q : FlagBroken => q.FILE_ERROR_NAME_INVALID)]
    simp [h, leBool_self]

theorem setBrokenFlag_mono_FILE_ERROR_NAME_STARTS_DIGIT (f : String) (b : FlagBroken) :
    leBool b.FILE_ERROR_NAME_STARTS_DIGIT (setBrokenFlag f b).FILE_ERROR_NAME_STARTS_DIGIT = true := by
  by_cases h : f = "FILE_ERROR_NAME_STARTS_DIGIT"
  · subst h
    simp only [setBrokenFlag, apply_ite (fun q : FlagBroken => q.FILE_ERROR_NAME_STARTS_DIGIT)]
    simp +decide [leBool_true, leBool_self]
  · simp only [setBrokenFlag, apply_ite (fun q : FlagBroken => q.FILE_ERROR_NAME_STARTS_DIGIT)]
    simp [h, leBool_self]

theorem setBrokenFlag_mono_FILE_ERROR_UNREADABLE_ZIP (f : String) (b : FlagBroken) :
    leBool b.FILE_ERROR_UNREADABLE_ZIP (setBrokenFlag f b).FILE_ERROR_UNREADABLE_ZIP = true := by
  by_cases h : f = "FILE_ERROR_UNREADABLE_ZIP"
  · subst h
    simp only [setBrokenFlag, apply_ite (fun q : FlagBroken => q.FILE_ERROR_UNREADABLE_ZIP)]
    simp +decide [leBool_true, leBool_self]
  · simp only [setBrokenFlag, apply_ite (fun q : FlagBroken => q.FILE_ERROR_UNREADABLE_ZIP)]
    simp [h, leBool_self]

theorem setBrokenFlag_mono_FILE_ERROR_UNSUPPORTED_ARCHIVE (f : String) (b : FlagBroken) :
    leBool b.FILE_ERROR_UNSUPPORTED_ARCHIVE (setBrokenFlag f b).FILE_ERROR_UNSUPPORTED_ARCHIVE = true := by
  by_cases h : f = "FILE_ERROR_UNSUPPORTED_ARCHIVE"
  · subst h
    simp only [setBrokenFlag, apply_ite (fun q : FlagBroken => q.FILE_ERROR_UNSUPPORTED_ARCHIVE)]
    simp +decide [leBool_true, leBool_self]
  · simp only [setBrokenFlag, apply_ite (fun q : FlagBroken => q.FILE_ERROR_UNSUPPORTED_ARCHIVE)]
    simp [h, leBool_self]

theorem setBrokenFlag_mono_MOD_ERROR_NO_MOD_VERSION (f : String) (b : FlagBroken) :
    leBool b.MOD_ERROR_NO_MOD_VERSION (setBrokenFlag f b).MOD_ERROR_NO_MOD_VERSION = true := by
  by_cases h : f = "MOD_ERROR_NO_MOD_VERSION"
  · subst h
    simp only [setBrokenFlag, apply_ite (fun q : FlagBroken => q.MOD_ERROR_NO_MOD_VERSION)]
    simp +decide [leBool_true, leBool_self]
  · simp only [setBrokenFlag, apply_ite (fun q : FlagBroken => q.MOD_ERROR_NO_MOD_VERSION)]
    simp [h, leBool_self]

theorem setBrokenFlag_mono_NOT_MOD_MODDESC_MISSING (f : String) (b : FlagBroken) :
    leBool b.NOT_MOD_MODDESC_MISSING (setBrokenFlag f b).NOT_MOD_MODDESC_MISSING = true := by
  by_cases h : f = "NOT_MOD_MODDESC_MISSING"
  · subst h
    simp only [setBrokenFlag, apply_ite (fun q : FlagBroken => q.NOT_MOD_MODDESC_MISSING)]
    simp +decide [leBool_true, leBool_self]
  · simp only [setBrokenFlag, apply_ite (fun q : FlagBroken => q.NOT_MOD_MODDESC_MISSING)]
    simp [h, leBool_self]

theorem setBrokenFlag_mono_NOT_MOD_MODDESC_PARSE_ERROR (f : String) (b : FlagBroken) :
    leBool b.NOT_MOD_MODDESC_PARSE_ERROR (setBrokenFlag f b).NOT_MOD_MODDESC_PARSE_ERROR = true := by
  by_cases h : f = "NOT_MOD_MODDESC_PARSE_ERROR"
  · subst h
    simp only [setBrokenFlag, apply_ite (fun q : FlagBroken => q.NOT_MOD_MODDESC_PARSE_ERROR)]
    simp +decide [leBool_true, leBool_self]
  · simp only [setBrokenFlag, apply_ite (fun q : FlagBroken => q.NOT_MOD_MODDESC_PARSE_ERROR)]
    simp [h, leBool_self]

theorem setBrokenFlag_mono_NOT_MOD_MODDESC_VERSION_OLD_OR_MISSING (f : String) (b : FlagBroken) :
    leBool b.NOT_MOD_MODDESC_VERSION_OLD_OR_MISSING (setBrokenFlag f b).NOT_MOD_MODDESC_VERSION_OLD_OR_MISSING = true := by
  by_cases h : f = "NOT_MOD_MODDESC_VERSION_OLD_OR_MISSING"
  · subst h
    simp only [setBrokenFlag, apply_ite (fun q : FlagBroken => q.NOT_MOD_MODDESC_VERSION_OLD_OR_MISSING)]
    simp +decide [leBool_true, leBool_self]
  · simp only [setBrokenFlag, apply_ite (fun q : FlagBroken => q.NOT_MOD_MODDESC_VERSION_OLD_OR_MISSING)]
    simp [h, leBool_self]

theorem setProblemFlag_mono_MOD_ERROR_MODDESC_DAMAGED_RECOVERABLE (f : String) (b : FlagProblem) :
    leBool b.MOD_ERROR_MODDESC_DAMAGED_RECOVERABLE (setProblemFlag f b).MOD_ERROR_MODDESC_DAMAGED_RECOVERABLE = true := by
  by_cases h : f = "MOD_ERROR_MODDESC_DAMAGED_RECOVERABLE"
  · subst h
    simp only [setProblemFlag, apply_ite (fun q : FlagProblem => q.MOD_ERROR_MODDESC_DAMAGED_RECOVERABLE)]
    simp +decide [leBool_true, leBool_self]
  · simp only [setProblemFlag, apply_ite (fun q : FlagProblem => q.MOD_ERROR_MODDESC_DAMAGED_RECOVERABLE)]
    simp [h, leBool_self]

theorem setProblemFlag_mono_MOD_ERROR_NO_MOD_ICON (f : String) (b : FlagProblem) :
    leBool b.MOD_ERROR_NO_MOD_ICON (setProblemFlag f b).MOD_ERROR_NO_MOD_ICON = true := by
  by_cases h : f = "MOD_ERROR_NO_MOD_ICON"
  · subst h
    simp only [setProblemFlag, apply_ite (fun q : FlagProblem => q.MOD_ERROR_NO_MOD_ICON)]
    simp +decide [leBool_true, leBool_self]
  · simp only [setProblemFlag, apply_ite (fun q : FlagProblem => q.MOD_ERROR_NO_MOD_ICON)]
    simp [h, leBool_self]

theorem setProblemFlag_mono_PERF_DDS_TOO_BIG (f : String) (b : FlagProblem) :
    leBool b.PERF_DDS_TOO_BIG (setProblemFlag f b).PERF_DDS_TOO_BIG = true := by
  by_cases h : f = "PERF_DDS_TOO_BIG"
  · subst h
    simp only [setProblemFlag, apply_ite (fun q : FlagProblem => q.PERF_DDS_TOO_BIG)]
    simp +decide [leBool_true, leBool_self]
  · simp only [setProblemFlag, apply_ite (fun q : FlagProblem => q.PERF_DDS_TOO_BIG)]
    simp [h, leBool_self]

theorem setProblemFlag_mono_PERF_GDM_TOO_BIG (f : String) (b : FlagProblem) :
    leBool b.PERF_GDM_TOO_BIG (setProblemFlag f b).PERF_GDM_TOO_BIG = true := by
  by_cases h : f = "PERF_GDM_TOO_BIG"
  · subst h
    simp only [setProblemFlag, apply_ite (fun q : FlagProblem => q.PERF_GDM_TOO_BIG)]
    simp +decide [leBool_true, leBool_self]
  · simp only [setProblemFlag, apply_ite (fun q : FlagProblem => q.PERF_GDM_TOO_BIG)]
    simp [h, leBool_self]

theorem setProblemFlag_mono_PERF_GRLE_TOO_MANY (f : String) (b : FlagProblem) :
    leBool b.PERF_GRLE_TOO_MANY (setProblemFlag f b).PERF_GRLE_TOO_MANY = true := by
  by_cases h : f = "PERF_GRLE_TOO_MANY"
  · subst h
    simp only [setProblemFlag, apply_ite (fun q : FlagProblem => q.PERF_GRLE_TOO_MANY)]
    simp +decide [leBool_true, leBool_self]
  · simp only [setProblemFlag, apply_ite (fun q : FlagProblem => q.PERF_GRLE_TOO_MANY)]
    simp [h, leBool_self]

theorem setProblemFlag_mono_PERF_HAS_EXTRA (f : String) (b : FlagProblem) :
    leBool b.PERF_HAS_EXTRA (setProblemFlag f b).PERF_HAS_EXTRA = true := by
  by_cases h : f = "PERF_HAS_EXTRA"
  · subst h
    simp only [setProblemFlag, apply_ite (fun q : FlagProblem => q.PERF_HAS_EXTRA)]
    simp +decide [leBool_true, leBool_self]
  · simp only [setProblemFlag, apply_ite (fun q : FlagProblem => q.PERF_HAS_EXTRA)]
    simp [h, leBool_self]

theorem setProblemFlag_mono_PERF_I3D_TOO_BIG (f : String) (b : FlagProblem) :
    leBool b.PERF_I3D_TOO_BIG (setProblemFlag f b).PERF_I3D_TOO_BIG = true := by
  by_cases h : f = "PERF_I3D_TOO_BIG"
  · subst h
    simp only [setProblemFlag, apply_ite (fun q : FlagProblem => q.PERF_I3D_TOO_BIG)]
    simp +decide [leBool_true, leBool_self]
  · simp only [setProblemFlag, apply_ite (fun q : FlagProblem => q.PERF_I3D_TOO_BIG)]
    simp [h, leBool_self]

theorem setProblemFlag_mono_PERF_L10N_NOT_SET (f : String) (b : FlagProblem) :
    leBool b.PERF_L10N_NOT_SET (setProblemFlag f b).PERF_L10N_NOT_SET = true := by
  by_cases h : f = "PERF_L10N_NOT_SET"
  · subst h
    simp only [setProblemFlag, apply_ite (fun q : FlagProblem => q.PERF_L10N_NOT_SET)]
    simp +decide [leBool_true, leBool_self]
  · simp only [setProblemFlag, apply_ite (fun q : FlagProblem => q.PERF_L10N_NOT_SET)]
    simp [h, leBool_self]

theorem setProblemFlag_mono_PERF_PDF_TOO_MANY (f : String) (b : FlagProblem) :
    leBool b.PERF_PDF_TOO_MANY (setProblemFlag f b).PERF_PDF_TOO_MANY = true := by
  by_cases h : f = "PERF_PDF_TOO_MANY"
  · subst h
    simp only [setProblemFlag, apply_ite (fun q : FlagProblem => q.PERF_PDF_TOO_MANY)]
    simp +decide [leBool_true, leBool_self]
  · simp only [setProblemFlag, apply_ite (fun q : FlagProblem => q.PERF_PDF_TOO_MANY)]
    simp [h, leBool_self]

theorem setProblemFlag_mono_PERF_PNG_TOO_MANY (f : String) (b : FlagProblem) :
    leBool b.PERF_PNG_TOO_MANY (setProblemFlag f b).PERF_PNG_TOO_MANY = true := by
  by_cases h : f = "PERF_PNG_TOO_MANY"
  · subst h
    simp only [setProblemFlag, apply_ite (fun q : FlagProblem => q.PERF_PNG_TOO_MANY)]
    simp +decide [leBool_true, leBool_self]
  · simp only [setProblemFlag, apply_ite (fun q : FlagProblem => q.PERF_PNG_TOO_MANY)]
    simp [h, leBool_self]

theorem setProblemFlag_mono_PERF_SHAPES_TOO_BIG (f : String) (b : FlagProblem) :
    leBool b.PERF_SHAPES_TOO_BIG (setProblemFlag f b).PERF_SHAPES_TOO_BIG = true := by
  by_cases h : f = "PERF_SHAPES_TOO_BIG"
  · subst h
    simp only [setProblemFlag, apply_ite (fun q : FlagProblem => q.PERF_SHAPES_TOO_BIG)]
    simp +decide [leBool_true, leBool_self]
  · simp only [setProblemFlag, apply_ite (fun q : FlagProblem => q.PERF_SHAPES_TOO_BIG)]
    simp [h, leBool_self]

theorem setProblemFlag_mono_PERF_SPACE_IN_FILE (f : String) (b : FlagProblem) :
    leBool b.PERF_SPACE_IN_FILE (setProblemFlag f b).PERF_SPACE_IN_FILE = true := by
  by_cases h : f = "PERF_SPACE_IN_FILE"
  · subst h
    simp only [setProblemFlag, apply_ite (fun q : FlagProblem => q.PERF_SPACE_IN_FILE)]
    simp +decide [leBool_true, leBool_self]
  · simp only [setProblemFlag, apply_ite (fun q : FlagProblem => q.PERF_SPACE_IN_FILE)]
    simp [h, leBool_self]

theorem setProblemFlag_mono_PERF_TXT_TOO_MANY (f : String) (b : FlagProblem) :
    leBool b.PERF_TXT_TOO_MANY (setProblemFlag f b).PERF_TXT_TOO_MANY = true := by
  by_cases h : f = "PERF_TXT_TOO_MANY"
  · subst h
    simp only [setProblemFlag, apply_ite (fun q : FlagProblem => q.PERF_TXT_TOO_MANY)]
    simp +decide [leBool_true, leBool_self]
  · simp only [setProblemFlag, apply_ite (fun q : FlagProblem => q.PERF_TXT_TOO_MANY)]
    simp [h, leBool_self]

theorem setProblemFlag_mono_PERF_XML_TOO_BIG (f : String) (b : FlagProblem) :
    leBool b.PERF_XML_TOO_BIG (setProblemFlag f b).PERF_XML_TOO_BIG = true := by
  by_cases h : f = "PERF_XML_TOO_BIG"
  · subst h
    simp only [setProblemFlag, apply_ite (fun q : FlagProblem => q.PERF_XML_TOO_BIG)]
    simp +decide [leBool_true, leBool_self]
  · simp only [setProblemFlag, apply_ite (fun q : FlagProblem => q.PERF_XML_TOO_BIG)]
    simp [h, leBool_self]

theorem setProblemFlag_mono_PREF_PNG_TEXTURE (f : String) (b : FlagProblem) :
    leBool b.PREF_PNG_TEXTURE (setProblemFlag f b).PREF_PNG_TEXTURE = true := by
  by_cases h : f = "PREF_PNG_TEXTURE"
  · subst h
    simp only [setProblemFlag, apply_ite (fun q : FlagProblem => q.PREF_PNG_TEXTURE)]
    simp +decide [leBool_true, leBool_self]
  · simp only [setProblemFlag, apply_ite (fun q : FlagProblem => q.PREF_PNG_TEXTURE)]
    simp [h, leBool_self]

theorem setInfoFlag_mono_INFO_NO_MULTIPLAYER_UNZIPPED (f : String) (b : FlagInfo) :
    leBool b.INFO_NO_MULTIPLAYER_UNZIPPED (setInfoFlag f b).INFO_NO_MULTIPLAYER_UNZIPPED = true := by
  by_cases h : f = "INFO_NO_MULTIPLAYER_UNZIPPED"
  · subst h
    simp only [setInfoFlag, apply_ite (fun q : FlagInfo => q.INFO_NO_MULTIPLAYER_UNZIPPED)]
    simp +decide [leBool_true, leBool_self]
  · simp only [setInfoFlag, apply_ite (fun q : FlagInfo => q.INFO_NO_MULTIPLAYER_UNZIPPED)]
    simp [h, leBool_self]

theorem setInfoFlag_mono_FILE_IS_A_SAVEGAME (f : String) (b : FlagInfo) :
    leBool b.FILE_IS_A_SAVEGAME (setInfoFlag f b).FILE_IS_A_SAVEGAME = true := by
  by_cases h : f = "FILE_IS_A_SAVEGAME"
  · subst h
    simp only [setInfoFlag, apply_ite (fun q : FlagInfo => q.FILE_IS_A_SAVEGAME)]
    simp +decide [leBool_true, leBool_self]
  · simp only [setInfoFlag, apply_ite (fun q : FlagInfo => q.FILE_IS_A_SAVEGAME)]
    simp [h, leBool_self]

theorem setInfoFlag_mono_MALICIOUS_CODE (f : String) (b : FlagInfo) :
    leBool b.MALICIOUS_CODE (setInfoFlag f b).MALICIOUS_CODE = true := by
  by_cases h : f = "MALICIOUS_CODE"
  · subst h
    simp only [setInfoFlag, apply_ite (fun q : FlagInfo => q.MALICIOUS_CODE)]
    simp +decide [leBool_true, leBool_self]
  · simp only [setInfoFlag, apply_ite (fun q : FlagInfo => q.MALICIOUS_CODE)]
    simp [h, leBool_self]

theorem flagLe_raiseB (f : String) (s : ModState) :
    flagLe s (util_raiseFlag_broken f s) = true := by
  unfold flagLe monFlags util_raiseFlag_broken
  dsimp only
  simp only [leBools, Bool.and_true, Bool.and_eq_true]
  exact ⟨setBrokenFlag_mono_FILE_ERROR_GARBAGE_FILE f s.flag_broken,
    setBrokenFlag_mono_FILE_ERROR_LIKELY_COPY f s.flag_broken,
    setBrokenFlag_mono_FILE_ERROR_LIKELY_ZIP_PACK f s.flag_broken,
    setBrokenFlag_mono_FILE_ERROR_NAME_INVALID f s.flag_broken,
    setBrokenFlag_mono_FILE_ERROR_NAME_STARTS_DIGIT f s.flag_broken,
    setBrokenFlag_mono_FILE_ERROR_UNREADABLE_ZIP f s.flag_broken,
    setBrokenFlag_mono_FILE_ERROR_UNSUPPORTED_ARCHIVE f s.flag_broken,
    setBrokenFlag_mono_MOD_ERROR_NO_MOD_VERSION f s.flag_broken,
    setBrokenFlag_mono_NOT_MOD_MODDESC_MISSING f s.flag_broken,
    setBrokenFlag_mono_NOT_MOD_MODDESC_PARSE_ERROR f s.flag_broken,
    setBrokenFlag_mono_NOT_MOD_MODDESC_VERSION_OLD_OR_MISSING f s.flag_broken,
    leBool_self _,
    leBool_self _,
    leBool_self _,
    leBool_self _,
    leBool_self _,
    leBool_self _,
    leBool_self _,
    leBool_self _,
    leBool_self _,
    leBool_self _,
    leBool_self _,
    leBool_self _,
    leBool_self _,
    leBool_self _,
    leBool_self _,
    leBool_self _,
    leBool_self _,
    leBool_self _,
    leBool_self _⟩

theorem flagLe_raiseP (f : String) (s : ModState) :
    flagLe s (util_raiseFlag_problem f s) = true := by
  unfold flagLe monFlags util_raiseFlag_problem
  dsimp only
  simp only [leBools, Bool.and_true, Bool.and_eq_true]
  exact ⟨leBool_self _,
    leBool_self _,
    leBool_self _,
    leBool_self _,
    leBool_self _,
    leBool_self _,
    leBool_self _,
    leBool_self _,
    leBool_self _,
    leBool_self _,
    leBool_self _,
    setProblemFlag_mono_MOD_ERROR_MODDESC_DAMAGED_RECOVERABLE f s.flag_problem,
    setProblemFlag_mono_MOD_ERROR_NO_MOD_ICON f s.flag_problem,
    setProblemFlag_mono_PERF_DDS_TOO_BIG f s.flag_problem,
    setProblemFlag_mono_PERF_GDM_TOO_BIG f s.flag_problem,
    setProblemFlag_mono_PERF_GRLE_TOO_MANY f s.flag_problem,
    setProblemFlag_mono_PERF_HAS_EXTRA f s.flag_problem,
    setProblemFlag_mono_PERF_I3D_TOO_BIG f s.flag_problem,
    setProblemFlag_mono_PERF_L10N_NOT_SET f s.flag_problem,
    setProblemFlag_mono_PERF_PDF_TOO_MANY f s.flag_problem,
    setProblemFlag_mono_PERF_PNG_TOO_MANY f s.flag_problem,
    setProblemFlag_mono_PERF_SHAPES_TOO_BIG f s.flag_problem,
    setProblemFlag_mono_PERF_SPACE_IN_FILE f s.flag_problem,
    setProblemFlag_mono_PERF_TXT_TOO_MANY f s.flag_problem,
    setProblemFlag_mono_PERF_XML_TOO_BIG f s.flag_problem,
    setProblemFlag_mono_PREF_PNG_TEXTURE f s.flag_problem,
    leBool_self _,
    leBool_self _,
    leBool_self _,
    leBool_self _⟩

theorem flagLe_raiseI (f : String) (s : ModState) :
    flagLe s (util_raiseFlag_info f s) = true := by
  unfold flagLe monFlags util_raiseFlag_info
  dsimp only
  simp only [setInfoFlag_dyn]
  simp only [leBools, Bool.and_true, Bool.and_eq_true]
  exact ⟨leBool_self _,
    leBool_self _,
    leBool_self _,
    leBool_self _,
    leBool_self _,
    leBool_self _,
    leBool_self _,
    leBool_self _,
    leBool_self _,
    leBool_self _,
    leBool_self _,
    leBool_self _,
    leBool_self _,
    leBool_self _,
    leBool_self _,
    leBool_self _,
    leBool_self _,
    leBool_self _,
    leBool_self _,
    leBool_self _,
    leBool_self _,
    leBool_self _,
    leBool_self _,
    leBool_self _,
    leBool_self _,
    leBool_self _,
    setInfoFlag_mono_INFO_NO_MULTIPLAYER_UNZIPPED f s.flag_info,
    setInfoFlag_mono_FILE_IS_A_SAVEGAME f s.flag_info,
    setInfoFlag_mono_MALICIOUS_CODE f s.flag_info,
    leBool_self _⟩

theorem monFlags_mkInitialState :
    monFlags mkInitialState = List.replicate 30 false := by decide

theorem flagLe_init (env : Env) :
    flagLe mkInitialState (run_constructed env) = true := by
  unfold flagLe
  rw [monFlags_mkInitialState]
  exact leBools_replicate_false 30 _ (monFlags_length _)

theorem flagLe_validFileName (s : ModState) :
    flagLe s (doStep_validFileName s).1 = true := by
  unfold doStep_validFileName
  dsimp only
  split_ifs <;> try split
  all_goals
    first
      | exact flagLe_refl _
      | exact flagLe_raiseB _ _
      | exact flagLe_trans (flagLe_raiseB _ _) (flagLe_raiseB _ _)

theorem flagLe_nameStep (env : Env) (s : ModState) :
    flagLe s (nameStep env s).1 = true := by
  unfold nameStep
  dsimp only
  rcases hv : doStep_validFileName { s with uuid := some env.uuidHex }
    with ⟨s1, b⟩
  have h1 : flagLe s s1 = true := by
    have h := flagLe_validFileName { s with uuid := some env.uuidHex }
    rw [hv] at h
    exact h
  cases b
  · dsimp only
    exact flagLe_trans h1 (flagLe_raiseB _ _)
  · dsimp only
    exact h1

theorem flagLe_gateStep (env : Env) (v : Bool) (s : ModState) :
    flagLe s (gateStep env v s) = true := by
  unfold gateStep
  split_ifs <;>
    first
      | exact flagLe_refl _
      | exact flagLe_raiseB _ _
      | exact flagLe_raiseI _ _

theorem foldl_mono_proj {β : Type} (g : ModState → β → ModState)
    (proj : ModState → Bool)
    (h : ∀ s e, proj s = true → proj (g s e) = true) :
    ∀ (l : List β) (s : ModState), proj s = true → proj (l.foldl g s) = true := by
  intro l
  induction l with
  | nil => intro s hs; exact hs
  | cons e es ih => intro s hs; exact ih (g s e) (h s e hs)

theorem checkLUA_MAL_mono (env : Env) (full : String) (s : ModState)
    (h : s.flag_info.MALICIOUS_CODE = true) :
    (util_checkLUA env full s).flag_info.MALICIOUS_CODE = true := by
  unfold util_checkLUA
  repeat' split
  all_goals simp_all [util_raiseFlag_info, setInfoFlag]

theorem countFile_MAL_mono (env : Env) (suffix n : String) (size : Nat)
    (full : String) (s : ModState) (h : s.flag_info.MALICIOUS_CODE = true) :
    (util_countFile env suffix n size full s).flag_info.MALICIOUS_CODE = true := by
  rcases hu : util_countUnknown (suffix.drop 1) n s with ⟨s1, b⟩
  have h1 : s1.flag_info.MALICIOUS_CODE = true := by
    have h2 : s1 = (util_countUnknown (suffix.drop 1) n s).1 := by rw [hu]
    rw [h2]
    unfold util_countUnknown
    split_ifs <;> simp [util_raiseFlag_problem, h]
  unfold util_countFile
  dsimp only
  rw [hu]
  cases b
  · dsimp only
    repeat' split
    all_goals simp_all [checkLUA_MAL_mono]
  · dsimp only
    exact h1

theorem walkEntry_MAL_mono (env : Env) (s : ModState) (e : Entry)
    (h : s.flag_info.MALICIOUS_CODE = true) :
    (walkEntry env s e).flag_info.MALICIOUS_CODE = true := by
  unfold walkEntry
  dsimp only
  split
  · split <;> simp_all [util_raiseFlag_problem, countFile_MAL_mono]
  · split <;> simp_all [util_raiseFlag_problem, countFile_MAL_mono]

theorem fileCounts_MAL_mono (env : Env) (s : ModState)
    (h : s.flag_info.MALICIOUS_CODE = true) :
    (doStep_fileCounts env s).flag_info.MALICIOUS_CODE = true := by
  unfold doStep_fileCounts
  dsimp only
  exact foldl_mono_proj (walkEntry env) (fun st => st.flag_info.MALICIOUS_CODE)
    (fun st e he => walkEntry_MAL_mono env st e he) env.entries s h

theorem flagLe_fileCounts (env : Env) (s : ModState)
    (hp : s.flag_problem = ({} : FlagProblem)) :
    flagLe s (doStep_fileCounts env s) = true := by
  unfold flagLe monFlags
  rw [fileCounts_flag_broken, fileCounts_info_noMP, fileCounts_info_savegame,
    fileCounts_info_dyn, hp]
  simp only [leBools, Bool.and_true, Bool.and_eq_true]
  exact ⟨leBool_self _, leBool_self _, leBool_self _, leBool_self _,
    leBool_self _, leBool_self _, leBool_self _, leBool_self _,
    leBool_self _, leBool_self _, leBool_self _,
    leBool_false _, leBool_false _, leBool_false _, leBool_false _,
    leBool_false _, leBool_false _, leBool_false _, leBool_false _,
    leBool_false _, leBool_false _, leBool_false _, leBool_false _,
    leBool_false _, leBool_false _, leBool_false _,
    leBool_self _, leBool_self _,
    (leBool_iff _ _).mpr (fun hm => fileCounts_MAL_mono env s hm),
    leBool_self _⟩

theorem flagLe_counts (env : Env) :
    flagLe (run_afterGate env) (run_afterCounts env) = true := by
  unfold run_afterCounts
  by_cases hp : proceeds env = true
  · simp only [hp, if_true]
    exact flagLe_fileCounts env _ (afterGate_flag_problem env)
  · simp only [hp, if_false]
    exact flagLe_refl _

theorem flagLe_parse (env : Env) (s : ModState)
    (h1 : s.flag_broken.NOT_MOD_MODDESC_VERSION_OLD_OR_MISSING = false)
    (h2 : s.flag_broken.MOD_ERROR_NO_MOD_VERSION = false) :
    flagLe s (doStep_parseModDesc env s) = true := by
  unfold doStep_parseModDesc
  cases hx : env.modDescXML with
  | parseError => exact flagLe_raiseB _ _
  | missing => exact flagLe_raiseB _ _
  | ok t =>
    dsimp only
    refine flagLe_eq_flags s _ _ (parseActions_flag_broken t _)
      (parseActions_flag_problem t _) (parseActions_flag_info t _) ?_
    split
    · unfold flagLe monFlags
      dsimp only
      simp only [leBools, Bool.and_true, Bool.and_eq_true]
      exact ⟨leBool_self _,
    leBool_self _,
    leBool_self _,
    leBool_self _,
    leBool_self _,
    leBool_self _,
    leBool_self _,
    (by rw [h2]; exact leBool_false _),
    leBool_self _,
    leBool_self _,
    (by rw [h1]; exact leBool_false _),
    leBool_self _,
    leBool_self _,
    leBool_self _,
    leBool_self _,
    leBool_self _,
    leBool_self _,
    leBool_self _,
    leBool_self _,
    leBool_self _,
    leBool_self _,
    leBool_self _,
    leBool_self _,
    leBool_self _,
    leBool_self _,
    leBool_self _,
    leBool_self _,
    leBool_self _,
    leBool_self _,
    leBool_self _⟩
    · refine flagLe_trans ?_ (flagLe_raiseP _ _)
      unfold flagLe monFlags
      dsimp only
      simp only [leBools, Bool.and_true, Bool.and_eq_true]
      exact ⟨leBool_self _,
    leBool_self _,
    leBool_self _,
    leBool_self _,
    leBool_self _,
    leBool_self _,
    leBool_self _,
    (by rw [h2]; exact leBool_false _),
    leBool_self _,
    leBool_self _,
    (by rw [h1]; exact leBool_false _),
    leBool_self _,
    leBool_self _,
    leBool_self _,
    leBool_self _,
    leBool_self _,
    leBool_self _,
    leBool_self _,
    leBool_self _,
    leBool_self _,
    leBool_self _,
    leBool_self _,
    leBool_self _,
    leBool_self _,
    leBool_self _,
    leBool_self _,
    leBool_self _,
    leBool_self _,
    leBool_self _,
    leBool_self _⟩

theorem afterCounts_NOVERSION (env : Env) :
    (run_afterCounts env).flag_broken.MOD_ERROR_NO_MOD_VERSION = false := by
  have hg : (run_afterGate env).flag_broken.MOD_ERROR_NO_MOD_VERSION = false := by
    unfold run_afterGate run_afterName run_constructed
    rw [gateStep_NOVERSION, nameStep_NOVERSION]
    rfl
  unfold run_afterCounts
  by_cases hp : proceeds env = true <;>
    simp [hp, fileCounts_flag_broken, hg]

theorem afterCounts_OLDVERSION (env : Env) :
    (run_afterCounts env).flag_broken.NOT_MOD_MODDESC_VERSION_OLD_OR_MISSING
      = false := by
  have hg : (run_afterGate env).flag_broken.NOT_MOD_MODDESC_VERSION_OLD_OR_MISSING
      = false := by
    unfold run_afterGate run_afterName run_constructed
    rw [gateStep_OLDVERSION, nameStep_OLDVERSION]
    rfl
  unfold run_afterCounts
  by_cases hp : proceeds env = true <;>
    simp [hp, fileCounts_flag_broken, hg]

theorem flagLe_mapCrop (env : Env) (s : ModState) :
    flagLe s (mapCropStage env s) = true :=
  flagLe_eq_flags s s _ (mapCrop_flag_broken env s) (mapCrop_flag_problem env s)
    (mapCrop_flag_info env s) (flagLe_refl s)

theorem flagLe_iconStage (env : Env) (s : ModState) :
    flagLe s (iconStage env s) = true := by
  unfold iconStage
  split
  · split_ifs
    · exact flagLe_raiseP _ _
    · exact flagLe_raiseP _ _
    · exact flagLe_refl _
    · exact flagLe_raiseP _ _
  · exact flagLe_raiseP _ _

theorem flagLe_l10n (env : Env) (s : ModState)
    (h : s.flag_info.PERF_L10N_NOT_SET = none) :
    flagLe s (doStep_l10n env s) = true := by
  unfold flagLe monFlags
  rw [l10n_flag_broken, l10n_flag_problem, l10n_info_noMP, l10n_info_savegame,
    l10n_info_malicious, l10n_info_dyn, h]
  simp only [leBools, Bool.and_true, Bool.and_eq_true]
  exact ⟨leBool_self _,
    leBool_self _,
    leBool_self _,
    leBool_self _,
    leBool_self _,
    leBool_self _,
    leBool_self _,
    leBool_self _,
    leBool_self _,
    leBool_self _,
    leBool_self _,
    leBool_self _,
    leBool_self _,
    leBool_self _,
    leBool_self _,
    leBool_self _,
    leBool_self _,
    leBool_self _,
    leBool_self _,
    leBool_self _,
    leBool_self _,
    leBool_self _,
    leBool_self _,
    leBool_self _,
    leBool_self _,
    leBool_self _,
    leBool_self _,
    leBool_self _,
    leBool_self _,
    leBool_false _⟩

theorem flagLe_name (env : Env) :
    flagLe (run_constructed env) (run_afterName env) = true := by
  unfold run_afterName
  exact flagLe_nameStep env _

theorem flagLe_gate (env : Env) :
    flagLe (run_afterName env) (run_afterGate env) = true := by
  unfold run_afterGate
  exact flagLe_gateStep env _ _

theorem flagLe_desc (env : Env) :
    flagLe (run_afterCounts env) (run_afterDesc env) = true := by
  unfold run_afterDesc
  by_cases hp : proceeds env = true
  · simp only [hp, if_true]
    exact flagLe_parse env _ (afterCounts_OLDVERSION env) (afterCounts_NOVERSION env)
  · simp only [hp, if_false]
    exact flagLe_refl _

theorem flagLe_map (env : Env) :
    flagLe (run_afterDesc env) (run_afterMap env) = true := by
  unfold run_afterMap
  by_cases hp : proceeds env = true
  · simp only [hp, if_true]
    exact flagLe_mapCrop env _
  · simp only [hp, if_false]
    exact flagLe_refl _

theorem flagLe_iconRun (env : Env) :
    flagLe (run_afterMap env) (run_afterIcon env) = true := by
  unfold run_afterIcon
  by_cases hp : proceeds env = true
  · simp only [hp, if_true]
    exact flagLe_iconStage env _
  · simp only [hp, if_false]
    exact flagLe_refl _

theorem flagLe_final (env : Env) :
    flagLe (run_afterIcon env) (run_final env) = true := by
  unfold run_final
  exact flagLe_l10n env _ (afterIcon_info_dyn env)

/-- Claim C2 as amended: the DECLARED flag names of the three maps are
unique across categories, but the info key `#doStep_l10n` creates
dynamically shares its name with a declared problem flag; all flags start
false; and every flag EXCEPT `INFO_MIGHT_BE_PIRACY` (which
`#doStep_parseModDesc` overwrites unconditionally) is monotonically raised
along the whole state trace of a run, the dynamic info key counting as
raised when it holds `true`. -/
theorem C2_flag_invariants_amended (env : Env) :
    (brokenKeys ++ problemKeys ++ infoKeys).Nodup
    ∧ l10nDynKey ∈ problemKeys
    ∧ monFlags mkInitialState = List.replicate 30 false
    ∧ List.Chain' (fun a b => flagLe a b = true) (runTrace env) := by
  refine ⟨by decide, by decide, monFlags_mkInitialState, ?_⟩
  unfold runTrace
  simp only [List.chain'_cons, List.chain'_singleton, and_true]
  exact ⟨flagLe_init env, flagLe_name env, flagLe_gate env, flagLe_counts env,
    flagLe_desc env, flagLe_map env, flagLe_iconRun env, flagLe_final env⟩

/-- Counterexample for claim C2: on an archive with a `.dat` entry and a
descriptor without a product id, `INFO_MIGHT_BE_PIRACY` is raised by the
walk and cleared again by the descriptor step at the very next trace
position, so it is not monotone; and the dynamically created info key
duplicates a declared problem-map name, so names are not unique across
the categories. -/
theorem C2_counterexample :
    (runTrace datFileEnv)[4]? = some (run_afterCounts datFileEnv)
    ∧ (runTrace datFileEnv)[5]? = some (run_afterDesc datFileEnv)
    ∧ (run_afterCounts datFileEnv).flag_problem.INFO_MIGHT_BE_PIRACY = true
    ∧ (run_afterDesc datFileEnv).flag_problem.INFO_MIGHT_BE_PIRACY = false
    ∧ (run_final datFileEnv).flag_info.PERF_L10N_NOT_SET.isSome = true
    ∧ l10nDynKey ∈ problemKeys := by
  refine ⟨rfl, rfl, by decide, by decide, by decide, by decide⟩
